import Mathlib

/-!
Dynamic resources, command-queue rotation, factory transactions and the render worker of the
boo graphics layer, and the stick clamping of its Dolphin adapter.

A shallow embedding of `lib/graphicsdev/GL.cpp` and of the clamp functions of
`lib/inputdev/DolphinSmashAdapter.cpp`:

* `GLGraphicsBufferD` / `GLTextureD` : triple-buffered dynamic resources with a CPU staging
  copy and a validity bitmask (`update`, `load`, `map`, `unmap`);
* `GLCommandQueue` : the three rotating command buffers with the `m_fillBuf` /
  `m_completeBuf` / `m_drawBuf` indices, the recording methods, the pending structural
  changes, `execute` and one wake-up of `RenderingWorker`, with the driver calls it issues
  (`ConfigureFBO`, `ConfigureVertexFormat`, `resize`, `bind` and the replay loop);
* `GLDataFactory` : the resource constructors, the methods of `GLDataFactory::Context`,
  `commitTransaction`, `destroyData` and `destroyAllData`;
* `pad_clampstick`, `pad_clamptrigger` and `DolphinControllerState::clamp`.

Bytes are natural numbers, memory blocks are lists, objects that the code compares or looks up
by pointer carry their address.  Driver (GL) side effects that matter for the properties below
are kept as explicit state: the data store behind every GL object name and a log of the upload
calls issued for it; the calls of the render worker are a list of `GLCall`.  What the
environment decides during a call (addresses returned by `new`, names and status values
returned by the driver, indeterminate bytes of fresh storage) is an argument of the call, and
so is the memory the worker reads through the pointers it holds.
-/

namespace boo

/-! ## Fixed arrays of three elements -/

/-- A C array `T x[3]`.  The source indexes these with raw integers. -/
structure Arr3 (α : Type) where
  e0 : α
  e1 : α
  e2 : α
deriving DecidableEq, Repr

/-- Read `x[i]`; `none` stands for an index outside the array. -/
def Arr3.get? {α : Type} (a : Arr3 α) (i : Nat) : Option α :=
  match i with
  | 0 => some a.e0
  | 1 => some a.e1
  | 2 => some a.e2
  | _ => none

/-- Apply `f` to `x[i]` in place; an index outside the array touches nothing. -/
def Arr3.modify {α : Type} (a : Arr3 α) (i : Nat) (f : α → α) : Arr3 α :=
  match i with
  | 0 => { a with e0 := f a.e0 }
  | 1 => { a with e1 := f a.e1 }
  | 2 => { a with e2 := f a.e2 }
  | _ => a

/-- Store `v` into `x[i]`. -/
def Arr3.set {α : Type} (a : Arr3 α) (i : Nat) (v : α) : Arr3 α :=
  a.modify i (fun _ => v)

/-! ## Memory helpers -/

/-- The effect of `memcpy(dst, src, n)` on the block `dst`: its first `n` bytes are replaced by
the first `n` bytes of `src`.  (The caller must own `n` bytes behind both pointers.) -/
def memcpy (dst src : List Nat) (n : Nat) : List Nat :=
  src.take n ++ dst.drop n

/-- An array `new uint8_t[sz]`: `sz` bytes whose values are indeterminate, given by `indet`. -/
def newBytes (sz : Nat) (indet : Nat → Nat) : List Nat :=
  (List.range sz).map indet

/-- The width of `size_t` arithmetic. -/
def SIZE_MAX1 : Nat := 2 ^ 64

/-! ## GL constants used below -/

def GL_INVALID_ENUM : Nat := 0x0500
def GL_ARRAY_BUFFER : Nat := 0x8892
def GL_ELEMENT_ARRAY_BUFFER : Nat := 0x8893
def GL_UNIFORM_BUFFER : Nat := 0x8A11
def GL_RGBA : Nat := 0x1908
def GL_RED : Nat := 0x1903
def GL_R8 : Nat := 0x8229
def GL_COLOR_BUFFER_BIT : Nat := 0x4000
def GL_DEPTH_BUFFER_BIT : Nat := 0x0100
def GL_TRUE : Nat := 1
def GL_ZERO : Nat := 0
def GL_ONE : Nat := 1
def GL_SRC_COLOR : Nat := 0x0300
def GL_ONE_MINUS_SRC_COLOR : Nat := 0x0301
def GL_SRC_ALPHA : Nat := 0x0302
def GL_ONE_MINUS_SRC_ALPHA : Nat := 0x0303
def GL_DST_ALPHA : Nat := 0x0304
def GL_ONE_MINUS_DST_ALPHA : Nat := 0x0305
def GL_DST_COLOR : Nat := 0x0306
def GL_ONE_MINUS_DST_COLOR : Nat := 0x0307
def GL_SRC1_COLOR : Nat := 0x88F9
def GL_ONE_MINUS_SRC1_COLOR : Nat := 0x88FA
def GL_TRIANGLES : Nat := 0x0004
def GL_TRIANGLE_STRIP : Nat := 0x0005
def GL_TEXTURE_2D : Nat := 0x0DE1
def GL_TEXTURE_2D_MULTISAMPLE : Nat := 0x9100
def GL_COMPRESSED_RGBA_S3TC_DXT1_EXT : Nat := 0x83F1
def GL_FALSE : Nat := 0
def GL_FRAMEBUFFER : Nat := 0x8D40
def GL_READ_FRAMEBUFFER : Nat := 0x8CA8
def GL_DRAW_FRAMEBUFFER : Nat := 0x8CA9
def GL_COLOR_ATTACHMENT0 : Nat := 0x8CE0
def GL_DEPTH_ATTACHMENT : Nat := 0x8D00
def GL_DEPTH_COMPONENT : Nat := 0x1902
def GL_DEPTH_COMPONENT24 : Nat := 0x81A6
def GL_UNSIGNED_BYTE : Nat := 0x1401
def GL_UNSIGNED_INT : Nat := 0x1405
def GL_FLOAT : Nat := 0x1406
def GL_NEAREST : Nat := 0x2600
def GL_TEXTURE0 : Nat := 0x84C0
def GL_TEXTURE9 : Nat := 0x84C9
def GL_TEXTURE_2D_ARRAY : Nat := 0x8C1A
def GL_SCISSOR_TEST : Nat := 0x0C11
def GL_BLEND : Nat := 0x0BE2
def GL_DEPTH_TEST : Nat := 0x0B71
def GL_CULL_FACE : Nat := 0x0B44
def GL_LEQUAL : Nat := 0x0203

/-- The table `USE_TABLE`, indexed by `int(BufferUse)`. -/
def USE_TABLE : List Nat :=
  [GL_INVALID_ENUM, GL_ARRAY_BUFFER, GL_ELEMENT_ARRAY_BUFFER, GL_UNIFORM_BUFFER]

/-! ## Dynamic buffer -/

/-- State of a `GLGraphicsBufferD`.

* `m_bufs` holds, for each of the three GL buffer names, the contents of its data store
  (created with `glBufferData(m_target, m_cpuSz, nullptr, GL_STREAM_DRAW)`, so always
  `m_cpuSz` bytes);
* `m_cpuBuf` is the staging array; its length is the field `m_cpuSz` of the source, which is
  set once by the constructor to the size of the allocation;
* `m_validMask` is the `int` bitmask (only ever `0` or an OR of `1 << b`, so a natural);
* `glUploads` logs every `glBufferSubData` issued for this buffer as `(b, bytes)`. -/
structure GLGraphicsBufferD where
  m_bufs : Arr3 (List Nat)
  m_target : Nat
  m_cpuBuf : List Nat
  m_validMask : Nat := 0
  glUploads : List (Nat × List Nat) := []
deriving DecidableEq, Repr

namespace GLGraphicsBufferD

/-- The member `m_cpuSz`: the size of the staging allocation. -/
def m_cpuSz (self : GLGraphicsBufferD) : Nat := self.m_cpuBuf.length

/-- Constructor `GLGraphicsBufferD(BufferUse use, size_t sz)`.  `cpuIndet` and `gpuIndet` give
the indeterminate initial bytes of the staging array and of the three data stores. -/
def ctor (use sz : Nat) (cpuIndet : Nat → Nat) (gpuIndet : Nat → Nat → Nat) :
    GLGraphicsBufferD :=
  { m_bufs := ⟨newBytes sz (gpuIndet 0), newBytes sz (gpuIndet 1), newBytes sz (gpuIndet 2)⟩
    m_target := USE_TABLE.getD use GL_INVALID_ENUM
    m_cpuBuf := newBytes sz cpuIndet
    m_validMask := 0
    glUploads := [] }

/-- Method `void GLGraphicsBufferD::update(int b)`. -/
def update (self : GLGraphicsBufferD) (b : Nat) : GLGraphicsBufferD :=
  let slot := 1 <<< b
  if slot &&& self.m_validMask = 0 then
    { self with
      m_bufs := self.m_bufs.set b self.m_cpuBuf
      glUploads := self.glUploads ++ [(b, self.m_cpuBuf)]
      m_validMask := self.m_validMask ||| slot }
  else self

/-- Method `void GLGraphicsBufferD::load(const void* data, size_t sz)`. -/
def load (self : GLGraphicsBufferD) (data : List Nat) (sz : Nat) : GLGraphicsBufferD :=
  let bufSz := min sz self.m_cpuSz
  { self with
    m_cpuBuf := memcpy self.m_cpuBuf data bufSz
    m_validMask := 0 }

/-- Method `void* GLGraphicsBufferD::map(size_t sz)`: `none` is `nullptr`, `some bytes` is the
pointer to the staging array, shown with the bytes it currently exposes; the second component
is the buffer after the call. -/
def map (self : GLGraphicsBufferD) (sz : Nat) : Option (List Nat) × GLGraphicsBufferD :=
  if sz < self.m_cpuSz then (none, self)
  else (some self.m_cpuBuf, self)

/-- Method `void GLGraphicsBufferD::unmap()`. -/
def unmap (self : GLGraphicsBufferD) : GLGraphicsBufferD :=
  { self with m_validMask := 0 }

/-- The client storing `bytes` through the pointer handed out by `map`
(a `memcpy(ptr, bytes, bytes.size())` by the caller). -/
def writeMapped (self : GLGraphicsBufferD) (bytes : List Nat) : GLGraphicsBufferD :=
  { self with m_cpuBuf := memcpy self.m_cpuBuf bytes bytes.length }

end GLGraphicsBufferD

/-! ## Dynamic texture -/

/-- The enumeration `TextureFormat`; its declaration is not among the sources, the
enumerators are the ones `GL.cpp` names, and `other` stands for any further enumerator. -/
inductive TextureFormat where
  | RGBA8
  | I8
  | DXT1
  | other (tag : Nat)
deriving DecidableEq, Repr

/-- State of a `GLTextureD`; `m_texs` holds the image behind each of the three texture names,
`glUploads` logs every `glTexImage2D` issued by `update` as `(b, bytes)`.  As for buffers the
source field `m_cpuSz` is the length of `m_cpuBuf`. -/
structure GLTextureD where
  m_texs : Arr3 (List Nat)
  m_cpuBuf : List Nat
  m_intFormat : Nat
  m_format : Nat
  m_width : Nat := 0
  m_height : Nat := 0
  m_validMask : Nat := 0
  glUploads : List (Nat × List Nat) := []
deriving DecidableEq, Repr

namespace GLTextureD

/-- The member `m_cpuSz`. -/
def m_cpuSz (self : GLTextureD) : Nat := self.m_cpuBuf.length

/-- The `switch (fmt)` of the constructor: `(m_intFormat, m_format, pxPitch)`, or `none` where
the source reports the fatal error "unsupported tex format". -/
def formatInfo : TextureFormat → Option (Nat × Nat × Nat)
  | .RGBA8 => some (GL_RGBA, GL_RGBA, 4)
  | .I8 => some (GL_R8, GL_RED, 1)
  | _ => none

/-- Constructor `GLTextureD(size_t width, size_t height, TextureFormat fmt)`; `none` is the
fatal error.  `glTexImage2D(..., nullptr)` leaves the three images indeterminate. -/
def ctor (width height : Nat) (fmt : TextureFormat) (cpuIndet : Nat → Nat)
    (gpuIndet : Nat → Nat → Nat) : Option GLTextureD :=
  match formatInfo fmt with
  | none => none
  | some (intFormat, format, pxPitch) =>
    let cpuSz := (width * height * pxPitch) % SIZE_MAX1
    some
      { m_texs := ⟨newBytes cpuSz (gpuIndet 0), newBytes cpuSz (gpuIndet 1),
                   newBytes cpuSz (gpuIndet 2)⟩
        m_cpuBuf := newBytes cpuSz cpuIndet
        m_intFormat := intFormat
        m_format := format
        m_width := width
        m_height := height
        m_validMask := 0
        glUploads := [] }

/-- Method `void GLTextureD::update(int b)`. -/
def update (self : GLTextureD) (b : Nat) : GLTextureD :=
  let slot := 1 <<< b
  if slot &&& self.m_validMask = 0 then
    { self with
      m_texs := self.m_texs.set b self.m_cpuBuf
      glUploads := self.glUploads ++ [(b, self.m_cpuBuf)]
      m_validMask := self.m_validMask ||| slot }
  else self

/-- Method `void GLTextureD::load(const void* data, size_t sz)`. -/
def load (self : GLTextureD) (data : List Nat) (sz : Nat) : GLTextureD :=
  let bufSz := min sz self.m_cpuSz
  { self with
    m_cpuBuf := memcpy self.m_cpuBuf data bufSz
    m_validMask := 0 }

/-- Method `void* GLTextureD::map(size_t sz)`: `none` is `nullptr`, `some bytes` is the pointer
to the staging array, shown with the bytes it currently exposes; the second component is the
texture after the call. -/
def map (self : GLTextureD) (sz : Nat) : Option (List Nat) × GLTextureD :=
  if sz > self.m_cpuSz then (none, self)
  else (some self.m_cpuBuf, self)

/-- Method `void GLTextureD::unmap()`. -/
def unmap (self : GLTextureD) : GLTextureD :=
  { self with m_validMask := 0 }

/-- The client storing `bytes` through the pointer handed out by `map`. -/
def writeMapped (self : GLTextureD) (bytes : List Nat) : GLTextureD :=
  { self with m_cpuBuf := memcpy self.m_cpuBuf bytes bytes.length }

end GLTextureD

/-! ## Static buffer -/

/-- State of a `GLGraphicsBufferS`: the data store filled once by
`glBufferData(m_target, sz, data, GL_STATIC_DRAW)`. -/
structure GLGraphicsBufferS where
  m_buf : List Nat
  m_target : Nat
deriving DecidableEq, Repr

/-- Constructor `GLGraphicsBufferS(BufferUse use, const void* data, size_t sz)`. -/
def GLGraphicsBufferS.ctor (use : Nat) (data : List Nat) (sz : Nat) : GLGraphicsBufferS :=
  { m_buf := data.take sz
    m_target := USE_TABLE.getD use GL_INVALID_ENUM }

/-! ## Static textures -/

/-- One image level handed to the driver by `glTexImage2D` / `glCompressedTexImage2D`. -/
structure TexLevel where
  width : Nat
  height : Nat
  bytes : List Nat
deriving DecidableEq, Repr

/-- State of a `GLTextureS`: the internal format and the image levels uploaded by the
constructor. -/
structure GLTextureS where
  m_intFormat : Nat
  m_levels : List TexLevel
deriving DecidableEq, Repr

namespace GLTextureS

/-- The `switch (fmt)` of the constructor: `(intFormat, pxPitch, compressed)`, or `none` where
the source reports the fatal error "unsupported tex format". -/
def formatInfo : TextureFormat → Option (Nat × Nat × Bool)
  | .RGBA8 => some (GL_RGBA, 4, false)
  | .I8 => some (GL_R8, 1, false)
  | .DXT1 => some (GL_COMPRESSED_RGBA_S3TC_DXT1_EXT, 0, true)
  | _ => none

/-- The two upload loops of the constructor, `mips` iterations starting at `dataIt`: level `i`
takes `width * height / 2` bytes when compressed and `width * height * pxPitch` bytes
otherwise, then both extents are halved. -/
def uploadLevels (pxPitch : Nat) (compressed : Bool) :
    Nat → Nat → Nat → List Nat → List TexLevel
  | 0, _, _, _ => []
  | mips + 1, width, height, dataIt =>
    let dataSz :=
      if compressed then (width * height % SIZE_MAX1) / 2
      else width * height * pxPitch % SIZE_MAX1
    { width := width, height := height, bytes := dataIt.take dataSz } ::
      uploadLevels pxPitch compressed mips (width / 2) (height / 2) (dataIt.drop dataSz)

/-- Constructor `GLTextureS(width, height, mips, fmt, data, sz)`; `none` is the fatal
error. -/
def ctor (width height mips : Nat) (fmt : TextureFormat) (data : List Nat) (_sz : Nat) :
    Option GLTextureS :=
  match formatInfo fmt with
  | none => none
  | some (intFormat, pxPitch, compressed) =>
    some
      { m_intFormat := intFormat
        m_levels := uploadLevels pxPitch compressed mips width height data }

end GLTextureS

/-- State of a `GLTextureSA`: the image given to `glTexImage3D` as
`(internal format, width, height, layers, bytes)`, or `none` when the constructor made no
`glTexImage3D` call. -/
structure GLTextureSA where
  m_image : Option (Nat × Nat × Nat × Nat × List Nat)
deriving DecidableEq, Repr

/-- Constructor `GLTextureSA(width, height, layers, fmt, data, sz)`: an `if` / `else if` on
RGBA8 and I8 without a final `else`. -/
def GLTextureSA.ctor (width height layers : Nat) (fmt : TextureFormat) (data : List Nat)
    (_sz : Nat) : GLTextureSA :=
  if fmt = TextureFormat.RGBA8 then
    { m_image := some (GL_RGBA, width, height, layers, data.take (width * height * layers * 4)) }
  else if fmt = TextureFormat.I8 then
    { m_image := some (GL_R8, width, height, layers, data.take (width * height * layers)) }
  else
    { m_image := none }

/-! ## Render texture, vertex format, pipeline, data binding -/

/-- State of a `GLTextureR`.  `addr` is the address of the object (the value of every
`GLTextureR*` pointing at it); GL names are numbers, `0` meaning "no object". -/
structure GLTextureR where
  addr : Nat
  m_texs : Nat × Nat := (0, 0)
  m_bindTexs : Nat × Nat := (0, 0)
  m_fbo : Nat := 0
  m_width : Nat := 0
  m_height : Nat := 0
  m_samples : Nat := 0
  m_target : Nat := GL_TEXTURE_2D
deriving DecidableEq, Repr

/-- The struct `VertexElementDescriptor`; declared outside the sources, with the three members
the code reads (`vertBuffer`, `indexBuffer`, `semantic`). -/
structure VertexElementDescriptor where
  vertBuffer : Nat
  indexBuffer : Nat
  semantic : Nat
deriving DecidableEq, Repr

/-- State of a `GLVertexFormat`; `addr` is the address of the object. -/
structure GLVertexFormat where
  addr : Nat
  m_vao : Arr3 Nat := ⟨0, 0, 0⟩
  m_elementCount : Nat
  m_elements : List VertexElementDescriptor
deriving DecidableEq, Repr

/-- State of a `GLShaderPipeline`; the defaults are the member initialisers. -/
structure GLShaderPipeline where
  m_vert : Nat := 0
  m_frag : Nat := 0
  m_prog : Nat := 0
  m_sfactor : Nat := GL_ONE
  m_dfactor : Nat := GL_ZERO
  m_drawPrim : Nat := GL_TRIANGLES
  m_depthTest : Bool := true
  m_depthWrite : Bool := true
  m_backfaceCulling : Bool := true
  m_uniLocs : List Int := []
deriving DecidableEq, Repr

/-- The table `PRIMITIVE_TABLE`. -/
def PRIMITIVE_TABLE : List Nat := [GL_TRIANGLES, GL_TRIANGLE_STRIP]

/-- The table `BLEND_FACTOR_TABLE`. -/
def BLEND_FACTOR_TABLE : List Nat :=
  [GL_ZERO, GL_ONE, GL_SRC_COLOR, GL_ONE_MINUS_SRC_COLOR, GL_DST_COLOR, GL_ONE_MINUS_DST_COLOR,
    GL_SRC_ALPHA, GL_ONE_MINUS_SRC_ALPHA, GL_DST_ALPHA, GL_ONE_MINUS_DST_ALPHA, GL_SRC1_COLOR,
    GL_ONE_MINUS_SRC1_COLOR]

/-- What the driver answers during one `newShaderPipeline` call: the names returned by
`glCreateShader` (twice) and `glCreateProgram`, the `GL_COMPILE_STATUS` of the two shaders,
the `GL_LINK_STATUS` of the program and the uniform-block indices. -/
structure ShaderDriver where
  vert : Nat
  frag : Nat
  prog : Nat
  vertStatus : Nat
  fragStatus : Nat
  linkStatus : Nat
  uniformBlockIndex : Nat → Int
deriving Inhabited

/-- Method `bool GLShaderPipeline::initObjects()`: the pipeline afterwards and the result. -/
def GLShaderPipeline.initObjects (self : GLShaderPipeline) (driver : ShaderDriver) :
    Bool × GLShaderPipeline :=
  let self1 := { self with m_vert := driver.vert, m_frag := driver.frag, m_prog := driver.prog }
  if self1.m_vert = 0 ∨ self1.m_frag = 0 ∨ self1.m_prog = 0 then
    (false, { self1 with m_vert := 0, m_frag := 0, m_prog := 0 })
  else (true, self1)

/-- The errors raised through `Log.report(logvisor::Fatal, ...)`, which ends the program. -/
inductive Fatal where
  | nestedCommitTransaction
  | unsupportedTexFormat
  | unalignedUniformOffset (i : Nat)
  | nullUniformBuffer (i : Nat)
deriving DecidableEq, Repr

/-- State of a `GLShaderDataBinding`; pointers are addresses, `0` is `nullptr`. -/
structure GLShaderDataBinding where
  m_pipeline : Nat
  m_vtxFormat : Nat
  m_ubufCount : Nat
  m_ubufs : List Nat
  m_ubufOffs : List (Nat × Nat) := []
  m_texCount : Nat
  m_texs : List Nat
deriving DecidableEq, Repr

namespace GLShaderDataBinding

/-- The first loop of the constructor over `i = from, ..., ubufCount - 1` (`todo` iterations
left): with `NDEBUG` undefined an offset that is not a multiple of 256 is fatal, otherwise the
pair `(ubufOffs[i], (ubufSizes[i] + 255) & ~255)` is appended. -/
def fillOffsets (ndebug : Bool) (ubufOffs ubufSizes : List Nat) :
    Nat → Nat → List (Nat × Nat) → Except Fatal (List (Nat × Nat))
  | 0, _, acc => .ok acc
  | todo + 1, i, acc =>
    if !ndebug && ubufOffs.getD i 0 % 256 != 0 then .error (Fatal.unalignedUniformOffset i)
    else
      fillOffsets ndebug ubufOffs ubufSizes todo (i + 1)
        (acc ++ [(ubufOffs.getD i 0,
          ((ubufSizes.getD i 0 + 255) % SIZE_MAX1) &&& (SIZE_MAX1 - 256))])

/-- The second loop of the constructor: with `NDEBUG` undefined a null uniform buffer is
fatal, otherwise the pointer is stored. -/
def fillBuffers (ndebug : Bool) (ubufs : List Nat) :
    Nat → Nat → List Nat → Except Fatal (List Nat)
  | 0, _, acc => .ok acc
  | todo + 1, i, acc =>
    if !ndebug && ubufs.getD i 0 == 0 then .error (Fatal.nullUniformBuffer i)
    else fillBuffers ndebug ubufs todo (i + 1) (acc ++ [ubufs.getD i 0])

/-- Constructor `GLShaderDataBinding(pipeline, vtxFormat, ubufCount, ubufs, ubufOffs, ubufSizes,
texCount, texs)`; `ubufOffs` and `ubufSizes` are `none` for a null pointer.  `ndebug` tells
whether the library was built with `NDEBUG` defined. -/
def ctor (ndebug : Bool) (pipeline vtxFormat ubufCount : Nat) (ubufs : List Nat)
    (ubufOffs ubufSizes : Option (List Nat)) (texCount : Nat) (texs : List Nat) :
    Except Fatal GLShaderDataBinding :=
  let offs : Except Fatal (List (Nat × Nat)) :=
    match ubufOffs, ubufSizes with
    | some offsets, some sizes => fillOffsets ndebug offsets sizes ubufCount 0 []
    | _, _ => .ok []
  match offs with
  | .error e => .error e
  | .ok m_ubufOffs =>
    match fillBuffers ndebug ubufs ubufCount 0 [] with
    | .error e => .error e
    | .ok m_ubufs =>
      .ok
        { m_pipeline := pipeline
          m_vtxFormat := vtxFormat
          m_ubufCount := ubufCount
          m_ubufs := m_ubufs
          m_ubufOffs := m_ubufOffs
          m_texCount := texCount
          m_texs := (List.range texCount).map (fun i => texs.getD i 0) }

end GLShaderDataBinding

/-! ## Committed data and the factory -/

/-- The struct `GLData`: the nine resource lists of one transaction.  `addr` is the address of
the object, the value of the pointers kept in the registry and in tokens. -/
structure GLData where
  addr : Nat := 0
  m_SPs : List GLShaderPipeline := []
  m_SBinds : List GLShaderDataBinding := []
  m_SBufs : List GLGraphicsBufferS := []
  m_DBufs : List GLGraphicsBufferD := []
  m_STexs : List GLTextureS := []
  m_SATexs : List GLTextureSA := []
  m_DTexs : List GLTextureD := []
  m_RTexs : List GLTextureR := []
  m_VFmts : List GLVertexFormat := []
deriving DecidableEq, Repr

/-- State of the `GLDataFactory`: the current-transaction target `m_deferredData` of the client
thread (`none` is null), the registry `m_committedData` (the source keeps an unordered set of
pointers; the list order is the iteration order), the sample count `m_drawSamples`, and
`ndebug`, telling whether the library was built with `NDEBUG` defined. -/
structure GLDataFactory where
  m_deferredData : Option GLData := none
  m_committedData : List GLData := []
  m_drawSamples : Nat := 0
  ndebug : Bool := false
deriving DecidableEq, Repr

namespace GLDataFactory

/-- Dereference a client pointer to a committed dynamic buffer: entry `bi` of `m_DBufs` of the
`di`-th committed set. -/
def dbuf (gfxF : GLDataFactory) (di bi : Nat) : Option GLGraphicsBufferD :=
  (gfxF.m_committedData[di]?).bind (fun d => d.m_DBufs[bi]?)

/-- Dereference a client pointer to a committed dynamic texture. -/
def dtex (gfxF : GLDataFactory) (di ti : Nat) : Option GLTextureD :=
  (gfxF.m_committedData[di]?).bind (fun d => d.m_DTexs[ti]?)

/-- A client call of a method `f` on the committed dynamic buffer behind pointer `(di, bi)`. -/
def onDBuf (gfxF : GLDataFactory) (di bi : Nat) (f : GLGraphicsBufferD → GLGraphicsBufferD) :
    GLDataFactory :=
  { gfxF with
    m_committedData :=
      gfxF.m_committedData.modify (fun d => { d with m_DBufs := d.m_DBufs.modify f bi }) di }

/-- A client call of a method `f` on the committed dynamic texture behind pointer `(di, ti)`. -/
def onDTex (gfxF : GLDataFactory) (di ti : Nat) (f : GLTextureD → GLTextureD) :
    GLDataFactory :=
  { gfxF with
    m_committedData :=
      gfxF.m_committedData.modify (fun d => { d with m_DTexs := d.m_DTexs.modify f ti }) di }

/-- The registry walk of `execute`: `update(b)` on every dynamic buffer and every dynamic
texture of every committed set. -/
def updateAll (gfxF : GLDataFactory) (b : Nat) : GLDataFactory :=
  { gfxF with
    m_committedData :=
      gfxF.m_committedData.map (fun d =>
        { d with
          m_DBufs := d.m_DBufs.map (fun buf => buf.update b)
          m_DTexs := d.m_DTexs.map (fun t => t.update b) }) }

end GLDataFactory

/-! ## Command queue -/

/-- The enumeration `GLCommandQueue::Command::Op`. -/
inductive Op where
  | SetShaderDataBinding
  | SetRenderTarget
  | SetViewport
  | SetScissor
  | SetClearColor
  | ClearTarget
  | Draw
  | DrawIndexed
  | DrawInstances
  | DrawInstancesIndexed
  | ResolveBindTexture
  | Present
deriving DecidableEq, Repr

/-- The struct `SWindowRect` (`int location[2]; int size[2]`). -/
structure SWindowRect where
  location0 : Int := 0
  location1 : Int := 0
  size0 : Int := 0
  size1 : Int := 0
deriving DecidableEq, Repr

/-- Conversion of an integer value to `int` (32 bits, two's complement). -/
def toInt32 (x : Int) : Int := (x + 2 ^ 31) % 2 ^ 32 - 2 ^ 31

/-- The struct `GLCommandQueue::Command`.  Pointers are object names (`0` is `nullptr`), `float`
arguments are carried as the values passed in (their bit patterns), and the members of the
anonymous union are separate fields; a member the recording method does not write keeps the
default written here. -/
structure Command where
  m_op : Op
  binding : Nat := 0
  target : Nat := 0
  source : Nat := 0
  rect : SWindowRect := {}
  znear : Nat := 0
  zfar : Nat := 0
  rgba : List Nat := []
  flags : Nat := 0
  start : Nat := 0
  count : Nat := 0
  instCount : Nat := 0
  resolveTex : Nat := 0
  resolveColor : Bool := false
  resolveDepth : Bool := false
deriving DecidableEq, Repr

/-- The struct `GLCommandQueue::RenderTextureResize`; `tex` is the address of the render
texture. -/
structure RenderTextureResize where
  tex : Nat
  width : Nat
  height : Nat
deriving DecidableEq, Repr

/-- State of a `GLCommandQueue`: the three command buffers, the rotating indices, the run flag,
the two lists of post-frame callbacks (named by numbers; `postsRun` logs the callbacks the
worker has invoked) and the pending structural changes: resizes, vertex-format additions
(pointers, `none` for an entry set to `nullptr`), vertex-format deletions (three vertex-array
names each), framebuffer additions (pointers) and framebuffer deletions (names).  The defaults
are the member initialisers of the source. -/
structure GLCommandQueue where
  m_cmdBufs : Arr3 (List Command) := ⟨[], [], []⟩
  m_fillBuf : Nat := 0
  m_completeBuf : Nat := 0
  m_drawBuf : Nat := 0
  m_running : Bool := true
  m_pendingResizes : List RenderTextureResize := []
  m_pendingPosts1 : List Nat := []
  m_pendingPosts2 : List Nat := []
  m_pendingFmtAdds : List (Option Nat) := []
  m_pendingFmtDels : List (Arr3 Nat) := []
  m_pendingFboAdds : List Nat := []
  m_pendingFboDels : List Nat := []
  postsRun : List Nat := []
deriving DecidableEq, Repr

namespace GLCommandQueue

/-- The common head of every recording method:
`m_cmdBufs[m_fillBuf].emplace_back(op)` followed by stores into `cmds.back()`; `c` is the
entry once the method has filled it in. -/
def record (self : GLCommandQueue) (c : Command) : GLCommandQueue :=
  { self with m_cmdBufs := self.m_cmdBufs.modify self.m_fillBuf (fun cmds => cmds ++ [c]) }

def setShaderDataBinding (self : GLCommandQueue) (binding : Nat) : GLCommandQueue :=
  self.record { m_op := .SetShaderDataBinding, binding := binding }

def setRenderTarget (self : GLCommandQueue) (target : Nat) : GLCommandQueue :=
  self.record { m_op := .SetRenderTarget, target := target }

def setViewport (self : GLCommandQueue) (rect : SWindowRect) (znear zfar : Nat) :
    GLCommandQueue :=
  self.record { m_op := .SetViewport, rect := rect, znear := znear, zfar := zfar }

def setScissor (self : GLCommandQueue) (rect : SWindowRect) : GLCommandQueue :=
  self.record { m_op := .SetScissor, rect := rect }

def setClearColor (self : GLCommandQueue) (r g b a : Nat) : GLCommandQueue :=
  self.record { m_op := .SetClearColor, rgba := [r, g, b, a] }

def clearTarget (self : GLCommandQueue) (render depth : Bool) : GLCommandQueue :=
  let flags0 := 0
  let flags1 := if render then flags0 ||| GL_COLOR_BUFFER_BIT else flags0
  let flags2 := if depth then flags1 ||| GL_DEPTH_BUFFER_BIT else flags1
  self.record { m_op := .ClearTarget, flags := flags2 }

def draw (self : GLCommandQueue) (start count : Nat) : GLCommandQueue :=
  self.record { m_op := .Draw, start := start, count := count }

def drawIndexed (self : GLCommandQueue) (start count : Nat) : GLCommandQueue :=
  self.record { m_op := .DrawIndexed, start := start, count := count }

def drawInstances (self : GLCommandQueue) (start count instCount : Nat) : GLCommandQueue :=
  self.record { m_op := .DrawInstances, start := start, count := count, instCount := instCount }

def drawInstancesIndexed (self : GLCommandQueue) (start count instCount : Nat) :
    GLCommandQueue :=
  self.record
    { m_op := .DrawInstancesIndexed, start := start, count := count, instCount := instCount }

/-- Method `resolveBindTexture`.  `texWidth`/`texHeight` are `tex->m_width`/`tex->m_height`
read through the pointer `texture`; `SWindowRect::intersect` is declared outside the sources
and is taken as the parameter `intersect`. -/
def resolveBindTexture (self : GLCommandQueue)
    (intersect : SWindowRect → SWindowRect → SWindowRect)
    (texture texWidth texHeight : Nat) (rect : SWindowRect) (tlOrigin color depth : Bool) :
    GLCommandQueue :=
  let intersectRect :=
    intersect rect
      { location0 := 0, location1 := 0, size0 := toInt32 texWidth, size1 := toInt32 texHeight }
  let targetRect : SWindowRect :=
    { location0 := intersectRect.location0
      location1 :=
        if tlOrigin then
          toInt32 ((texHeight : Int) - intersectRect.location1 - intersectRect.size1)
        else intersectRect.location1
      size0 := intersectRect.size0
      size1 := intersectRect.size1 }
  self.record
    { m_op := .ResolveBindTexture, resolveTex := texture, resolveColor := color,
      resolveDepth := depth, rect := targetRect }

def resolveDisplay (self : GLCommandQueue) (source : Nat) : GLCommandQueue :=
  self.record { m_op := .Present, source := source }

/-- Method `schedulePostFrameHandler`. -/
def schedulePostFrameHandler (self : GLCommandQueue) (func : Nat) : GLCommandQueue :=
  { self with m_pendingPosts1 := self.m_pendingPosts1 ++ [func] }

/-- Method `stopRenderer` (the join of the worker thread is not state). -/
def stopRenderer (self : GLCommandQueue) : GLCommandQueue :=
  { self with m_running := false }

/-- The loop of `execute` that chooses the new fill index, run over the remaining candidates
`is`: the first `i` with neither `i == m_completeBuf` nor `i == m_drawBuf` is stored and the
loop left; if the candidates run out `m_fillBuf` keeps its value. -/
def rotateFill (completeBuf drawBuf fillBuf : Nat) : List Nat → Nat
  | [] => fillBuf
  | i :: is =>
    if i = completeBuf ∨ i = drawBuf then rotateFill completeBuf drawBuf fillBuf is
    else i

end GLCommandQueue

/-- The graphics context `m_parent` as seen from the queue: it hands out the data factory
(`getDataFactory()`) and owns the command queue. -/
structure GraphicsContext where
  dataFactory : GLDataFactory := {}
  commandQueue : GLCommandQueue := {}
deriving DecidableEq, Repr

namespace GLCommandQueue

/-- Method `void GLCommandQueue::execute()`. -/
def execute (ctx : GraphicsContext) : GraphicsContext :=
  let self := ctx.commandQueue
  let completeBuf := self.m_fillBuf
  let fillBuf := rotateFill completeBuf self.m_drawBuf self.m_fillBuf (List.range 3)
  { dataFactory := ctx.dataFactory.updateAll completeBuf
    commandQueue :=
      { self with
        m_completeBuf := completeBuf
        m_fillBuf := fillBuf
        m_pendingPosts2 := self.m_pendingPosts2 ++ self.m_pendingPosts1
        m_pendingPosts1 := []
        m_cmdBufs := self.m_cmdBufs.set fillBuf [] } }

/-- One pass of the `while (self->m_running)` loop of `RenderingWorker` after the condition
variable wakes it: the queue object afterwards.  The pass leaves on shutdown; else it stores
`m_drawBuf = m_completeBuf`, walks and clears the five lists of pending structural changes,
takes the pending callbacks, replays and clears the command buffer at the draw index and
invokes the callbacks.  The driver calls issued by the same pass and its writes to the objects
behind the pointers are given by `RenderingWorker.calls` below. -/
def RenderingWorker (self : GLCommandQueue) : GLCommandQueue :=
  if !self.m_running then self
  else
    let drawBuf := self.m_completeBuf
    let posts := self.m_pendingPosts2
    { self with
      m_drawBuf := drawBuf
      m_pendingFboAdds := []
      m_pendingResizes := []
      m_pendingFmtAdds := []
      m_pendingFmtDels := []
      m_pendingFboDels := []
      m_pendingPosts2 := []
      m_cmdBufs := self.m_cmdBufs.set drawBuf []
      postsRun := self.postsRun ++ posts }

/-- The worker pass lifted to the context (it does not touch the factory). -/
def wake (ctx : GraphicsContext) : GraphicsContext :=
  { ctx with commandQueue := RenderingWorker ctx.commandQueue }

/-- One `execute()` cycle: the call followed by one wake-up of the worker. -/
def cycle (ctx : GraphicsContext) : GraphicsContext :=
  wake (execute ctx)

end GLCommandQueue

/-! ## Driver calls of the render worker -/

/-- A call issued by the render worker: one of the GL functions it uses, or `present()` of the
graphics context.  Each argument is the value of the argument expression in the source (names,
enumerators, sizes and byte offsets as naturals, `int` coordinates as integers, `float`
arguments by their bit patterns); the arrays written by `glGen*` and read by `glDelete*` are
given by their contents; a `nullptr` data argument is left out. -/
inductive GLCall where
  | glBindFramebuffer (target framebuffer : Nat)
  | glGenFramebuffers (n : Nat) (framebuffers : List Nat)
  | glFramebufferTexture2D (target attachment textarget texture level : Nat)
  | glDeleteFramebuffers (n : Nat) (framebuffers : List Nat)
  | glBindTexture (target texture : Nat)
  | glActiveTexture (texture : Nat)
  | glTexImage2DMultisample (target samples internalformat width height fixedsamplelocations : Nat)
  | glTexImage2D (target level internalformat width height border format type : Nat)
  | glCopyTexSubImage2D (target level : Nat) (xoffset yoffset x y width height : Int)
  | glDepthMask (flag : Nat)
  | glDepthFunc (func : Nat)
  | glDepthRange (near far : Nat)
  | glClear (mask : Nat)
  | glClearColor (red green blue alpha : Nat)
  | glEnable (cap : Nat)
  | glDisable (cap : Nat)
  | glBlendFunc (sfactor dfactor : Nat)
  | glViewport (x y width height : Int)
  | glScissor (x y width height : Int)
  | glUseProgram (program : Nat)
  | glUniformBlockBinding (program : Nat) (uniformBlockIndex : Int) (uniformBlockBinding : Nat)
  | glGenVertexArrays (n : Nat) (arrays : List Nat)
  | glBindVertexArray (array : Nat)
  | glDeleteVertexArrays (n : Nat) (arrays : List Nat)
  | glBindBuffer (target buffer : Nat)
  | glBindBufferBase (target index buffer : Nat)
  | glBindBufferRange (target index buffer offset size : Nat)
  | glEnableVertexAttribArray (index : Nat)
  | glVertexAttribPointer (index size type normalized stride pointer : Nat)
  | glVertexAttribDivisor (index divisor : Nat)
  | glDrawArrays (mode first count : Nat)
  | glDrawElements (mode count type indices : Nat)
  | glDrawArraysInstanced (mode first count instancecount : Nat)
  | glDrawElementsInstanced (mode count type indices instancecount : Nat)
  | glBlitFramebuffer (srcX0 srcY0 srcX1 srcY1 dstX0 dstY0 dstX1 dstY1 mask filter : Nat)
  | present
deriving DecidableEq, Repr

/-- The enumeration `TextureType` (declared outside the sources), as far as the `switch` of
`GLShaderDataBinding::bind` tells its values apart. -/
inductive TextureType where
  | Static
  | StaticArray
  | Dynamic
  | Render
  | other
deriving DecidableEq, Repr

/-- What the worker reads through an `IGraphicsBuffer*`: the answer of `dynamic()`, the GL name
`m_buf` of a `GLGraphicsBufferS` and the GL names `m_bufs` of a `GLGraphicsBufferD`. -/
structure BufferNames where
  dynamic : Bool
  m_buf : Nat
  m_bufs : Arr3 Nat
deriving DecidableEq, Repr

/-- What the worker reads through an `ITexture*` that is not a render texture: the answer of
`type()`, the GL name `m_tex` of a `GLTextureS` or `GLTextureSA` and the GL names `m_texs` of a
`GLTextureD`. -/
structure TextureNames where
  type : TextureType
  m_tex : Nat
  m_texs : Arr3 Nat
deriving DecidableEq, Repr

/-- The objects behind the pointers the worker follows, at the time of one wake-up: for every
address what a read through a pointer of the respective class finds there.  (For an address
that holds no live object of that class the source has undefined behaviour; the worker of the
model then works with whatever this view gives.) -/
structure Memory where
  buffer : Nat → BufferNames
  texture : Nat → TextureNames
  texR : Nat → GLTextureR
  vfmt : Nat → GLVertexFormat
  pipeline : Nat → GLShaderPipeline
  binding : Nat → GLShaderDataBinding

/-- The enumerators of `VertexSemantic` (declared outside the sources) that
`ConfigureVertexFormat` uses. -/
structure VertexSemanticEnum where
  None : Nat
  SemanticMask : Nat
  Instanced : Nat
deriving DecidableEq, Repr

/-- What the driver answers during one wake-up of the worker: the framebuffer name written by
the `glGenFramebuffers` call made for entry `k` of `m_pendingFboAdds`, and the three names
written by the `glGenVertexArrays` call made for entry `k` of `m_pendingFmtAdds`. -/
structure WorkerDriver where
  genFramebuffer : Nat → Nat
  genVertexArrays : Nat → Arr3 Nat

/-- The table `SEMANTIC_COUNT_TABLE`. -/
def SEMANTIC_COUNT_TABLE : List Nat := [0, 3, 4, 3, 4, 4, 4, 2, 4, 4, 4]

/-- The table `SEMANTIC_SIZE_TABLE`. -/
def SEMANTIC_SIZE_TABLE : List Nat := [0, 12, 16, 12, 16, 16, 4, 8, 16, 16, 16]

/-- The table `SEMANTIC_TYPE_TABLE`. -/
def SEMANTIC_TYPE_TABLE : List Nat :=
  [GL_INVALID_ENUM, GL_FLOAT, GL_FLOAT, GL_FLOAT, GL_FLOAT, GL_FLOAT, GL_UNSIGNED_BYTE, GL_FLOAT,
    GL_FLOAT, GL_FLOAT, GL_FLOAT]

/-- Method `GLuint GLShaderPipeline::bind() const`: the calls; the result is `m_prog`. -/
def GLShaderPipeline.bind (self : GLShaderPipeline) : List GLCall :=
  [GLCall.glUseProgram self.m_prog] ++
    (if self.m_dfactor ≠ GL_ZERO then
      [GLCall.glEnable GL_BLEND, GLCall.glBlendFunc self.m_sfactor self.m_dfactor]
    else [GLCall.glDisable GL_BLEND]) ++
    [if self.m_depthTest then GLCall.glEnable GL_DEPTH_TEST else GLCall.glDisable GL_DEPTH_TEST,
      GLCall.glDepthMask (if self.m_depthWrite then 1 else 0),
      GLCall.glDepthFunc GL_LEQUAL,
      if self.m_backfaceCulling then GLCall.glEnable GL_CULL_FACE
      else GLCall.glDisable GL_CULL_FACE]

/-- Method `void GLVertexFormat::bind(int idx) const`. -/
def GLVertexFormat.bind (self : GLVertexFormat) (idx : Nat) : List GLCall :=
  [GLCall.glBindVertexArray ((self.m_vao.get? idx).getD 0)]

/-- Method `void GLTextureR::bind(size_t idx) const`. -/
def GLTextureR.bind (self : GLTextureR) (idx : Nat) : List GLCall :=
  [GLCall.glActiveTexture (GL_TEXTURE0 + idx), GLCall.glBindTexture self.m_target self.m_bindTexs.1]

/-- Method `void GLTextureR::resize(size_t width, size_t height)`: the object afterwards and
the calls. -/
def GLTextureR.resize (self : GLTextureR) (width height : Nat) : GLTextureR × List GLCall :=
  let self1 := { self with m_width := width, m_height := height }
  if self1.m_samples > 1 then
    (self1,
      [GLCall.glBindTexture GL_TEXTURE_2D_MULTISAMPLE self1.m_texs.1,
        GLCall.glTexImage2DMultisample GL_TEXTURE_2D_MULTISAMPLE self1.m_samples GL_RGBA width
          height GL_FALSE,
        GLCall.glBindTexture GL_TEXTURE_2D_MULTISAMPLE self1.m_texs.2,
        GLCall.glTexImage2DMultisample GL_TEXTURE_2D_MULTISAMPLE self1.m_samples
          GL_DEPTH_COMPONENT24 width height GL_FALSE] ++
      (if self1.m_bindTexs.1 ≠ 0 then
        [GLCall.glBindTexture GL_TEXTURE_2D_MULTISAMPLE self1.m_bindTexs.1,
          GLCall.glTexImage2DMultisample GL_TEXTURE_2D_MULTISAMPLE self1.m_samples GL_RGBA width
            height GL_FALSE]
      else []) ++
      (if self1.m_bindTexs.2 ≠ 0 then
        [GLCall.glBindTexture GL_TEXTURE_2D_MULTISAMPLE self1.m_bindTexs.2,
          GLCall.glTexImage2DMultisample GL_TEXTURE_2D_MULTISAMPLE self1.m_samples
            GL_DEPTH_COMPONENT24 width height GL_FALSE]
      else []))
  else
    (self1,
      [GLCall.glBindTexture GL_TEXTURE_2D self1.m_texs.1,
        GLCall.glTexImage2D GL_TEXTURE_2D 0 GL_RGBA width height 0 GL_RGBA GL_UNSIGNED_BYTE,
        GLCall.glBindTexture GL_TEXTURE_2D self1.m_texs.2,
        GLCall.glTexImage2D GL_TEXTURE_2D 0 GL_DEPTH_COMPONENT24 width height 0 GL_DEPTH_COMPONENT
          GL_UNSIGNED_INT,
        GLCall.glBindFramebuffer GL_FRAMEBUFFER self1.m_fbo,
        GLCall.glDepthMask GL_TRUE,
        GLCall.glClear (GL_COLOR_BUFFER_BIT ||| GL_DEPTH_BUFFER_BIT)] ++
      (if self1.m_bindTexs.1 ≠ 0 then
        [GLCall.glBindTexture GL_TEXTURE_2D self1.m_bindTexs.1,
          GLCall.glTexImage2D GL_TEXTURE_2D 0 GL_RGBA width height 0 GL_RGBA GL_UNSIGNED_BYTE]
      else []) ++
      (if self1.m_bindTexs.2 ≠ 0 then
        [GLCall.glBindTexture GL_TEXTURE_2D self1.m_bindTexs.2,
          GLCall.glTexImage2D GL_TEXTURE_2D 0 GL_DEPTH_COMPONENT24 width height 0
            GL_DEPTH_COMPONENT GL_UNSIGNED_INT]
      else []))

namespace GLShaderDataBinding

/-- One iteration of either uniform loop of `bind`, for index `i`: nothing for a negative
location, else the buffer is bound to binding point `i` (as a range when `m_ubufOffs` is not
empty) and the uniform block of the program is pointed at it. -/
def bindUniform (mem : Memory) (self : GLShaderDataBinding) (b : Nat) (i : Nat) : List GLCall :=
  let pipeline := mem.pipeline self.m_pipeline
  let prog := pipeline.m_prog
  let loc := pipeline.m_uniLocs.getD i 0
  if loc < 0 then []
  else
    let ubuf := mem.buffer (self.m_ubufs.getD i 0)
    let name := if ubuf.dynamic then (ubuf.m_bufs.get? b).getD 0 else ubuf.m_buf
    (if self.m_ubufOffs.length ≠ 0 then
      [GLCall.glBindBufferRange GL_UNIFORM_BUFFER i name (self.m_ubufOffs.getD i (0, 0)).1
        (self.m_ubufOffs.getD i (0, 0)).2]
    else [GLCall.glBindBufferBase GL_UNIFORM_BUFFER i name]) ++
      [GLCall.glUniformBlockBinding prog loc i]

/-- One iteration of the texture loop of `bind`, for index `i`. -/
def bindTexture (mem : Memory) (self : GLShaderDataBinding) (b : Nat) (i : Nat) : List GLCall :=
  let tex := self.m_texs.getD i 0
  if tex = 0 then []
  else
    match (mem.texture tex).type with
    | .Dynamic =>
      [GLCall.glActiveTexture (GL_TEXTURE0 + i),
        GLCall.glBindTexture GL_TEXTURE_2D (((mem.texture tex).m_texs.get? b).getD 0)]
    | .Static =>
      [GLCall.glActiveTexture (GL_TEXTURE0 + i),
        GLCall.glBindTexture GL_TEXTURE_2D (mem.texture tex).m_tex]
    | .StaticArray =>
      [GLCall.glActiveTexture (GL_TEXTURE0 + i),
        GLCall.glBindTexture GL_TEXTURE_2D_ARRAY (mem.texture tex).m_tex]
    | .Render => (mem.texR tex).bind i
    | .other => []

/-- Method `void GLShaderDataBinding::bind(int b) const`. -/
def bind (mem : Memory) (self : GLShaderDataBinding) (b : Nat) : List GLCall :=
  (mem.pipeline self.m_pipeline).bind ++
    (mem.vfmt self.m_vtxFormat).bind b ++
    (List.range (min self.m_ubufCount (mem.pipeline self.m_pipeline).m_uniLocs.length)).flatMap
      (bindUniform mem self b) ++
    (List.range self.m_texCount).flatMap (bindTexture mem self b)

end GLShaderDataBinding

namespace GLCommandQueue

/-- The descriptors `fmt->m_elements[0 .. m_elementCount - 1]` in the order in which the loops
of `ConfigureVertexFormat` read them. -/
def descs (fmt : GLVertexFormat) : List VertexElementDescriptor :=
  (List.range fmt.m_elementCount).map (fun i => fmt.m_elements.getD i ⟨0, 0, 0⟩)

/-- The first loop of `ConfigureVertexFormat`: `(stride, instStride)` after the remaining
descriptors, in `size_t` arithmetic. -/
def strides (sem : VertexSemanticEnum) : List VertexElementDescriptor → Nat × Nat → Nat × Nat
  | [], acc => acc
  | desc :: rest, (stride, instStride) =>
    if desc.semantic &&& sem.Instanced ≠ sem.None then
      strides sem rest
        (stride,
          (instStride + SEMANTIC_SIZE_TABLE.getD (desc.semantic &&& sem.SemanticMask) 0) %
            SIZE_MAX1)
    else
      strides sem rest
        ((stride + SEMANTIC_SIZE_TABLE.getD (desc.semantic &&& sem.SemanticMask) 0) % SIZE_MAX1,
          instStride)

/-- The inner loop of `ConfigureVertexFormat` for vertex array `b`, over the remaining
descriptors: `i` is the attribute index, `offset` and `instOffset` the running byte offsets,
`lastVBO` and `lastEBO` the buffers bound last (`0` is `nullptr`). -/
def configureElements (sem : VertexSemanticEnum) (mem : Memory) (b stride instStride : Nat) :
    List VertexElementDescriptor → Nat → Nat → Nat → Nat → Nat → List GLCall
  | [], _, _, _, _, _ => []
  | desc :: rest, i, offset, instOffset, lastVBO, lastEBO =>
    let maskedSem := desc.semantic &&& sem.SemanticMask
    (if desc.vertBuffer ≠ lastVBO then
      [GLCall.glBindBuffer GL_ARRAY_BUFFER
        (if (mem.buffer desc.vertBuffer).dynamic then
          ((mem.buffer desc.vertBuffer).m_bufs.get? b).getD 0
        else (mem.buffer desc.vertBuffer).m_buf)]
    else []) ++
    (if desc.indexBuffer ≠ lastEBO then
      [GLCall.glBindBuffer GL_ELEMENT_ARRAY_BUFFER
        (if (mem.buffer desc.indexBuffer).dynamic then
          ((mem.buffer desc.indexBuffer).m_bufs.get? b).getD 0
        else (mem.buffer desc.indexBuffer).m_buf)]
    else []) ++
    [GLCall.glEnableVertexAttribArray i] ++
    (if desc.semantic &&& sem.Instanced ≠ sem.None then
      [GLCall.glVertexAttribPointer i (SEMANTIC_COUNT_TABLE.getD maskedSem 0)
          (SEMANTIC_TYPE_TABLE.getD maskedSem 0) GL_TRUE instStride instOffset,
        GLCall.glVertexAttribDivisor i 1] ++
      configureElements sem mem b stride instStride rest (i + 1) offset
        ((instOffset + SEMANTIC_SIZE_TABLE.getD maskedSem 0) % SIZE_MAX1)
        desc.vertBuffer desc.indexBuffer
    else
      [GLCall.glVertexAttribPointer i (SEMANTIC_COUNT_TABLE.getD maskedSem 0)
          (SEMANTIC_TYPE_TABLE.getD maskedSem 0) GL_TRUE stride offset] ++
      configureElements sem mem b stride instStride rest (i + 1)
        ((offset + SEMANTIC_SIZE_TABLE.getD maskedSem 0) % SIZE_MAX1) instOffset
        desc.vertBuffer desc.indexBuffer)

/-- One iteration of the loop `for (int b=0 ; b<3 ; ++b)` of `ConfigureVertexFormat`, for a
format whose `m_vao` has been written. -/
def configureArray (sem : VertexSemanticEnum) (mem : Memory) (fmt : GLVertexFormat) (b : Nat) :
    List GLCall :=
  GLCall.glBindVertexArray ((fmt.m_vao.get? b).getD 0) ::
    configureElements sem mem b (strides sem (descs fmt) (0, 0)).1
      (strides sem (descs fmt) (0, 0)).2 (descs fmt) 0 0 0 0 0

/-- Function `ConfigureVertexFormat(GLVertexFormat* fmt)`: the memory afterwards (`m_vao` of the
format holds the names `arrays` written by `glGenVertexArrays`) and the calls. -/
def ConfigureVertexFormat (sem : VertexSemanticEnum) (mem : Memory) (fmt : Nat)
    (arrays : Arr3 Nat) : Memory × List GLCall :=
  let fmt1 : GLVertexFormat := { mem.vfmt fmt with m_vao := arrays }
  ({ mem with vfmt := Function.update mem.vfmt fmt fmt1 },
    GLCall.glGenVertexArrays 3 [arrays.e0, arrays.e1, arrays.e2] ::
      (List.range 3).flatMap (configureArray sem mem fmt1))

/-- Function `ConfigureFBO(GLTextureR* tex)`: the memory afterwards (`m_fbo` of the texture
holds the name `fbo` written by `glGenFramebuffers`) and the calls. -/
def ConfigureFBO (mem : Memory) (tex : Nat) (fbo : Nat) : Memory × List GLCall :=
  let tex1 : GLTextureR := { mem.texR tex with m_fbo := fbo }
  ({ mem with texR := Function.update mem.texR tex tex1 },
    [GLCall.glGenFramebuffers 1 [fbo],
      GLCall.glBindFramebuffer GL_FRAMEBUFFER fbo,
      GLCall.glFramebufferTexture2D GL_FRAMEBUFFER GL_COLOR_ATTACHMENT0 GL_TEXTURE_2D
        tex1.m_texs.1 0,
      GLCall.glFramebufferTexture2D GL_FRAMEBUFFER GL_DEPTH_ATTACHMENT GL_TEXTURE_2D
        tex1.m_texs.2 0])

/-- The loop over `m_pendingFboAdds` (the remaining entries, the first of them entry `k`). -/
def drainFboAdds (driver : WorkerDriver) : Nat → List Nat → Memory → Memory × List GLCall
  | _, [], mem => (mem, [])
  | k, tex :: rest, mem =>
    ((drainFboAdds driver (k + 1) rest (ConfigureFBO mem tex (driver.genFramebuffer k)).1).1,
      (ConfigureFBO mem tex (driver.genFramebuffer k)).2 ++
        (drainFboAdds driver (k + 1) rest (ConfigureFBO mem tex (driver.genFramebuffer k)).1).2)

/-- The loop over `m_pendingResizes`. -/
def drainResizes : List RenderTextureResize → Memory → Memory × List GLCall
  | [], mem => (mem, [])
  | resize :: rest, mem =>
    let r := (mem.texR resize.tex).resize resize.width resize.height
    let mem1 : Memory := { mem with texR := Function.update mem.texR resize.tex r.1 }
    ((drainResizes rest mem1).1, r.2 ++ (drainResizes rest mem1).2)

/-- The loop over `m_pendingFmtAdds` (the remaining entries, the first of them entry `k`); an
entry set to `nullptr` is passed over. -/
def drainFmtAdds (sem : VertexSemanticEnum) (driver : WorkerDriver) :
    Nat → List (Option Nat) → Memory → Memory × List GLCall
  | _, [], mem => (mem, [])
  | k, none :: rest, mem => drainFmtAdds sem driver (k + 1) rest mem
  | k, some fmt :: rest, mem =>
    ((drainFmtAdds sem driver (k + 1) rest
        (ConfigureVertexFormat sem mem fmt (driver.genVertexArrays k)).1).1,
      (ConfigureVertexFormat sem mem fmt (driver.genVertexArrays k)).2 ++
        (drainFmtAdds sem driver (k + 1) rest
          (ConfigureVertexFormat sem mem fmt (driver.genVertexArrays k)).1).2)

/-- The part of one worker pass that runs under the lock `m_mt` after
`m_drawBuf = m_completeBuf`: `glBindFramebuffer(GL_FRAMEBUFFER, 0)` and the walk of the five
pending lists.  The memory afterwards and the calls. -/
def drain (sem : VertexSemanticEnum) (driver : WorkerDriver) (self : GLCommandQueue)
    (mem : Memory) : Memory × List GLCall :=
  let adds := drainFboAdds driver 0 self.m_pendingFboAdds mem
  let resizes := drainResizes self.m_pendingResizes adds.1
  let fmts := drainFmtAdds sem driver 0 self.m_pendingFmtAdds resizes.1
  (fmts.1,
    [GLCall.glBindFramebuffer GL_FRAMEBUFFER 0] ++ adds.2 ++ resizes.2 ++ fmts.2 ++
      self.m_pendingFmtDels.map (fun fmt => GLCall.glDeleteVertexArrays 3 [fmt.e0, fmt.e1, fmt.e2]) ++
      self.m_pendingFboDels.map (fun fbo => GLCall.glDeleteFramebuffers 1 [fbo]))

end GLCommandQueue

/-- The body of the `switch (cmd.m_op)` in the replay loop of `RenderingWorker` for one entry:
the calls, and the value of `currentPrim` afterwards. -/
def Command.exec (mem : Memory) (drawBuf currentPrim : Nat) (cmd : Command) :
    List GLCall × Nat :=
  match cmd.m_op with
  | .SetShaderDataBinding =>
    ((mem.binding cmd.binding).bind mem drawBuf,
      (mem.pipeline (mem.binding cmd.binding).m_pipeline).m_drawPrim)
  | .SetRenderTarget =>
    (if cmd.target = 0 then [GLCall.glBindFramebuffer GL_FRAMEBUFFER 0]
      else [GLCall.glBindFramebuffer GL_FRAMEBUFFER (mem.texR cmd.target).m_fbo],
      currentPrim)
  | .SetViewport =>
    ([GLCall.glViewport cmd.rect.location0 cmd.rect.location1 cmd.rect.size0 cmd.rect.size1,
        GLCall.glDepthRange cmd.znear cmd.zfar],
      currentPrim)
  | .SetScissor =>
    (if cmd.rect.size0 = 0 ∧ cmd.rect.size1 = 0 then [GLCall.glDisable GL_SCISSOR_TEST]
      else
        [GLCall.glEnable GL_SCISSOR_TEST,
          GLCall.glScissor cmd.rect.location0 cmd.rect.location1 cmd.rect.size0 cmd.rect.size1],
      currentPrim)
  | .SetClearColor =>
    ([GLCall.glClearColor (cmd.rgba.getD 0 0) (cmd.rgba.getD 1 0) (cmd.rgba.getD 2 0)
        (cmd.rgba.getD 3 0)],
      currentPrim)
  | .ClearTarget =>
    ((if cmd.flags &&& GL_DEPTH_BUFFER_BIT ≠ 0 then [GLCall.glDepthMask GL_TRUE] else []) ++
        [GLCall.glClear cmd.flags],
      currentPrim)
  | .Draw => ([GLCall.glDrawArrays currentPrim cmd.start cmd.count], currentPrim)
  | .DrawIndexed =>
    ([GLCall.glDrawElements currentPrim cmd.count GL_UNSIGNED_INT (cmd.start * 4 % SIZE_MAX1)],
      currentPrim)
  | .DrawInstances =>
    ([GLCall.glDrawArraysInstanced currentPrim cmd.start cmd.count cmd.instCount], currentPrim)
  | .DrawInstancesIndexed =>
    ([GLCall.glDrawElementsInstanced currentPrim cmd.count GL_UNSIGNED_INT
        (cmd.start * 4 % SIZE_MAX1) cmd.instCount],
      currentPrim)
  | .ResolveBindTexture =>
    let tex := mem.texR cmd.resolveTex
    let target := if tex.m_samples > 1 then GL_TEXTURE_2D_MULTISAMPLE else GL_TEXTURE_2D
    ([GLCall.glBindFramebuffer GL_READ_FRAMEBUFFER tex.m_fbo,
        GLCall.glActiveTexture GL_TEXTURE9] ++
      (if cmd.resolveColor = true ∧ tex.m_bindTexs.1 ≠ 0 then
        [GLCall.glBindTexture target tex.m_bindTexs.1,
          GLCall.glCopyTexSubImage2D target 0 cmd.rect.location0 cmd.rect.location1
            cmd.rect.location0 cmd.rect.location1 cmd.rect.size0 cmd.rect.size1]
      else []) ++
      (if cmd.resolveDepth = true ∧ tex.m_bindTexs.2 ≠ 0 then
        [GLCall.glBindTexture target tex.m_bindTexs.2,
          GLCall.glCopyTexSubImage2D target 0 cmd.rect.location0 cmd.rect.location1
            cmd.rect.location0 cmd.rect.location1 cmd.rect.size0 cmd.rect.size1]
      else []),
      currentPrim)
  | .Present =>
    ((if cmd.source ≠ 0 then
        [GLCall.glBindFramebuffer GL_READ_FRAMEBUFFER (mem.texR cmd.source).m_fbo,
          GLCall.glBindFramebuffer GL_DRAW_FRAMEBUFFER 0,
          GLCall.glBlitFramebuffer 0 0 (mem.texR cmd.source).m_width
            (mem.texR cmd.source).m_height 0 0 (mem.texR cmd.source).m_width
            (mem.texR cmd.source).m_height GL_COLOR_BUFFER_BIT GL_NEAREST]
      else []) ++
        [GLCall.present],
      currentPrim)

namespace GLCommandQueue

/-- The replay loop `for (const Command& cmd : cmds)` of `RenderingWorker`, over the remaining
entries, with the current value of `currentPrim`. -/
def replay (mem : Memory) (drawBuf : Nat) : Nat → List Command → List GLCall
  | _, [] => []
  | currentPrim, cmd :: cmds =>
    (cmd.exec mem drawBuf currentPrim).1 ++
      replay mem drawBuf (cmd.exec mem drawBuf currentPrim).2 cmds

/-- One pass of the `while (self->m_running)` loop of `RenderingWorker` after the condition
variable wakes it, seen from outside the queue object: the memory afterwards and the calls
issued, in order.  A pass that finds `m_running` false issues none; else the pending lists are
drained and the command buffer at the new draw index is replayed, `currentPrim` starting as
`GL_TRIANGLES`. -/
def RenderingWorker.calls (sem : VertexSemanticEnum) (driver : WorkerDriver)
    (self : GLCommandQueue) (mem : Memory) : Memory × List GLCall :=
  if !self.m_running then (mem, [])
  else
    let drawBuf := self.m_completeBuf
    let drained := drain sem driver self mem
    (drained.1,
      drained.2 ++ replay drained.1 drawBuf GL_TRIANGLES ((self.m_cmdBufs.get? drawBuf).getD []))

end GLCommandQueue

/-! ## Client-visible steps -/

/-- A call of one of the recording methods, with its arguments. -/
inductive Recording where
  | setShaderDataBinding (binding : Nat)
  | setRenderTarget (target : Nat)
  | setViewport (rect : SWindowRect) (znear zfar : Nat)
  | setScissor (rect : SWindowRect)
  | setClearColor (r g b a : Nat)
  | clearTarget (render depth : Bool)
  | draw (start count : Nat)
  | drawIndexed (start count : Nat)
  | drawInstances (start count instCount : Nat)
  | drawInstancesIndexed (start count instCount : Nat)
  | resolveBindTexture (intersect : SWindowRect → SWindowRect → SWindowRect)
      (texture texWidth texHeight : Nat) (rect : SWindowRect) (tlOrigin color depth : Bool)
  | resolveDisplay (source : Nat)

/-- Dispatch of a recording call to the method of the queue. -/
def GLCommandQueue.perform (self : GLCommandQueue) : Recording → GLCommandQueue
  | .setShaderDataBinding binding => self.setShaderDataBinding binding
  | .setRenderTarget target => self.setRenderTarget target
  | .setViewport rect znear zfar => self.setViewport rect znear zfar
  | .setScissor rect => self.setScissor rect
  | .setClearColor r g b a => self.setClearColor r g b a
  | .clearTarget render depth => self.clearTarget render depth
  | .draw start count => self.draw start count
  | .drawIndexed start count => self.drawIndexed start count
  | .drawInstances start count instCount => self.drawInstances start count instCount
  | .drawInstancesIndexed start count instCount =>
    self.drawInstancesIndexed start count instCount
  | .resolveBindTexture intersect texture texWidth texHeight rect tlOrigin color depth =>
    self.resolveBindTexture intersect texture texWidth texHeight rect tlOrigin color depth
  | .resolveDisplay source => self.resolveDisplay source

/-- The atomic steps of an interleaving of the client thread and the render worker: the client
calls `execute()` or a recording method, or the worker wakes up once. -/
inductive Action where
  | execute
  | record (r : Recording)
  | wake

/-- Effect of one step on the context. -/
def step (ctx : GraphicsContext) : Action → GraphicsContext
  | .execute => GLCommandQueue.execute ctx
  | .record r => { ctx with commandQueue := ctx.commandQueue.perform r }
  | .wake => GLCommandQueue.wake ctx

/-- Effect of a sequence of steps, first to last. -/
def run (ctx : GraphicsContext) (acts : List Action) : GraphicsContext :=
  acts.foldl step ctx

/-- The steps that are not `execute()`. -/
def Action.isExecute : Action → Bool
  | .execute => true
  | _ => false

/-- A client call `load(data, sz)` on the committed dynamic buffer behind pointer `(di, bi)`. -/
def GraphicsContext.loadDBuf (ctx : GraphicsContext) (di bi : Nat) (data : List Nat) (sz : Nat) :
    GraphicsContext :=
  { ctx with dataFactory := ctx.dataFactory.onDBuf di bi (fun b => b.load data sz) }

/-- The start of the upload scenario: a freshly constructed queue and a registry holding one
committed set with a 16-byte static buffer (contents `S`) and a 16-byte dynamic buffer into
which the bytes `A` have been loaded. -/
def scenarioStart (use suse : Nat) (cpuIndet : Nat → Nat) (gpuIndet : Nat → Nat → Nat)
    (A S : List Nat) : GraphicsContext :=
  { dataFactory :=
      { m_committedData :=
          [{ m_SBufs := [GLGraphicsBufferS.ctor suse S 16]
             m_DBufs := [(GLGraphicsBufferD.ctor use 16 cpuIndet gpuIndet).load A 16] }] }
    commandQueue := {} }

/-! ## Structural notifications to the queue -/

namespace GLCommandQueue

/-- Method `addVertexFormat(GLVertexFormat* fmt)`. -/
def addVertexFormat (self : GLCommandQueue) (fmt : GLVertexFormat) : GLCommandQueue :=
  { self with m_pendingFmtAdds := self.m_pendingFmtAdds ++ [some fmt.addr] }

/-- The loop of `delVertexFormat` over `m_pendingFmtAdds`: the first entry equal to `fmt` is set
to `nullptr` and the loop left; the result says whether one was found. -/
def nullFirstAdd (fmt : Nat) : List (Option Nat) → Bool × List (Option Nat)
  | [] => (false, [])
  | afmt :: rest =>
    if afmt = some fmt then (true, none :: rest)
    else ((nullFirstAdd fmt rest).1, afmt :: (nullFirstAdd fmt rest).2)

/-- Method `delVertexFormat(GLVertexFormat* fmt)`. -/
def delVertexFormat (self : GLCommandQueue) (fmt : GLVertexFormat) : GLCommandQueue :=
  let found := nullFirstAdd fmt.addr self.m_pendingFmtAdds
  let self1 := { self with m_pendingFmtAdds := found.2 }
  if !found.1 then
    { self1 with m_pendingFmtDels := self1.m_pendingFmtDels ++ [fmt.m_vao] }
  else self1

/-- Method `addFBO(GLTextureR* tex)`. -/
def addFBO (self : GLCommandQueue) (tex : GLTextureR) : GLCommandQueue :=
  { self with m_pendingFboAdds := self.m_pendingFboAdds ++ [tex.addr] }

/-- Method `delFBO(GLTextureR* tex)`. -/
def delFBO (self : GLCommandQueue) (tex : GLTextureR) : GLCommandQueue :=
  { self with m_pendingFboDels := self.m_pendingFboDels ++ [tex.m_fbo] }

/-- Method `resizeRenderTexture(ITextureR* tex, size_t width, size_t height)`. -/
def resizeRenderTexture (self : GLCommandQueue) (tex : GLTextureR) (width height : Nat) :
    GLCommandQueue :=
  { self with
    m_pendingResizes :=
      self.m_pendingResizes ++ [{ tex := tex.addr, width := width, height := height }] }

end GLCommandQueue

/-- Constructor `GLTextureR(q, width, height, samples, enableShaderColorBinding,
enableShaderDepthBinding)`: the new object and the queue after `m_q->addFBO(this)`.  `addr` is
the address of the object, `names` are the four texture names the driver would hand out. -/
def GLTextureR.ctor (addr : Nat) (q : GLCommandQueue) (width height samples : Nat)
    (enableShaderColorBinding enableShaderDepthBinding : Bool) (names : Nat × Nat × Nat × Nat) :
    GLTextureR × GLCommandQueue :=
  let self : GLTextureR :=
    { addr := addr
      m_texs := (names.1, names.2.1)
      m_bindTexs :=
        (if enableShaderColorBinding then names.2.2.1 else 0,
          if enableShaderDepthBinding then names.2.2.2 else 0)
      m_fbo := 0
      m_width := width
      m_height := height
      m_samples := samples
      m_target := if samples > 1 then GL_TEXTURE_2D_MULTISAMPLE else GL_TEXTURE_2D }
  (self, q.addFBO self)

/-- Destructor `~GLTextureR()`: the effect on the queue (`m_q->delFBO(this)`). -/
def GLTextureR.dtor (self : GLTextureR) (q : GLCommandQueue) : GLCommandQueue :=
  q.delFBO self

/-- Constructor `GLVertexFormat(q, elementCount, elements)`: the new object and the queue after
`m_q->addVertexFormat(this)`. -/
def GLVertexFormat.ctor (addr : Nat) (q : GLCommandQueue) (elementCount : Nat)
    (elements : List VertexElementDescriptor) : GLVertexFormat × GLCommandQueue :=
  let self : GLVertexFormat :=
    { addr := addr
      m_vao := ⟨0, 0, 0⟩
      m_elementCount := elementCount
      m_elements := elements.take elementCount }
  (self, q.addVertexFormat self)

/-- Destructor `~GLVertexFormat()`: the effect on the queue. -/
def GLVertexFormat.dtor (self : GLVertexFormat) (q : GLCommandQueue) : GLCommandQueue :=
  q.delVertexFormat self

/-- Destructor of `GLData` (`delete data`): the members are destroyed in reverse order of
declaration, and only the destructors of vertex formats and render textures act on state kept
here, through the queue.  The elements of one vector are taken first to last. -/
def GLData.dtor (self : GLData) (q : GLCommandQueue) : GLCommandQueue :=
  self.m_RTexs.foldl (fun q1 tex => tex.dtor q1)
    (self.m_VFmts.foldl (fun q1 fmt => fmt.dtor q1) q)

/-! ## Factory context calls and transactions -/

/-- The client arguments of `newShaderPipeline`; sources and names are given by numbers,
`srcFac`, `dstFac` and `prim` are the enumerators converted to `int`. -/
structure ShaderPipelineArgs where
  vertSource : Nat
  fragSource : Nat
  texCount : Nat
  texNames : List Nat
  uniformBlockCount : Nat
  uniformBlockNames : List Nat
  srcFac : Nat
  dstFac : Nat
  prim : Nat
  depthTest : Bool
  depthWrite : Bool
  backfaceCulling : Bool
deriving DecidableEq, Repr

/-- The client arguments of `newShaderDataBinding` that reach the constructor. -/
structure ShaderDataBindingArgs where
  pipeline : Nat
  vtxFormat : Nat
  ubufCount : Nat
  ubufs : List Nat
  ubufOffs : Option (List Nat)
  ubufSizes : Option (List Nat)
  texCount : Nat
  texs : List Nat
deriving DecidableEq, Repr

namespace GLDataFactory

/-- Run `f` on the object behind `m_deferredData` (the `m_deferredData->...` of the context
methods, which exist only while a transaction is open). -/
def onDeferred (gfxF : GLDataFactory) (f : GLData → GLData) : GLDataFactory :=
  { gfxF with m_deferredData := gfxF.m_deferredData.map f }

end GLDataFactory

namespace Context

/-- Method `Context::newStaticBuffer(use, data, stride, count)`; `addr` is the address `new`
returns. -/
def newStaticBuffer (ctx : GraphicsContext) (use : Nat) (data : List Nat) (stride count : Nat)
    (addr : Nat) : Option Nat × GraphicsContext :=
  let retval := GLGraphicsBufferS.ctor use data (stride * count % SIZE_MAX1)
  (some addr,
    { ctx with
      dataFactory := ctx.dataFactory.onDeferred (fun d => { d with m_SBufs := d.m_SBufs ++ [retval] }) })

/-- Method `Context::newDynamicBuffer(use, stride, count)`. -/
def newDynamicBuffer (ctx : GraphicsContext) (use stride count : Nat) (cpuIndet : Nat → Nat)
    (gpuIndet : Nat → Nat → Nat) (addr : Nat) : Option Nat × GraphicsContext :=
  let retval := GLGraphicsBufferD.ctor use (stride * count % SIZE_MAX1) cpuIndet gpuIndet
  (some addr,
    { ctx with
      dataFactory := ctx.dataFactory.onDeferred (fun d => { d with m_DBufs := d.m_DBufs ++ [retval] }) })

/-- Method `Context::newStaticTexture(width, height, mips, fmt, data, sz)`. -/
def newStaticTexture (ctx : GraphicsContext) (width height mips : Nat) (fmt : TextureFormat)
    (data : List Nat) (sz : Nat) (addr : Nat) : Except Fatal (Option Nat × GraphicsContext) :=
  match GLTextureS.ctor width height mips fmt data sz with
  | none => .error Fatal.unsupportedTexFormat
  | some retval =>
    .ok (some addr,
      { ctx with
        dataFactory :=
          ctx.dataFactory.onDeferred (fun d => { d with m_STexs := d.m_STexs ++ [retval] }) })

/-- Method `Context::newStaticArrayTexture(width, height, layers, fmt, data, sz)`. -/
def newStaticArrayTexture (ctx : GraphicsContext) (width height layers : Nat)
    (fmt : TextureFormat) (data : List Nat) (sz : Nat) (addr : Nat) :
    Option Nat × GraphicsContext :=
  let retval := GLTextureSA.ctor width height layers fmt data sz
  (some addr,
    { ctx with
      dataFactory :=
        ctx.dataFactory.onDeferred (fun d => { d with m_SATexs := d.m_SATexs ++ [retval] }) })

/-- Method `Context::newDynamicTexture(width, height, fmt)`. -/
def newDynamicTexture (ctx : GraphicsContext) (width height : Nat) (fmt : TextureFormat)
    (cpuIndet : Nat → Nat) (gpuIndet : Nat → Nat → Nat) (addr : Nat) :
    Except Fatal (Option Nat × GraphicsContext) :=
  match GLTextureD.ctor width height fmt cpuIndet gpuIndet with
  | none => .error Fatal.unsupportedTexFormat
  | some retval =>
    .ok (some addr,
      { ctx with
        dataFactory :=
          ctx.dataFactory.onDeferred (fun d => { d with m_DTexs := d.m_DTexs ++ [retval] }) })

/-- Method `Context::newRenderTexture(width, height, enableShaderColorBinding,
enableShaderDepthBinding)`. -/
def newRenderTexture (ctx : GraphicsContext) (width height : Nat)
    (enableShaderColorBinding enableShaderDepthBinding : Bool) (names : Nat × Nat × Nat × Nat)
    (addr : Nat) : Option Nat × GraphicsContext :=
  let made := GLTextureR.ctor addr ctx.commandQueue width height ctx.dataFactory.m_drawSamples
    enableShaderColorBinding enableShaderDepthBinding names
  let q := made.2.resizeRenderTexture made.1 width height
  (some addr,
    { dataFactory :=
        ctx.dataFactory.onDeferred (fun d => { d with m_RTexs := d.m_RTexs ++ [made.1] })
      commandQueue := q })

/-- Method `Context::newVertexFormat(elementCount, elements)`. -/
def newVertexFormat (ctx : GraphicsContext) (elementCount : Nat)
    (elements : List VertexElementDescriptor) (addr : Nat) : Option Nat × GraphicsContext :=
  let made := GLVertexFormat.ctor addr ctx.commandQueue elementCount elements
  (some addr,
    { dataFactory :=
        ctx.dataFactory.onDeferred (fun d => { d with m_VFmts := d.m_VFmts ++ [made.1] })
      commandQueue := made.2 })

/-- The pipeline object built by `newShaderPipeline` once the four driver steps have
succeeded. -/
def linkedPipeline (shader : GLShaderPipeline) (args : ShaderPipelineArgs)
    (driver : ShaderDriver) : GLShaderPipeline :=
  { shader with
    m_sfactor := BLEND_FACTOR_TABLE.getD args.srcFac GL_ZERO
    m_dfactor := BLEND_FACTOR_TABLE.getD args.dstFac GL_ZERO
    m_depthTest := args.depthTest
    m_depthWrite := args.depthWrite
    m_backfaceCulling := args.backfaceCulling
    m_drawPrim := PRIMITIVE_TABLE.getD args.prim GL_TRIANGLES
    m_uniLocs :=
      if args.uniformBlockCount ≠ 0 then
        (List.range args.uniformBlockCount).map driver.uniformBlockIndex
      else [] }

/-- Method `Context::newShaderPipeline(...)`: `none` is the `nullptr` returned after a failed
step. -/
def newShaderPipeline (ctx : GraphicsContext) (args : ShaderPipelineArgs)
    (driver : ShaderDriver) (addr : Nat) : Option Nat × GraphicsContext :=
  let shader : GLShaderPipeline := {}
  let init := shader.initObjects driver
  if !init.1 then (none, ctx)
  else if driver.vertStatus ≠ GL_TRUE then (none, ctx)
  else if driver.fragStatus ≠ GL_TRUE then (none, ctx)
  else if driver.linkStatus ≠ GL_TRUE then (none, ctx)
  else
    let retval := linkedPipeline init.2 args driver
    (some addr,
      { ctx with
        dataFactory := ctx.dataFactory.onDeferred (fun d => { d with m_SPs := d.m_SPs ++ [retval] }) })

/-- Method `Context::newShaderDataBinding(...)`. -/
def newShaderDataBinding (ctx : GraphicsContext) (args : ShaderDataBindingArgs) (addr : Nat) :
    Except Fatal (Option Nat × GraphicsContext) :=
  match GLShaderDataBinding.ctor ctx.dataFactory.ndebug args.pipeline args.vtxFormat
      args.ubufCount args.ubufs args.ubufOffs args.ubufSizes args.texCount args.texs with
  | .error e => .error e
  | .ok retval =>
    .ok (some addr,
      { ctx with
        dataFactory :=
          ctx.dataFactory.onDeferred (fun d => { d with m_SBinds := d.m_SBinds ++ [retval] }) })

end Context

/-- A call of one method of `GLDataFactory::Context`: the client's arguments together with what
the environment answers during that call: the address returned by `new`, the indeterminate
initial bytes of fresh storage, the names and status values returned by the driver. -/
inductive FactoryCall where
  | newStaticBuffer (use : Nat) (data : List Nat) (stride count : Nat) (addr : Nat)
  | newDynamicBuffer (use stride count : Nat) (cpuIndet : Nat → Nat)
      (gpuIndet : Nat → Nat → Nat) (addr : Nat)
  | newStaticTexture (width height mips : Nat) (fmt : TextureFormat) (data : List Nat)
      (sz : Nat) (addr : Nat)
  | newStaticArrayTexture (width height layers : Nat) (fmt : TextureFormat) (data : List Nat)
      (sz : Nat) (addr : Nat)
  | newDynamicTexture (width height : Nat) (fmt : TextureFormat) (cpuIndet : Nat → Nat)
      (gpuIndet : Nat → Nat → Nat) (addr : Nat)
  | newRenderTexture (width height : Nat) (enableShaderColorBinding enableShaderDepthBinding : Bool)
      (names : Nat × Nat × Nat × Nat) (addr : Nat)
  | newVertexFormat (elementCount : Nat) (elements : List VertexElementDescriptor) (addr : Nat)
  | newShaderPipeline (args : ShaderPipelineArgs) (driver : ShaderDriver) (addr : Nat)
  | newShaderDataBinding (args : ShaderDataBindingArgs) (addr : Nat)

/-- Dispatch of a context call: the returned pointer (`none` is `nullptr`) and the state
afterwards, or the fatal error that ends the program. -/
def Context.perform (ctx : GraphicsContext) : FactoryCall →
    Except Fatal (Option Nat × GraphicsContext)
  | .newStaticBuffer use data stride count addr =>
    .ok (Context.newStaticBuffer ctx use data stride count addr)
  | .newDynamicBuffer use stride count cpuIndet gpuIndet addr =>
    .ok (Context.newDynamicBuffer ctx use stride count cpuIndet gpuIndet addr)
  | .newStaticTexture width height mips fmt data sz addr =>
    Context.newStaticTexture ctx width height mips fmt data sz addr
  | .newStaticArrayTexture width height layers fmt data sz addr =>
    .ok (Context.newStaticArrayTexture ctx width height layers fmt data sz addr)
  | .newDynamicTexture width height fmt cpuIndet gpuIndet addr =>
    Context.newDynamicTexture ctx width height fmt cpuIndet gpuIndet addr
  | .newRenderTexture width height color depth names addr =>
    .ok (Context.newRenderTexture ctx width height color depth names addr)
  | .newVertexFormat elementCount elements addr =>
    .ok (Context.newVertexFormat ctx elementCount elements addr)
  | .newShaderPipeline args driver addr =>
    .ok (Context.newShaderPipeline ctx args driver addr)
  | .newShaderDataBinding args addr => Context.newShaderDataBinding ctx args addr

/-- A transaction function (`FactoryCommitFunc`) as the program it runs against the context: it
returns its verdict, or makes a context call and goes on according to the pointer it gets
back, or calls `commitTransaction` itself (with the inner transaction function `inner`; `addr`
is the address `new GLData()` would return for it) and goes on according to the token. -/
inductive Trans where
  | ret (ok : Bool)
  | call (c : FactoryCall) (k : Option Nat → Trans)
  | commit (addr : Nat) (inner : Trans) (k : Option Nat → Trans)

namespace GLDataFactory

/-- The insertion `m_committedData.insert(retval)` into the set of pointers. -/
def insertCommitted (registry : List GLData) (retval : GLData) : List GLData :=
  if registry.any (fun d => d.addr == retval.addr) then registry
  else registry ++ [retval]

/-- The step `m_deferredData.reset(new GLData())`: the current-transaction target becomes a
new, empty set at address `addr`. -/
def openTransaction (ctx : GraphicsContext) (addr : Nat) : GraphicsContext :=
  { ctx with dataFactory := { ctx.dataFactory with m_deferredData := some { addr := addr } } }

/-- Body of `GLDataFactory::commitTransaction(trans)`, with the call `trans(ctx)` given as the
state transformer `runTrans`.  `addr` is the address returned by `new GLData()`.  The result is
the data pointer held by the returned token (`none` is the null token) and the state
afterwards, or the fatal error. -/
def commitTransactionWith (addr : Nat)
    (runTrans : GraphicsContext → Except Fatal (Bool × GraphicsContext))
    (ctx : GraphicsContext) : Except Fatal (Option Nat × GraphicsContext) :=
  if ctx.dataFactory.m_deferredData.isSome then .error Fatal.nestedCommitTransaction
  else
    match runTrans (openTransaction ctx addr) with
    | .error e => .error e
    | .ok (false, ctx2) =>
      let q :=
        match ctx2.dataFactory.m_deferredData with
        | some d => d.dtor ctx2.commandQueue
        | none => ctx2.commandQueue
      .ok (none,
        { dataFactory := { ctx2.dataFactory with m_deferredData := none }
          commandQueue := q })
    | .ok (true, ctx2) =>
      match ctx2.dataFactory.m_deferredData with
      | some retval =>
        .ok (some retval.addr,
          { ctx2 with
            dataFactory :=
              { ctx2.dataFactory with
                m_deferredData := none
                m_committedData := insertCommitted ctx2.dataFactory.m_committedData retval } })
      | none => .ok (none, ctx2)

end GLDataFactory

/-- Run of a transaction function against the context; the result is its verdict and the state
it leaves, or the fatal error that ended the program. -/
def Trans.run : Trans → GraphicsContext → Except Fatal (Bool × GraphicsContext)
  | .ret ok, ctx => .ok (ok, ctx)
  | .call c k, ctx =>
    match Context.perform ctx c with
    | .error e => .error e
    | .ok (r, ctx1) => (k r).run ctx1
  | .commit addr inner k, ctx =>
    match GLDataFactory.commitTransactionWith addr (fun c => inner.run c) ctx with
    | .error e => .error e
    | .ok (token, ctx1) => (k token).run ctx1

/-- The context calls a transaction function completes, first to last, each with the pointer it
returned; the list ends where the run ends. -/
def Trans.calls : Trans → GraphicsContext → List (FactoryCall × Option Nat)
  | .ret _, _ => []
  | .call c k, ctx =>
    match Context.perform ctx c with
    | .error _ => []
    | .ok (r, ctx1) => (c, r) :: (k r).calls ctx1
  | .commit addr inner k, ctx =>
    match GLDataFactory.commitTransactionWith addr (fun c => inner.run c) ctx with
    | .error _ => []
    | .ok (token, ctx1) => (k token).calls ctx1

namespace GLDataFactory

/-- Method `GraphicsDataToken GLDataFactory::commitTransaction(const FactoryCommitFunc& trans)`. -/
def commitTransaction (addr : Nat) (trans : Trans) (ctx : GraphicsContext) :
    Except Fatal (Option Nat × GraphicsContext) :=
  commitTransactionWith addr (fun c => trans.run c) ctx

/-- Method `void GLDataFactory::destroyData(IGraphicsData* d)`; `d` is the address of the set.
The set is erased from the registry and deleted. -/
def destroyData (ctx : GraphicsContext) (d : Nat) : GraphicsContext :=
  { dataFactory :=
      { ctx.dataFactory with
        m_committedData := ctx.dataFactory.m_committedData.filter (fun x => x.addr != d) }
    commandQueue :=
      (ctx.dataFactory.m_committedData.filter (fun x => x.addr == d)).foldl
        (fun q x => x.dtor q) ctx.commandQueue }

/-- Method `void GLDataFactory::destroyAllData()`. -/
def destroyAllData (ctx : GraphicsContext) : GraphicsContext :=
  { dataFactory := { ctx.dataFactory with m_committedData := [] }
    commandQueue :=
      ctx.dataFactory.m_committedData.foldl (fun q x => x.dtor q) ctx.commandQueue }

end GLDataFactory

/-! ## Stick clamping of the Dolphin adapter (`lib/inputdev/DolphinSmashAdapter.cpp`) -/

/-- Conversion of an integer value to `int8_t`. -/
def toInt8 (x : Int) : Int := (x + 128) % 256 - 128

/-- The table `pad_clampregion`. -/
def pad_clampregion : List Nat := [30, 180, 15, 72, 40, 15, 59, 31]

/-- Function `pad_clampstick(px, py, max, xy, min)`: the values of `px` and `py` afterwards.
The locals are `int32_t`; with `int8_t` arguments no intermediate value leaves that range, so
the arithmetic is that of the integers, `/` being the truncating division of C++. -/
def pad_clampstick (px py max xy min : Int) : Int × Int :=
  let signX : Int := if px ≥ 0 then 1 else -1
  let x0 : Int := if px ≥ 0 then px else -px
  let signY : Int := if py ≥ 0 then 1 else -1
  let y0 : Int := if py ≥ 0 then py else -py
  let x1 : Int := if x0 ≤ min then 0 else x0 - min
  let y1 : Int := if y0 ≤ min then 0 else y0 - min
  if x1 ≠ 0 ∨ y1 ≠ 0 then
    let xx := x1 * xy
    let yy := y1 * xy
    let maxy := max * xy
    if yy ≤ xx then
      let d := x1 * xy + y1 * (max - xy)
      if maxy < d then
        (toInt8 (x1 * maxy.tdiv d * signX), toInt8 (y1 * maxy.tdiv d * signY))
      else (toInt8 (x1 * signX), toInt8 (y1 * signY))
    else
      let d := y1 * xy + x1 * (max - xy)
      if maxy < d then
        (toInt8 (x1 * maxy.tdiv d * signX), toInt8 (y1 * maxy.tdiv d * signY))
      else (toInt8 (x1 * signX), toInt8 (y1 * signY))
  else (0, 0)

/-- Function `pad_clamptrigger(trigger)`: the value of `trigger` afterwards. -/
def pad_clamptrigger (trigger : Nat) : Nat :=
  let min := pad_clampregion.getD 0 0
  let max := pad_clampregion.getD 1 0
  if min > trigger then 0
  else if max < trigger then (max - min) % 256
  else trigger - min

/-- The members of `DolphinControllerState` (declared outside the sources) that `clamp` works
on: the two sticks (`int8_t[2]` each) and the analog triggers (`uint8_t[2]`). -/
structure DolphinControllerState where
  m_leftStick : Int × Int := (0, 0)
  m_rightStick : Int × Int := (0, 0)
  m_analogTriggers : Nat × Nat := (0, 0)
deriving DecidableEq, Repr

/-- Method `void DolphinControllerState::clamp()`. -/
def DolphinControllerState.clamp (self : DolphinControllerState) : DolphinControllerState :=
  { m_leftStick :=
      pad_clampstick self.m_leftStick.1 self.m_leftStick.2 (toInt8 (pad_clampregion.getD 3 0))
        (toInt8 (pad_clampregion.getD 4 0)) (toInt8 (pad_clampregion.getD 2 0))
    m_rightStick :=
      pad_clampstick self.m_rightStick.1 self.m_rightStick.2 (toInt8 (pad_clampregion.getD 6 0))
        (toInt8 (pad_clampregion.getD 7 0)) (toInt8 (pad_clampregion.getD 5 0))
    m_analogTriggers :=
      (pad_clamptrigger self.m_analogTriggers.1, pad_clamptrigger self.m_analogTriggers.2) }

/-! ## Specification-side notions for transactions and reachable resource states -/

/-- A transaction function that never calls `commitTransaction` itself. -/
def Trans.commitFree : Trans → Prop
  | .ret _ => True
  | .call _ k => ∀ r, (k r).commitFree
  | .commit _ _ _ => False

/-- The number of resources held by a set. -/
def GLData.size (d : GLData) : Nat :=
  d.m_SPs.length + d.m_SBinds.length + d.m_SBufs.length + d.m_DBufs.length + d.m_STexs.length +
    d.m_SATexs.length + d.m_DTexs.length + d.m_RTexs.length + d.m_VFmts.length

namespace FactoryCall

/-- The pipeline built by a completed call, if it is a `newShaderPipeline` that returned an
object. -/
def builtSP : FactoryCall × Option Nat → Option GLShaderPipeline
  | (.newShaderPipeline args driver _, some _) =>
    some (Context.linkedPipeline (GLShaderPipeline.initObjects {} driver).2 args driver)
  | _ => none

/-- The data binding built by a completed `newShaderDataBinding` call. -/
def builtSBind (ndebug : Bool) : FactoryCall × Option Nat → Option GLShaderDataBinding
  | (.newShaderDataBinding args _, _) =>
    match GLShaderDataBinding.ctor ndebug args.pipeline args.vtxFormat args.ubufCount args.ubufs
        args.ubufOffs args.ubufSizes args.texCount args.texs with
    | .ok b => some b
    | .error _ => none
  | _ => none

/-- The static buffer built by a completed `newStaticBuffer` call. -/
def builtSBuf : FactoryCall × Option Nat → Option GLGraphicsBufferS
  | (.newStaticBuffer use data stride count _, _) =>
    some (GLGraphicsBufferS.ctor use data (stride * count % SIZE_MAX1))
  | _ => none

/-- The dynamic buffer built by a completed `newDynamicBuffer` call. -/
def builtDBuf : FactoryCall × Option Nat → Option GLGraphicsBufferD
  | (.newDynamicBuffer use stride count cpuIndet gpuIndet _, _) =>
    some (GLGraphicsBufferD.ctor use (stride * count % SIZE_MAX1) cpuIndet gpuIndet)
  | _ => none

/-- The static texture built by a completed `newStaticTexture` call. -/
def builtSTex : FactoryCall × Option Nat → Option GLTextureS
  | (.newStaticTexture width height mips fmt data sz _, _) =>
    GLTextureS.ctor width height mips fmt data sz
  | _ => none

/-- The array texture built by a completed `newStaticArrayTexture` call. -/
def builtSATex : FactoryCall × Option Nat → Option GLTextureSA
  | (.newStaticArrayTexture width height layers fmt data sz _, _) =>
    some (GLTextureSA.ctor width height layers fmt data sz)
  | _ => none

/-- The dynamic texture built by a completed `newDynamicTexture` call. -/
def builtDTex : FactoryCall × Option Nat → Option GLTextureD
  | (.newDynamicTexture width height fmt cpuIndet gpuIndet _, _) =>
    GLTextureD.ctor width height fmt cpuIndet gpuIndet
  | _ => none

/-- The render texture built by a completed `newRenderTexture` call. -/
def builtRTex (drawSamples : Nat) : FactoryCall × Option Nat → Option GLTextureR
  | (.newRenderTexture width height color depth names addr, _) =>
    some (GLTextureR.ctor addr {} width height drawSamples color depth names).1
  | _ => none

/-- The vertex format built by a completed `newVertexFormat` call. -/
def builtVFmt : FactoryCall × Option Nat → Option GLVertexFormat
  | (.newVertexFormat elementCount elements addr, _) =>
    some (GLVertexFormat.ctor addr {} elementCount elements).1
  | _ => none

end FactoryCall

/-- The set `d` after a completed context call has registered what it built: the built
resource, if any, is appended to the list of its kind. -/
def GLData.register (ndebug : Bool) (drawSamples : Nat) (d : GLData)
    (cr : FactoryCall × Option Nat) : GLData :=
  { d with
    m_SPs := d.m_SPs ++ (FactoryCall.builtSP cr).toList
    m_SBinds := d.m_SBinds ++ (FactoryCall.builtSBind ndebug cr).toList
    m_SBufs := d.m_SBufs ++ (FactoryCall.builtSBuf cr).toList
    m_DBufs := d.m_DBufs ++ (FactoryCall.builtDBuf cr).toList
    m_STexs := d.m_STexs ++ (FactoryCall.builtSTex cr).toList
    m_SATexs := d.m_SATexs ++ (FactoryCall.builtSATex cr).toList
    m_DTexs := d.m_DTexs ++ (FactoryCall.builtDTex cr).toList
    m_RTexs := d.m_RTexs ++ (FactoryCall.builtRTex drawSamples cr).toList
    m_VFmts := d.m_VFmts ++ (FactoryCall.builtVFmt cr).toList }

/-- The states of a dynamic buffer reachable from construction by `load`, by `map` with a
write through the returned pointer followed by `unmap`, and by `update(i)`. -/
inductive GLGraphicsBufferD.Reachable : GLGraphicsBufferD → Prop where
  | ctor (use sz : Nat) (cpuIndet : Nat → Nat) (gpuIndet : Nat → Nat → Nat) :
    Reachable (GLGraphicsBufferD.ctor use sz cpuIndet gpuIndet)
  | load (b : GLGraphicsBufferD) (data : List Nat) (sz : Nat) :
    Reachable b → Reachable (b.load data sz)
  | mapWriteUnmap (b : GLGraphicsBufferD) (hint : Nat) (bytes : List Nat) :
    Reachable b → (b.map hint).1.isSome = true →
    Reachable ((b.map hint).2.writeMapped bytes).unmap
  | update (b : GLGraphicsBufferD) (i : Nat) :
    Reachable b → i < 3 → Reachable (b.update i)

/-- The states of a dynamic texture reachable from construction by `load`, by `map` with a
write through the returned pointer followed by `unmap`, and by `update(i)`. -/
inductive GLTextureD.Reachable : GLTextureD → Prop where
  | ctor (width height : Nat) (fmt : TextureFormat) (cpuIndet : Nat → Nat)
      (gpuIndet : Nat → Nat → Nat) (t : GLTextureD) :
    GLTextureD.ctor width height fmt cpuIndet gpuIndet = some t → Reachable t
  | load (t : GLTextureD) (data : List Nat) (sz : Nat) :
    Reachable t → Reachable (t.load data sz)
  | mapWriteUnmap (t : GLTextureD) (hint : Nat) (bytes : List Nat) :
    Reachable t → (t.map hint).1.isSome = true →
    Reachable ((t.map hint).2.writeMapped bytes).unmap
  | update (t : GLTextureD) (i : Nat) :
    Reachable t → i < 3 → Reachable (t.update i)

/-! ## Specification-side notions for the upload log, the command buffers, the worker and the
sticks -/

/-- The bytes carried by the most recent upload to slot `i` in an upload log (entries
`(slot, bytes)`, oldest first); `none` if the log has no upload to that slot. -/
def lastUpload (log : List (Nat × List Nat)) (i : Nat) : Option (List Nat) :=
  (log.reverse.find? (fun e => e.1 == i)).map (fun e => e.2)

/-- The entry appended by a recording call: what the fill buffer of a freshly constructed queue
holds after the call. -/
def Recording.entries (r : Recording) : List Command :=
  (({} : GLCommandQueue).perform r).m_cmdBufs.e0

/-- The entries recorded by a sequence of steps, first to last. -/
def recorded : List Action → List Command
  | [] => []
  | .record r :: rest => r.entries ++ recorded rest
  | _ :: rest => recorded rest

/-- The value of `currentPrim` after the replay loop has passed over the entries `cmds`,
starting from `p`: the primitive of the pipeline of the latest `SetShaderDataBinding` entry of
`cmds`, and `p` if `cmds` has no such entry. -/
def primAfter (mem : Memory) (p : Nat) (cmds : List Command) : Nat :=
  match cmds.reverse.find? (fun c => decide (c.m_op = Op.SetShaderDataBinding)) with
  | some c => (mem.pipeline (mem.binding c.binding).m_pipeline).m_drawPrim
  | none => p

/-- Whether a call is a `glVertexAttribPointer`. -/
def GLCall.isAttribPointer : GLCall → Bool
  | .glVertexAttribPointer _ _ _ _ _ _ => true
  | _ => false

/-- Whether an element is per-instance: the test
`(desc->semantic & VertexSemantic::Instanced) != VertexSemantic::None`. -/
def VertexElementDescriptor.instanced (sem : VertexSemanticEnum) (d : VertexElementDescriptor) :
    Bool :=
  decide (d.semantic &&& sem.Instanced ≠ sem.None)

/-- The index of an element into the semantic tables. -/
def VertexElementDescriptor.maskedSem (sem : VertexSemanticEnum) (d : VertexElementDescriptor) :
    Nat :=
  d.semantic &&& sem.SemanticMask

/-- The sum of `SEMANTIC_SIZE_TABLE` over the elements of `ds` that are per-instance
(`inst = true`), respectively per-vertex (`inst = false`). -/
def classSize (sem : VertexSemanticEnum) (inst : Bool) : List VertexElementDescriptor → Nat
  | [] => 0
  | d :: ds =>
    (if d.instanced sem = inst then SEMANTIC_SIZE_TABLE.getD (d.maskedSem sem) 0 else 0) +
      classSize sem inst ds

/-- The `glVertexAttribPointer` calls the claim describes for the element list `ds`: attribute
`i` with the count and type of its semantic, the stride of its class and, as offset, the sizes
of the earlier elements of its class. -/
def expectedPointers (sem : VertexSemanticEnum) (ds : List VertexElementDescriptor) :
    List GLCall :=
  ds.enum.map (fun e =>
    GLCall.glVertexAttribPointer e.1 (SEMANTIC_COUNT_TABLE.getD (e.2.maskedSem sem) 0)
      (SEMANTIC_TYPE_TABLE.getD (e.2.maskedSem sem) 0) GL_TRUE
      (classSize sem (e.2.instanced sem) ds)
      (classSize sem (e.2.instanced sem) (ds.take e.1)))

/-- The byte width of one component of a GL component type. -/
def componentWidth (type : Nat) : Nat :=
  if type = GL_FLOAT then 4 else if type = GL_UNSIGNED_BYTE then 1 else 0

/-- The sign factor `signX` (`signY`) of `pad_clampstick`. -/
def stickSign (p : Int) : Int := if p ≥ 0 then 1 else -1

/-- The dead-zone-adjusted magnitude of a stick coordinate: `0` up to `min`, else the
magnitude less `min`. -/
def deadZone (p min : Int) : Int :=
  if (if p ≥ 0 then p else -p) ≤ min then 0 else (if p ≥ 0 then p else -p) - min

/-- The quantity `d` that `pad_clampstick` compares with `maxy = max * xy` for the adjusted
position `(x, y)`. -/
def clampDistance (x y max xy : Int) : Int :=
  if y * xy ≤ x * xy then x * xy + y * (max - xy) else y * xy + x * (max - xy)

/-! ## Inputs of the examples -/

/-- A memory for examples: every buffer and texture view is zero, every render texture, vertex
format and binding is zero, and every pipeline is the default-constructed one except the one at
address `7`, which draws triangle strips. -/
def exampleMemory : Memory :=
  { buffer := fun _ => { dynamic := false, m_buf := 0, m_bufs := ⟨0, 0, 0⟩ }
    texture := fun _ => { type := TextureType.other, m_tex := 0, m_texs := ⟨0, 0, 0⟩ }
    texR := fun a => { addr := a }
    vfmt := fun a => { addr := a, m_elementCount := 0, m_elements := [] }
    pipeline := fun a => if a = 7 then { m_drawPrim := GL_TRIANGLE_STRIP } else {}
    binding := fun a =>
      { m_pipeline := a, m_vtxFormat := 0, m_ubufCount := 0, m_ubufs := [], m_texCount := 0,
        m_texs := [] } }

/-- A driver for examples: the framebuffer generated for entry `k` is named `100 + k`, the
vertex arrays generated for entry `k` are named `10 k + 1`, `10 k + 2`, `10 k + 3`. -/
def exampleDriver : WorkerDriver :=
  { genFramebuffer := fun k => 100 + k
    genVertexArrays := fun k => ⟨10 * k + 1, 10 * k + 2, 10 * k + 3⟩ }

/-- Enumerator values for examples: `None = 0`, `SemanticMask = 0xf`, `Instanced = 0x10`. -/
def exampleSemantics : VertexSemanticEnum :=
  { None := 0, SemanticMask := 0xf, Instanced := 0x10 }

/-- A memory for examples like `exampleMemory`, in which every vertex format has three
elements on the static buffer at address 5: a per-vertex position (semantic 1), a per-vertex
normalised colour (semantic 6) and a per-instance texture coordinate (semantic 7 with the
instanced flag). -/
def exampleFormatMemory : Memory :=
  { exampleMemory with
    buffer := fun _ => { dynamic := false, m_buf := 40, m_bufs := ⟨0, 0, 0⟩ }
    vfmt := fun a =>
      { addr := a
        m_elementCount := 3
        m_elements :=
          [{ vertBuffer := 5, indexBuffer := 0, semantic := 1 },
            { vertBuffer := 5, indexBuffer := 0, semantic := 6 },
            { vertBuffer := 5, indexBuffer := 0, semantic := 0x17 }] } }

/-! ## Auxiliary facts -/

theorem slot_and_eq_zero_iff (m i : Nat) : (1 <<< i &&& m = 0) ↔ m.testBit i = false := by
  rw [Nat.one_shiftLeft, Nat.and_comm, Nat.and_two_pow]
  cases h : m.testBit i <;> simp

theorem testBit_lor_slot (m i j : Nat) :
    (m ||| 1 <<< i).testBit j = (m.testBit j || decide (i = j)) := by
  rw [Nat.testBit_lor, Nat.one_shiftLeft, Nat.testBit_two_pow]

theorem Arr3.get?_set_self {α : Type} (a : Arr3 α) (i : Nat) (v : α) (hi : i < 3) :
    (a.set i v).get? i = some v := by
  interval_cases i <;> rfl

theorem Arr3.get?_set_ne {α : Type} (a : Arr3 α) (i j : Nat) (v : α) (hij : j ≠ i) :
    (a.set i v).get? j = a.get? j := by
  rcases i with _ | _ | _ | i <;> rcases j with _ | _ | _ | j <;>
    simp_all [Arr3.set, Arr3.modify, Arr3.get?]

theorem Arr3.get?_modify_ne {α : Type} (a : Arr3 α) (i j : Nat) (f : α → α) (hij : j ≠ i) :
    (a.modify i f).get? j = a.get? j := by
  rcases i with _ | _ | _ | i <;> rcases j with _ | _ | _ | j <;>
    simp_all [Arr3.modify, Arr3.get?]

theorem memcpy_length (dst src : List Nat) (n : Nat) (hs : n ≤ src.length)
    (hd : n ≤ dst.length) : (memcpy dst src n).length = dst.length := by
  simp only [memcpy, List.length_append, List.length_take, List.length_drop]
  omega

theorem memcpy_take (dst src : List Nat) (n : Nat) (hs : n ≤ src.length) :
    (memcpy dst src n).take n = src.take n := by
  have hl : (src.take n).length = n := by simp [List.length_take, hs]
  unfold memcpy
  rw [List.take_append_of_le_length (by omega)]
  rw [List.take_of_length_le (by omega)]

theorem memcpy_getElem?_ge (dst src : List Nat) (n i : Nat) (hs : n ≤ src.length)
    (hi : n ≤ i) : (memcpy dst src n)[i]? = dst[i]? := by
  have hl : (src.take n).length = n := by simp [List.length_take, hs]
  unfold memcpy
  rw [List.getElem?_append_right (by omega), hl, List.getElem?_drop]
  congr 1
  omega

theorem memcpy_all (dst src : List Nat) (h : src.length = dst.length) :
    memcpy dst src src.length = src := by
  unfold memcpy
  rw [List.take_length, List.drop_of_length_le (by omega), List.append_nil]

/-! ## Dynamic resources: `load`, `unmap`, `update`, `map` -/

/-- C1: for every dynamic buffer and every dynamic texture, in any state, the validity mask is
`0` after `load(data, sz)` and after `unmap()`, so no slot is marked valid. -/
theorem C1_load_unmap_clear_mask :
    (∀ (b : GLGraphicsBufferD) (data : List Nat) (sz : Nat),
      (b.load data sz).m_validMask = 0 ∧ b.unmap.m_validMask = 0 ∧
      (∀ i, (b.load data sz).m_validMask.testBit i = false) ∧
      (∀ i, b.unmap.m_validMask.testBit i = false)) ∧
    (∀ (t : GLTextureD) (data : List Nat) (sz : Nat),
      (t.load data sz).m_validMask = 0 ∧ t.unmap.m_validMask = 0 ∧
      (∀ i, (t.load data sz).m_validMask.testBit i = false) ∧
      (∀ i, t.unmap.m_validMask.testBit i = false)) := by
  refine ⟨fun b data sz => ⟨rfl, rfl, fun i => ?_, fun i => ?_⟩,
    fun t data sz => ⟨rfl, rfl, fun i => ?_, fun i => ?_⟩⟩ <;>
  simp [GLGraphicsBufferD.load, GLGraphicsBufferD.unmap, GLTextureD.load, GLTextureD.unmap]

/-- C2: for every dynamic buffer `b`, every dynamic texture `t` and every slot `i < 3`: if bit
`i` of the validity mask is set, `update(i)` leaves the whole state (upload log included)
unchanged; otherwise it issues exactly one upload, of the current staging bytes to slot `i`,
sets bit `i`, and leaves the other mask bits, the other two slots and the staging copy
unchanged. -/
theorem C2_update_slot (b : GLGraphicsBufferD) (t : GLTextureD) (i : Nat) (hi : i < 3) :
    (b.m_validMask.testBit i = true → b.update i = b) ∧
    (b.m_validMask.testBit i = false →
      (b.update i).glUploads = b.glUploads ++ [(i, b.m_cpuBuf)] ∧
      (b.update i).m_bufs.get? i = some b.m_cpuBuf ∧
      (∀ j, j ≠ i → (b.update i).m_bufs.get? j = b.m_bufs.get? j) ∧
      (b.update i).m_validMask.testBit i = true ∧
      (∀ j, j ≠ i → (b.update i).m_validMask.testBit j = b.m_validMask.testBit j) ∧
      (b.update i).m_cpuBuf = b.m_cpuBuf) ∧
    (t.m_validMask.testBit i = true → t.update i = t) ∧
    (t.m_validMask.testBit i = false →
      (t.update i).glUploads = t.glUploads ++ [(i, t.m_cpuBuf)] ∧
      (t.update i).m_texs.get? i = some t.m_cpuBuf ∧
      (∀ j, j ≠ i → (t.update i).m_texs.get? j = t.m_texs.get? j) ∧
      (t.update i).m_validMask.testBit i = true ∧
      (∀ j, j ≠ i → (t.update i).m_validMask.testBit j = t.m_validMask.testBit j) ∧
      (t.update i).m_cpuBuf = t.m_cpuBuf) := by
  refine ⟨fun h => ?_, fun h => ?_, fun h => ?_, fun h => ?_⟩
  · have hz : ¬ (1 <<< i &&& b.m_validMask = 0) := by
      rw [slot_and_eq_zero_iff]; simp [h]
    simp only [GLGraphicsBufferD.update, if_neg hz]
  · have hz : 1 <<< i &&& b.m_validMask = 0 := (slot_and_eq_zero_iff _ _).2 h
    have hu : b.update i =
        { b with
          m_bufs := b.m_bufs.set i b.m_cpuBuf
          glUploads := b.glUploads ++ [(i, b.m_cpuBuf)]
          m_validMask := b.m_validMask ||| 1 <<< i } := by
      simp only [GLGraphicsBufferD.update, if_pos hz]
    rw [hu]
    refine ⟨rfl, Arr3.get?_set_self _ _ _ hi, fun j hj => Arr3.get?_set_ne _ _ _ _ hj, ?_,
      fun j hj => ?_, rfl⟩
    · show (b.m_validMask ||| 1 <<< i).testBit i = true
      rw [testBit_lor_slot]; simp
    · show (b.m_validMask ||| 1 <<< i).testBit j = b.m_validMask.testBit j
      have hne : ¬ (i = j) := fun e => hj e.symm
      rw [testBit_lor_slot]; simp [hne]
  · have hz : ¬ (1 <<< i &&& t.m_validMask = 0) := by
      rw [slot_and_eq_zero_iff]; simp [h]
    simp only [GLTextureD.update, if_neg hz]
  · have hz : 1 <<< i &&& t.m_validMask = 0 := (slot_and_eq_zero_iff _ _).2 h
    have hu : t.update i =
        { t with
          m_texs := t.m_texs.set i t.m_cpuBuf
          glUploads := t.glUploads ++ [(i, t.m_cpuBuf)]
          m_validMask := t.m_validMask ||| 1 <<< i } := by
      simp only [GLTextureD.update, if_pos hz]
    rw [hu]
    refine ⟨rfl, Arr3.get?_set_self _ _ _ hi, fun j hj => Arr3.get?_set_ne _ _ _ _ hj, ?_,
      fun j hj => ?_, rfl⟩
    · show (t.m_validMask ||| 1 <<< i).testBit i = true
      rw [testBit_lor_slot]; simp
    · show (t.m_validMask ||| 1 <<< i).testBit j = t.m_validMask.testBit j
      have hne : ¬ (i = j) := fun e => hj e.symm
      rw [testBit_lor_slot]; simp [hne]

/-- Witness for C2: slot 1 of a fresh two-byte buffer and of a two-byte texture is not valid,
so `update(1)` uploads the staging bytes to slot 1 and sets bit 1. -/
theorem C2_update_slot_witness :
    1 < 3 ∧
    ((GLGraphicsBufferD.ctor 1 2 (fun _ => 5) (fun _ _ => 0)).update 1).glUploads =
      [] ++ [(1, [5, 5])] ∧
    ((GLGraphicsBufferD.ctor 1 2 (fun _ => 5) (fun _ _ => 0)).update 1).m_bufs.get? 1 =
      some [5, 5] ∧
    (({ m_texs := ⟨[0, 0], [0, 0], [0, 0]⟩, m_cpuBuf := [1, 2], m_intFormat := GL_R8,
        m_format := GL_RED, m_width := 2, m_height := 1 } : GLTextureD).update 1).m_texs.get? 1 =
      some [1, 2] :=
  ⟨by decide,
    ((C2_update_slot (GLGraphicsBufferD.ctor 1 2 (fun _ => 5) (fun _ _ => 0))
      { m_texs := ⟨[0, 0], [0, 0], [0, 0]⟩, m_cpuBuf := [1, 2], m_intFormat := GL_R8,
        m_format := GL_RED, m_width := 2, m_height := 1 } 1 (by decide)).2.1 (by decide)).1,
    ((C2_update_slot (GLGraphicsBufferD.ctor 1 2 (fun _ => 5) (fun _ _ => 0))
      { m_texs := ⟨[0, 0], [0, 0], [0, 0]⟩, m_cpuBuf := [1, 2], m_intFormat := GL_R8,
        m_format := GL_RED, m_width := 2, m_height := 1 } 1 (by decide)).2.1 (by decide)).2.1,
    ((C2_update_slot (GLGraphicsBufferD.ctor 1 2 (fun _ => 5) (fun _ _ => 0))
      { m_texs := ⟨[0, 0], [0, 0], [0, 0]⟩, m_cpuBuf := [1, 2], m_intFormat := GL_R8,
        m_format := GL_RED, m_width := 2, m_height := 1 } 1 (by decide)).2.2.2
          (by decide)).2.1⟩

/-- C3 (as the code behaves): `GLGraphicsBufferD::map(sz)` returns `nullptr` exactly when
`sz < m_cpuSz` and the staging pointer otherwise; on a 16-byte buffer `map(8)` yields
`nullptr` and `map(32)` yields the pointer, the reverse of what the texture method does. -/
theorem C3_buffer_map_comparison :
    (∀ (b : GLGraphicsBufferD) (sz : Nat),
      (sz < b.m_cpuSz → (b.map sz).1 = none) ∧
      (b.m_cpuSz ≤ sz → (b.map sz).1 = some b.m_cpuBuf)) ∧
    ((GLGraphicsBufferD.ctor 1 16 (fun _ => 0) (fun _ _ => 0)).m_cpuSz = 16 ∧
      ((GLGraphicsBufferD.ctor 1 16 (fun _ => 0) (fun _ _ => 0)).map 8).1 = none ∧
      ((GLGraphicsBufferD.ctor 1 16 (fun _ => 0) (fun _ _ => 0)).map 32).1 =
        some (List.replicate 16 0)) := by
  refine ⟨fun b sz => ⟨fun h => ?_, fun h => ?_⟩, by decide, by decide, by decide⟩
  · simp [GLGraphicsBufferD.map, h]
  · simp [GLGraphicsBufferD.map, Nat.not_lt.2 h]

/-- C4: for every dynamic texture with staging size `S = m_cpuSz` and every size hint `sz`,
`GLTextureD::map(sz)` returns the staging view if `sz ≤ S` and `nullptr` if `sz > S`, and the
call leaves the texture (staging bytes and validity mask included) as it was; a texture
constructed with format RGBA8 or I8 has `S = width * height * pxPitch` (pitch 4 resp. 1)
whenever that product fits `size_t`. -/
theorem C4_texture_map :
    (∀ (t : GLTextureD) (sz : Nat),
      (sz ≤ t.m_cpuSz → (t.map sz).1 = some t.m_cpuBuf) ∧
      (t.m_cpuSz < sz → (t.map sz).1 = none) ∧
      (t.map sz).2 = t ∧
      (t.map sz).2.m_cpuBuf = t.m_cpuBuf ∧ (t.map sz).2.m_validMask = t.m_validMask) ∧
    (∀ (width height : Nat) (cpuIndet : Nat → Nat) (gpuIndet : Nat → Nat → Nat),
      (width * height * 4 < SIZE_MAX1 →
        ∃ t, GLTextureD.ctor width height .RGBA8 cpuIndet gpuIndet = some t ∧
          t.m_cpuSz = width * height * 4 ∧ t.m_validMask = 0) ∧
      (width * height * 1 < SIZE_MAX1 →
        ∃ t, GLTextureD.ctor width height .I8 cpuIndet gpuIndet = some t ∧
          t.m_cpuSz = width * height * 1 ∧ t.m_validMask = 0)) := by
  refine ⟨fun t sz => ⟨fun h => ?_, fun h => ?_, ?_, ?_, ?_⟩,
    fun width height cpuIndet gpuIndet => ⟨fun h => ?_, fun h => ?_⟩⟩
  · simp [GLTextureD.map, Nat.not_lt.2 h]
  · simp [GLTextureD.map, h]
  · unfold GLTextureD.map; split <;> rfl
  · unfold GLTextureD.map; split <;> rfl
  · unfold GLTextureD.map; split <;> rfl
  · refine ⟨_, rfl, ?_, rfl⟩
    show (newBytes (width * height * 4 % SIZE_MAX1) cpuIndet).length = width * height * 4
    rw [Nat.mod_eq_of_lt h]
    simp [newBytes]
  · refine ⟨_, rfl, ?_, rfl⟩
    show (newBytes (width * height * 1 % SIZE_MAX1) cpuIndet).length = width * height * 1
    rw [Nat.mod_eq_of_lt h]
    simp [newBytes]

/-- Witness for C4: an 8 by 2 RGBA8 texture has 64 staging bytes; `map(64)` hands out the
view and `map(65)` does not. -/
theorem C4_texture_map_witness :
    8 * 2 * 4 < SIZE_MAX1 ∧
    ∃ t, GLTextureD.ctor 8 2 .RGBA8 (fun _ => 0) (fun _ _ => 0) = some t ∧
      t.m_cpuSz = 8 * 2 * 4 ∧ (t.map 64).1 = some t.m_cpuBuf ∧ (t.map 65).1 = none := by
  have hlt : 8 * 2 * 4 < SIZE_MAX1 := by decide
  obtain ⟨t, ht, hs, _⟩ := (C4_texture_map.2 8 2 (fun _ => 0) (fun _ _ => 0)).1 hlt
  exact ⟨hlt, t, ht, hs, (C4_texture_map.1 t 64).1 (by omega), (C4_texture_map.1 t 65).2.1 (by omega)⟩

/-- C5: round trip.  For every dynamic buffer `b` and texture `t` of logical size `S` and
every `data` of length `sz`: `load(data, sz)` keeps the size `S` (nothing is written past it),
leaves the staging bytes at positions `≥ min sz S` as they were, and `map(S)` afterwards
succeeds and shows the staging copy; if moreover `sz ≤ S`, every successful `map` after the
load hands out a view of `S` bytes whose first `sz` bytes are exactly `data` and whose bytes
from position `min sz S` on are the ones held before the load. -/
theorem C5_load_map_round_trip (b : GLGraphicsBufferD) (t : GLTextureD) (data : List Nat)
    (sz : Nat) (hlen : data.length = sz) :
    ((b.load data sz).m_cpuSz = b.m_cpuSz ∧
      (∀ i, min sz b.m_cpuSz ≤ i → (b.load data sz).m_cpuBuf[i]? = b.m_cpuBuf[i]?) ∧
      ((b.load data sz).map b.m_cpuSz).1 = some (b.load data sz).m_cpuBuf ∧
      (sz ≤ b.m_cpuSz →
        ∀ hint view, ((b.load data sz).map hint).1 = some view →
          view.take sz = data ∧ view.length = b.m_cpuSz ∧
          ∀ i, min sz b.m_cpuSz ≤ i → view[i]? = b.m_cpuBuf[i]?)) ∧
    ((t.load data sz).m_cpuSz = t.m_cpuSz ∧
      (∀ i, min sz t.m_cpuSz ≤ i → (t.load data sz).m_cpuBuf[i]? = t.m_cpuBuf[i]?) ∧
      ((t.load data sz).map t.m_cpuSz).1 = some (t.load data sz).m_cpuBuf ∧
      (sz ≤ t.m_cpuSz →
        ∀ hint view, ((t.load data sz).map hint).1 = some view →
          view.take sz = data ∧ view.length = t.m_cpuSz ∧
          ∀ i, min sz t.m_cpuSz ≤ i → view[i]? = t.m_cpuBuf[i]?)) := by
  constructor
  · have hbuf : (b.load data sz).m_cpuBuf = memcpy b.m_cpuBuf data (min sz b.m_cpuSz) := rfl
    have hsrc : min sz b.m_cpuSz ≤ data.length := by rw [hlen]; exact Nat.min_le_left _ _
    have hdst : min sz b.m_cpuSz ≤ b.m_cpuBuf.length := Nat.min_le_right _ _
    have hS : (b.load data sz).m_cpuSz = b.m_cpuSz := by
      unfold GLGraphicsBufferD.m_cpuSz
      rw [hbuf]
      exact memcpy_length _ _ _ hsrc hdst
    have hrest : ∀ i, min sz b.m_cpuSz ≤ i →
        (b.load data sz).m_cpuBuf[i]? = b.m_cpuBuf[i]? := by
      intro i hi
      rw [hbuf]
      exact memcpy_getElem?_ge _ _ _ _ hsrc hi
    refine ⟨hS, hrest, ?_, ?_⟩
    · simp [GLGraphicsBufferD.map, hS]
    · intro hsz hint view hv
      have hview : view = (b.load data sz).m_cpuBuf := by
        unfold GLGraphicsBufferD.map at hv
        split at hv
        · simp at hv
        · simpa using hv.symm
      subst hview
      refine ⟨?_, hS, hrest⟩
      rw [hbuf, Nat.min_eq_left hsz, memcpy_take _ _ _ (by omega), ← hlen, List.take_length]
  · have hbuf : (t.load data sz).m_cpuBuf = memcpy t.m_cpuBuf data (min sz t.m_cpuSz) := rfl
    have hsrc : min sz t.m_cpuSz ≤ data.length := by rw [hlen]; exact Nat.min_le_left _ _
    have hdst : min sz t.m_cpuSz ≤ t.m_cpuBuf.length := Nat.min_le_right _ _
    have hS : (t.load data sz).m_cpuSz = t.m_cpuSz := by
      unfold GLTextureD.m_cpuSz
      rw [hbuf]
      exact memcpy_length _ _ _ hsrc hdst
    have hrest : ∀ i, min sz t.m_cpuSz ≤ i →
        (t.load data sz).m_cpuBuf[i]? = t.m_cpuBuf[i]? := by
      intro i hi
      rw [hbuf]
      exact memcpy_getElem?_ge _ _ _ _ hsrc hi
    refine ⟨hS, hrest, ?_, ?_⟩
    · simp [GLTextureD.map, hS]
    · intro hsz hint view hv
      have hview : view = (t.load data sz).m_cpuBuf := by
        unfold GLTextureD.map at hv
        split at hv
        · simp at hv
        · simpa using hv.symm
      subst hview
      refine ⟨?_, hS, hrest⟩
      rw [hbuf, Nat.min_eq_left hsz, memcpy_take _ _ _ (by omega), ← hlen, List.take_length]

/-- Witness for C5: loading the two bytes `[1, 2]` into a four-byte buffer and a four-byte
texture; `map(4)` then shows `[1, 2]` followed by the two old trailing bytes. -/
theorem C5_load_map_round_trip_witness :
    [1, 2].length = 2 ∧
    2 ≤ (GLGraphicsBufferD.ctor 1 4 (fun _ => 9) (fun _ _ => 0)).m_cpuSz ∧
    (((GLGraphicsBufferD.ctor 1 4 (fun _ => 9) (fun _ _ => 0)).load [1, 2] 2).map 4).1 =
      some [1, 2, 9, 9] ∧
    ([1, 2, 9, 9].take 2 = [1, 2] ∧
      [1, 2, 9, 9].length = (GLGraphicsBufferD.ctor 1 4 (fun _ => 9) (fun _ _ => 0)).m_cpuSz ∧
      ∀ i, min 2 (GLGraphicsBufferD.ctor 1 4 (fun _ => 9) (fun _ _ => 0)).m_cpuSz ≤ i →
        [1, 2, 9, 9][i]? =
          (GLGraphicsBufferD.ctor 1 4 (fun _ => 9) (fun _ _ => 0)).m_cpuBuf[i]?) :=
  ⟨by decide, by decide, by decide,
    ((C5_load_map_round_trip (GLGraphicsBufferD.ctor 1 4 (fun _ => 9) (fun _ _ => 0))
      { m_texs := ⟨[0, 0, 0, 0], [0, 0, 0, 0], [0, 0, 0, 0]⟩, m_cpuBuf := [9, 9, 9, 9],
        m_intFormat := GL_R8, m_format := GL_RED, m_width := 2, m_height := 2 }
      [1, 2] 2 (by decide)).1.2.2.2 (by decide) 4 [1, 2, 9, 9] (by decide))⟩

/-- C6: for every dynamic buffer `b`, every dynamic texture `t` and every `bytes` whose length
is the logical size: `map(size)` hands out the view, and writing `bytes` through it followed
by `unmap()` reaches exactly the state reached by `load(bytes, size)` (staging copy `bytes`,
validity mask `0`); hence any later sequence of `update(i)` calls leaves identical upload logs
in both runs. -/
theorem C6_map_write_unmap_eq_load (b : GLGraphicsBufferD) (t : GLTextureD) (bytes : List Nat) :
    (bytes.length = b.m_cpuSz →
      (b.map b.m_cpuSz).1 = some b.m_cpuBuf ∧
      ((b.map b.m_cpuSz).2.writeMapped bytes).unmap = b.load bytes b.m_cpuSz ∧
      (b.load bytes b.m_cpuSz).m_cpuBuf = bytes ∧
      (b.load bytes b.m_cpuSz).m_validMask = 0 ∧
      ∀ slots : List Nat,
        (slots.foldl GLGraphicsBufferD.update
            ((b.map b.m_cpuSz).2.writeMapped bytes).unmap).glUploads =
          (slots.foldl GLGraphicsBufferD.update (b.load bytes b.m_cpuSz)).glUploads) ∧
    (bytes.length = t.m_cpuSz →
      (t.map t.m_cpuSz).1 = some t.m_cpuBuf ∧
      ((t.map t.m_cpuSz).2.writeMapped bytes).unmap = t.load bytes t.m_cpuSz ∧
      (t.load bytes t.m_cpuSz).m_cpuBuf = bytes ∧
      (t.load bytes t.m_cpuSz).m_validMask = 0 ∧
      ∀ slots : List Nat,
        (slots.foldl GLTextureD.update
            ((t.map t.m_cpuSz).2.writeMapped bytes).unmap).glUploads =
          (slots.foldl GLTextureD.update (t.load bytes t.m_cpuSz)).glUploads) := by
  constructor
  · intro hlen
    have hlen2 : bytes.length = b.m_cpuBuf.length := hlen
    have hmap : b.map b.m_cpuSz = (some b.m_cpuBuf, b) := by
      simp [GLGraphicsBufferD.map]
    have hload : (b.load bytes b.m_cpuSz).m_cpuBuf = bytes := by
      show memcpy b.m_cpuBuf bytes (min b.m_cpuSz b.m_cpuSz) = bytes
      rw [Nat.min_self, ← hlen]
      exact memcpy_all _ _ hlen2
    have heq : ((b.map b.m_cpuSz).2.writeMapped bytes).unmap = b.load bytes b.m_cpuSz := by
      rw [hmap]
      simp only [GLGraphicsBufferD.writeMapped, GLGraphicsBufferD.unmap,
        GLGraphicsBufferD.load, Nat.min_self, hlen]
    exact ⟨by rw [hmap], heq, hload, rfl, fun slots => by rw [heq]⟩
  · intro hlen
    have hlen2 : bytes.length = t.m_cpuBuf.length := hlen
    have hmap : t.map t.m_cpuSz = (some t.m_cpuBuf, t) := by
      simp [GLTextureD.map]
    have hload : (t.load bytes t.m_cpuSz).m_cpuBuf = bytes := by
      show memcpy t.m_cpuBuf bytes (min t.m_cpuSz t.m_cpuSz) = bytes
      rw [Nat.min_self, ← hlen]
      exact memcpy_all _ _ hlen2
    have heq : ((t.map t.m_cpuSz).2.writeMapped bytes).unmap = t.load bytes t.m_cpuSz := by
      rw [hmap]
      simp only [GLTextureD.writeMapped, GLTextureD.unmap, GLTextureD.load, Nat.min_self, hlen]
    exact ⟨by rw [hmap], heq, hload, rfl, fun slots => by rw [heq]⟩

/-- Witness for C6: a four-byte buffer overwritten with `[1, 2, 3, 4]` either way. -/
theorem C6_map_write_unmap_eq_load_witness :
    [1, 2, 3, 4].length = (GLGraphicsBufferD.ctor 1 4 (fun _ => 9) (fun _ _ => 0)).m_cpuSz ∧
    ((((GLGraphicsBufferD.ctor 1 4 (fun _ => 9) (fun _ _ => 0)).map
        (GLGraphicsBufferD.ctor 1 4 (fun _ => 9) (fun _ _ => 0)).m_cpuSz).2.writeMapped
          [1, 2, 3, 4]).unmap =
      (GLGraphicsBufferD.ctor 1 4 (fun _ => 9) (fun _ _ => 0)).load [1, 2, 3, 4]
        (GLGraphicsBufferD.ctor 1 4 (fun _ => 9) (fun _ _ => 0)).m_cpuSz) :=
  ⟨by decide,
    ((C6_map_write_unmap_eq_load (GLGraphicsBufferD.ctor 1 4 (fun _ => 9) (fun _ _ => 0))
      { m_texs := ⟨[0, 0, 0, 0], [0, 0, 0, 0], [0, 0, 0, 0]⟩, m_cpuBuf := [9, 9, 9, 9],
        m_intFormat := GL_R8, m_format := GL_RED, m_width := 2, m_height := 2 }
      [1, 2, 3, 4]).1 (by decide)).2.1⟩

/-! ## Auxiliary facts about the rotation and the registry walk -/

theorem rotateFill_spec (c d f : Nat) :
    GLCommandQueue.rotateFill c d f (List.range 3) < 3 ∧
    GLCommandQueue.rotateFill c d f (List.range 3) ≠ c ∧
    GLCommandQueue.rotateFill c d f (List.range 3) ≠ d ∧
    ∀ j, j < GLCommandQueue.rotateFill c d f (List.range 3) → j = c ∨ j = d := by
  have hr : List.range 3 = [0, 1, 2] := by decide
  rw [hr]
  simp only [GLCommandQueue.rotateFill]
  split_ifs <;> exact ⟨by omega, by omega, by omega, fun j hj => by omega⟩

theorem dbuf_updateAll (gfxF : GLDataFactory) (c di bi : Nat) :
    (gfxF.updateAll c).dbuf di bi = (gfxF.dbuf di bi).map (fun b => b.update c) := by
  unfold GLDataFactory.updateAll GLDataFactory.dbuf
  simp only [List.getElem?_map]
  cases gfxF.m_committedData[di]? with
  | none => rfl
  | some d => simp [List.getElem?_map]

theorem dtex_updateAll (gfxF : GLDataFactory) (c di ti : Nat) :
    (gfxF.updateAll c).dtex di ti = (gfxF.dtex di ti).map (fun t => t.update c) := by
  unfold GLDataFactory.updateAll GLDataFactory.dtex
  simp only [List.getElem?_map]
  cases gfxF.m_committedData[di]? with
  | none => rfl
  | some d => simp [List.getElem?_map]

theorem dbuf_onDBuf (gfxF : GLDataFactory) (di bi : Nat)
    (f : GLGraphicsBufferD → GLGraphicsBufferD) :
    (gfxF.onDBuf di bi f).dbuf di bi = (gfxF.dbuf di bi).map f := by
  unfold GLDataFactory.onDBuf GLDataFactory.dbuf
  simp only [List.getElem?_modify]
  cases gfxF.m_committedData[di]? with
  | none => rfl
  | some d => simp [List.getElem?_modify]

theorem dtex_onDTex (gfxF : GLDataFactory) (di ti : Nat) (f : GLTextureD → GLTextureD) :
    (gfxF.onDTex di ti f).dtex di ti = (gfxF.dtex di ti).map f := by
  unfold GLDataFactory.onDTex GLDataFactory.dtex
  simp only [List.getElem?_modify]
  cases gfxF.m_committedData[di]? with
  | none => rfl
  | some d => simp [List.getElem?_modify]

theorem GLGraphicsBufferD.update_of_clear (b : GLGraphicsBufferD) (i : Nat)
    (h : b.m_validMask.testBit i = false) :
    b.update i =
      { b with
        m_bufs := b.m_bufs.set i b.m_cpuBuf
        glUploads := b.glUploads ++ [(i, b.m_cpuBuf)]
        m_validMask := b.m_validMask ||| 1 <<< i } := by
  have hz : 1 <<< i &&& b.m_validMask = 0 := (slot_and_eq_zero_iff _ _).2 h
  simp only [GLGraphicsBufferD.update, if_pos hz]

theorem GLGraphicsBufferD.update_of_set (b : GLGraphicsBufferD) (i : Nat)
    (h : b.m_validMask.testBit i = true) : b.update i = b := by
  have hz : ¬ (1 <<< i &&& b.m_validMask = 0) := by
    rw [slot_and_eq_zero_iff]; simp [h]
  simp only [GLGraphicsBufferD.update, if_neg hz]

theorem GLTextureD.texUpdate_of_clear (t : GLTextureD) (i : Nat)
    (h : t.m_validMask.testBit i = false) :
    t.update i =
      { t with
        m_texs := t.m_texs.set i t.m_cpuBuf
        glUploads := t.glUploads ++ [(i, t.m_cpuBuf)]
        m_validMask := t.m_validMask ||| 1 <<< i } := by
  have hz : 1 <<< i &&& t.m_validMask = 0 := (slot_and_eq_zero_iff _ _).2 h
  simp only [GLTextureD.update, if_pos hz]

theorem GLTextureD.texUpdate_of_set (t : GLTextureD) (i : Nat)
    (h : t.m_validMask.testBit i = true) : t.update i = t := by
  have hz : ¬ (1 <<< i &&& t.m_validMask = 0) := by
    rw [slot_and_eq_zero_iff]; simp [h]
  simp only [GLTextureD.update, if_neg hz]

theorem mask_of_three_slots (c1 c2 c3 : Nat) (h1 : c1 < 3) (h2 : c2 < 3) (h3 : c3 < 3)
    (h12 : c1 ≠ c2) (h13 : c1 ≠ c3) (h23 : c2 ≠ c3) :
    ((0 ||| 1 <<< c1) ||| 1 <<< c2) ||| 1 <<< c3 = 7 := by
  interval_cases c1 <;> interval_cases c2 <;> interval_cases c3 <;>
    first
    | omega
    | decide

theorem perm_of_three_slots (c1 c2 c3 : Nat) (h1 : c1 < 3) (h2 : c2 < 3) (h3 : c3 < 3)
    (h12 : c1 ≠ c2) (h13 : c1 ≠ c3) (h23 : c2 ≠ c3) :
    List.Perm [c1, c2, c3] [0, 1, 2] := by
  interval_cases c1 <;> interval_cases c2 <;> interval_cases c3 <;>
    first
    | omega
    | decide

/-- Three updates of pairwise distinct slots on a resource whose mask is clear upload the
staging bytes once per slot and saturate the mask; a further update is then a no-op. -/
theorem GLGraphicsBufferD.update3 (b : GLGraphicsBufferD) (hm : b.m_validMask = 0)
    (c1 c2 c3 c4 : Nat)
    (h1 : c1 < 3) (h2 : c2 < 3) (h3 : c3 < 3) (h4 : c4 < 3)
    (h12 : c1 ≠ c2) (h13 : c1 ≠ c3) (h23 : c2 ≠ c3) :
    (((b.update c1).update c2).update c3).glUploads =
      b.glUploads ++ [(c1, b.m_cpuBuf), (c2, b.m_cpuBuf), (c3, b.m_cpuBuf)] ∧
    (((b.update c1).update c2).update c3).m_validMask = 7 ∧
    (((b.update c1).update c2).update c3).m_cpuBuf = b.m_cpuBuf ∧
    ((((b.update c1).update c2).update c3).update c4) =
      (((b.update c1).update c2).update c3) := by
  have e1 := GLGraphicsBufferD.update_of_clear b c1 (by simp [hm])
  rw [e1]
  have e2 := GLGraphicsBufferD.update_of_clear
    { b with
      m_bufs := b.m_bufs.set c1 b.m_cpuBuf
      glUploads := b.glUploads ++ [(c1, b.m_cpuBuf)]
      m_validMask := b.m_validMask ||| 1 <<< c1 } c2
    (by show (b.m_validMask ||| 1 <<< c1).testBit c2 = false
        rw [testBit_lor_slot, hm]; simp [h12])
  rw [e2]
  have e3 := GLGraphicsBufferD.update_of_clear
    { b with
      m_bufs := (b.m_bufs.set c1 b.m_cpuBuf).set c2 b.m_cpuBuf
      glUploads := (b.glUploads ++ [(c1, b.m_cpuBuf)]) ++ [(c2, b.m_cpuBuf)]
      m_validMask := (b.m_validMask ||| 1 <<< c1) ||| 1 <<< c2 } c3
    (by show ((b.m_validMask ||| 1 <<< c1) ||| 1 <<< c2).testBit c3 = false
        rw [testBit_lor_slot, testBit_lor_slot, hm]; simp [h13, h23])
  rw [e3]
  have hmask : ((b.m_validMask ||| 1 <<< c1) ||| 1 <<< c2) ||| 1 <<< c3 = 7 := by
    rw [hm]; exact mask_of_three_slots c1 c2 c3 h1 h2 h3 h12 h13 h23
  refine ⟨by simp, hmask, rfl, ?_⟩
  apply GLGraphicsBufferD.update_of_set
  show (((b.m_validMask ||| 1 <<< c1) ||| 1 <<< c2) ||| 1 <<< c3).testBit c4 = true
  rw [hmask]
  interval_cases c4 <;> decide

/-- The texture counterpart of `GLGraphicsBufferD.update3`. -/
theorem GLTextureD.texUpdate3 (t : GLTextureD) (hm : t.m_validMask = 0)
    (c1 c2 c3 c4 : Nat)
    (h1 : c1 < 3) (h2 : c2 < 3) (h3 : c3 < 3) (h4 : c4 < 3)
    (h12 : c1 ≠ c2) (h13 : c1 ≠ c3) (h23 : c2 ≠ c3) :
    (((t.update c1).update c2).update c3).glUploads =
      t.glUploads ++ [(c1, t.m_cpuBuf), (c2, t.m_cpuBuf), (c3, t.m_cpuBuf)] ∧
    (((t.update c1).update c2).update c3).m_validMask = 7 ∧
    (((t.update c1).update c2).update c3).m_cpuBuf = t.m_cpuBuf ∧
    ((((t.update c1).update c2).update c3).update c4) =
      (((t.update c1).update c2).update c3) := by
  have e1 := GLTextureD.texUpdate_of_clear t c1 (by simp [hm])
  rw [e1]
  have e2 := GLTextureD.texUpdate_of_clear
    { t with
      m_texs := t.m_texs.set c1 t.m_cpuBuf
      glUploads := t.glUploads ++ [(c1, t.m_cpuBuf)]
      m_validMask := t.m_validMask ||| 1 <<< c1 } c2
    (by show (t.m_validMask ||| 1 <<< c1).testBit c2 = false
        rw [testBit_lor_slot, hm]; simp [h12])
  rw [e2]
  have e3 := GLTextureD.texUpdate_of_clear
    { t with
      m_texs := (t.m_texs.set c1 t.m_cpuBuf).set c2 t.m_cpuBuf
      glUploads := (t.glUploads ++ [(c1, t.m_cpuBuf)]) ++ [(c2, t.m_cpuBuf)]
      m_validMask := (t.m_validMask ||| 1 <<< c1) ||| 1 <<< c2 } c3
    (by show ((t.m_validMask ||| 1 <<< c1) ||| 1 <<< c2).testBit c3 = false
        rw [testBit_lor_slot, testBit_lor_slot, hm]; simp [h13, h23])
  rw [e3]
  have hmask : ((t.m_validMask ||| 1 <<< c1) ||| 1 <<< c2) ||| 1 <<< c3 = 7 := by
    rw [hm]; exact mask_of_three_slots c1 c2 c3 h1 h2 h3 h12 h13 h23
  refine ⟨by simp, hmask, rfl, ?_⟩
  apply GLTextureD.texUpdate_of_set
  show (((t.m_validMask ||| 1 <<< c1) ||| 1 <<< c2) ||| 1 <<< c3).testBit c4 = true
  rw [hmask]
  interval_cases c4 <;> decide

/-- Every recording method appends one entry to `m_cmdBufs[m_fillBuf]` and does nothing
else. -/
theorem perform_eq_record (q : GLCommandQueue) (r : Recording) :
    ∃ c, q.perform r = q.record c := by
  cases r <;> exact ⟨_, rfl⟩

/-- One cycle of a running queue: the registry is walked with the old fill index, which becomes
both the complete and the draw index. -/
theorem cycle_spec (ctx : GraphicsContext) (hrun : ctx.commandQueue.m_running = true) :
    (GLCommandQueue.cycle ctx).dataFactory =
      ctx.dataFactory.updateAll ctx.commandQueue.m_fillBuf ∧
    (GLCommandQueue.cycle ctx).commandQueue.m_fillBuf =
      GLCommandQueue.rotateFill ctx.commandQueue.m_fillBuf ctx.commandQueue.m_drawBuf
        ctx.commandQueue.m_fillBuf (List.range 3) ∧
    (GLCommandQueue.cycle ctx).commandQueue.m_drawBuf = ctx.commandQueue.m_fillBuf ∧
    (GLCommandQueue.cycle ctx).commandQueue.m_completeBuf = ctx.commandQueue.m_fillBuf ∧
    (GLCommandQueue.cycle ctx).commandQueue.m_running = true := by
  simp [GLCommandQueue.cycle, GLCommandQueue.wake, GLCommandQueue.RenderingWorker,
    GLCommandQueue.execute, hrun]

theorem run_append (ctx : GraphicsContext) (xs ys : List Action) :
    run ctx (xs ++ ys) = run (run ctx xs) ys := by
  simp [run, List.foldl_append]

theorem run_cons (ctx : GraphicsContext) (a : Action) (xs : List Action) :
    run ctx (a :: xs) = run (step ctx a) xs := rfl

theorem run_nil (ctx : GraphicsContext) : run ctx [] = ctx := rfl

/-- What a single step keeps: the run flag, and `m_fillBuf < 3`. -/
theorem step_keeps (ctx : GraphicsContext) (a : Action)
    (hrun : ctx.commandQueue.m_running = true) (hf : ctx.commandQueue.m_fillBuf < 3) :
    (step ctx a).commandQueue.m_running = true ∧ (step ctx a).commandQueue.m_fillBuf < 3 := by
  cases a with
  | execute => exact ⟨hrun, (rotateFill_spec _ _ _).1⟩
  | record r =>
    obtain ⟨c, hc⟩ := perform_eq_record ctx.commandQueue r
    simp only [step, hc]
    exact ⟨hrun, hf⟩
  | wake =>
    simp [step, GLCommandQueue.wake, GLCommandQueue.RenderingWorker, hrun]
    exact hf

theorem run_keeps (acts : List Action) (ctx : GraphicsContext)
    (hrun : ctx.commandQueue.m_running = true) (hf : ctx.commandQueue.m_fillBuf < 3) :
    (run ctx acts).commandQueue.m_running = true ∧ (run ctx acts).commandQueue.m_fillBuf < 3 := by
  induction acts generalizing ctx with
  | nil => exact ⟨hrun, hf⟩
  | cons a as ih =>
    rw [run_cons]
    exact ih _ (step_keeps ctx a hrun hf).1 (step_keeps ctx a hrun hf).2

/-- A step other than `execute()` keeps the registry, the fill index and the complete index;
the draw index stays or becomes the complete index. -/
theorem quiet_step (ctx : GraphicsContext) (a : Action) (ha : a.isExecute = false) :
    (step ctx a).dataFactory = ctx.dataFactory ∧
    (step ctx a).commandQueue.m_fillBuf = ctx.commandQueue.m_fillBuf ∧
    (step ctx a).commandQueue.m_completeBuf = ctx.commandQueue.m_completeBuf ∧
    ((step ctx a).commandQueue.m_drawBuf = ctx.commandQueue.m_drawBuf ∨
      (step ctx a).commandQueue.m_drawBuf = ctx.commandQueue.m_completeBuf) := by
  cases a with
  | execute => simp [Action.isExecute] at ha
  | record r =>
    obtain ⟨c, hc⟩ := perform_eq_record ctx.commandQueue r
    have hs : step ctx (Action.record r) =
        { ctx with commandQueue := ctx.commandQueue.record c } := by
      simp only [step, hc]
    rw [hs]
    exact ⟨rfl, rfl, rfl, Or.inl rfl⟩
  | wake =>
    by_cases hrun : ctx.commandQueue.m_running = true
    · simp [step, GLCommandQueue.wake, GLCommandQueue.RenderingWorker, hrun]
    · simp [step, GLCommandQueue.wake, GLCommandQueue.RenderingWorker, hrun]

/-- Steps other than `execute()` keep the registry, the fill index and the complete index; the
draw index stays or becomes the complete index. -/
theorem quiet_run (mid : List Action) (ctx : GraphicsContext)
    (hmid : ∀ a ∈ mid, a.isExecute = false) :
    (run ctx mid).dataFactory = ctx.dataFactory ∧
    (run ctx mid).commandQueue.m_fillBuf = ctx.commandQueue.m_fillBuf ∧
    (run ctx mid).commandQueue.m_completeBuf = ctx.commandQueue.m_completeBuf ∧
    ((run ctx mid).commandQueue.m_drawBuf = ctx.commandQueue.m_drawBuf ∨
      (run ctx mid).commandQueue.m_drawBuf = ctx.commandQueue.m_completeBuf) := by
  induction mid generalizing ctx with
  | nil => exact ⟨rfl, rfl, rfl, Or.inl rfl⟩
  | cons a as ih =>
    have has : ∀ x ∈ as, x.isExecute = false := fun x hx => hmid x (List.mem_cons_of_mem _ hx)
    have ha : a.isExecute = false := hmid a (List.mem_cons_self _ _)
    rw [run_cons]
    obtain ⟨h1, h2, h3, h4⟩ := ih (step ctx a) has
    obtain ⟨g1, g2, g3, g4⟩ := quiet_step ctx a ha
    refine ⟨h1.trans g1, h2.trans g2, h3.trans g3, ?_⟩
    rw [g3] at h4
    rcases h4 with h4 | h4
    · rw [h4]; exact g4
    · exact Or.inr h4

/-- After `execute()` the fill index differs from the draw and the complete index. -/
theorem execute_separates (ctx : GraphicsContext) :
    (GLCommandQueue.execute ctx).commandQueue.m_fillBuf ≠
      (GLCommandQueue.execute ctx).commandQueue.m_drawBuf ∧
    (GLCommandQueue.execute ctx).commandQueue.m_fillBuf ≠
      (GLCommandQueue.execute ctx).commandQueue.m_completeBuf := by
  obtain ⟨_, h2, h3, _⟩ :=
    rotateFill_spec ctx.commandQueue.m_fillBuf ctx.commandQueue.m_drawBuf
      ctx.commandQueue.m_fillBuf
  exact ⟨h3, h2⟩

/-- Every step keeps the fill index apart from the draw and the complete index. -/
theorem step_separated (ctx : GraphicsContext) (a : Action)
    (h : ctx.commandQueue.m_fillBuf ≠ ctx.commandQueue.m_drawBuf ∧
      ctx.commandQueue.m_fillBuf ≠ ctx.commandQueue.m_completeBuf) :
    (step ctx a).commandQueue.m_fillBuf ≠ (step ctx a).commandQueue.m_drawBuf ∧
    (step ctx a).commandQueue.m_fillBuf ≠ (step ctx a).commandQueue.m_completeBuf := by
  by_cases ha : a.isExecute = false
  · obtain ⟨_, g2, g3, g4⟩ := quiet_step ctx a ha
    rw [g2, g3]
    refine ⟨?_, h.2⟩
    rcases g4 with g4 | g4
    · rw [g4]; exact h.1
    · rw [g4]; exact h.2
  · cases a with
    | execute => exact execute_separates ctx
    | record r => simp [Action.isExecute] at ha
    | wake => simp [Action.isExecute] at ha

theorem run_separated (acts : List Action) (ctx : GraphicsContext)
    (h : ctx.commandQueue.m_fillBuf ≠ ctx.commandQueue.m_drawBuf ∧
      ctx.commandQueue.m_fillBuf ≠ ctx.commandQueue.m_completeBuf) :
    (run ctx acts).commandQueue.m_fillBuf ≠ (run ctx acts).commandQueue.m_drawBuf ∧
    (run ctx acts).commandQueue.m_fillBuf ≠ (run ctx acts).commandQueue.m_completeBuf := by
  induction acts generalizing ctx with
  | nil => exact h
  | cons a as ih =>
    rw [run_cons]
    exact ih _ (step_separated ctx a h)

/-! ## Command-queue rotation -/

/-- C9: for every queue state (in particular with fill, complete and draw in `{0,1,2}`),
`execute()` stores the old fill index as the new complete index, and the new fill index is the
smallest index of `{0,1,2}` that differs from the new complete index and from the draw index:
it is below 3, differs from both, and every smaller index equals one of them; the draw index
is not changed. -/
theorem C9_execute_rotation (ctx : GraphicsContext) :
    (GLCommandQueue.execute ctx).commandQueue.m_completeBuf = ctx.commandQueue.m_fillBuf ∧
    (GLCommandQueue.execute ctx).commandQueue.m_fillBuf < 3 ∧
    (GLCommandQueue.execute ctx).commandQueue.m_fillBuf ≠
      (GLCommandQueue.execute ctx).commandQueue.m_completeBuf ∧
    (GLCommandQueue.execute ctx).commandQueue.m_fillBuf ≠ ctx.commandQueue.m_drawBuf ∧
    (∀ j, j < (GLCommandQueue.execute ctx).commandQueue.m_fillBuf →
      j = (GLCommandQueue.execute ctx).commandQueue.m_completeBuf ∨
        j = ctx.commandQueue.m_drawBuf) ∧
    (GLCommandQueue.execute ctx).commandQueue.m_drawBuf = ctx.commandQueue.m_drawBuf := by
  obtain ⟨h1, h2, h3, h4⟩ :=
    rotateFill_spec ctx.commandQueue.m_fillBuf ctx.commandQueue.m_drawBuf
      ctx.commandQueue.m_fillBuf
  exact ⟨rfl, h1, h2, h3, h4, rfl⟩

/-- C10: in every state reached by a step sequence that contains an `execute()` (any steps
before it, any interleaving of `execute()`, recording calls and worker wake-ups after it) the
fill index differs from the draw index and from the complete index, and a recording call
leaves the command buffer at the draw index as it is; moreover two consecutive `execute()`
calls, with any recording calls and wake-ups between them, produce different complete
indices. -/
theorem C10_fill_apart_from_draw (ctx0 : GraphicsContext) (pre post : List Action) :
    ((run ctx0 (pre ++ Action.execute :: post)).commandQueue.m_fillBuf ≠
        (run ctx0 (pre ++ Action.execute :: post)).commandQueue.m_drawBuf ∧
      (run ctx0 (pre ++ Action.execute :: post)).commandQueue.m_fillBuf ≠
        (run ctx0 (pre ++ Action.execute :: post)).commandQueue.m_completeBuf ∧
      ∀ r : Recording,
        ((run ctx0 (pre ++ Action.execute :: post)).commandQueue.perform r).m_cmdBufs.get?
            (run ctx0 (pre ++ Action.execute :: post)).commandQueue.m_drawBuf =
          (run ctx0 (pre ++ Action.execute :: post)).commandQueue.m_cmdBufs.get?
            (run ctx0 (pre ++ Action.execute :: post)).commandQueue.m_drawBuf) ∧
    (∀ mid : List Action, (∀ a ∈ mid, a.isExecute = false) →
      (GLCommandQueue.execute (run (GLCommandQueue.execute ctx0) mid)).commandQueue.m_completeBuf
        ≠ (GLCommandQueue.execute ctx0).commandQueue.m_completeBuf) := by
  constructor
  · have hsep :
        (run ctx0 (pre ++ Action.execute :: post)).commandQueue.m_fillBuf ≠
          (run ctx0 (pre ++ Action.execute :: post)).commandQueue.m_drawBuf ∧
        (run ctx0 (pre ++ Action.execute :: post)).commandQueue.m_fillBuf ≠
          (run ctx0 (pre ++ Action.execute :: post)).commandQueue.m_completeBuf := by
      rw [run_append, run_cons]
      exact run_separated post _ (execute_separates _)
    refine ⟨hsep.1, hsep.2, fun r => ?_⟩
    obtain ⟨c, hc⟩ := perform_eq_record
      (run ctx0 (pre ++ Action.execute :: post)).commandQueue r
    rw [hc]
    exact Arr3.get?_modify_ne _ _ _ _ (fun e => hsep.1 e.symm)
  · intro mid hmid
    obtain ⟨_, g2, _, _⟩ := quiet_run mid (GLCommandQueue.execute ctx0) hmid
    show (run (GLCommandQueue.execute ctx0) mid).commandQueue.m_fillBuf ≠
      (GLCommandQueue.execute ctx0).commandQueue.m_completeBuf
    rw [g2]
    exact (execute_separates ctx0).2

/-- Witness for C10: from the freshly constructed queue, `execute()`, a recorded draw and one
wake-up, then `execute()` again: the second complete index differs from the first. -/
theorem C10_fill_apart_from_draw_witness :
    (∀ a ∈ [Action.record (Recording.draw 0 4), Action.wake], a.isExecute = false) ∧
    (GLCommandQueue.execute
        (run (GLCommandQueue.execute {})
          [Action.record (Recording.draw 0 4), Action.wake])).commandQueue.m_completeBuf ≠
      (GLCommandQueue.execute {}).commandQueue.m_completeBuf :=
  ⟨by simp [Action.isExecute],
    (C10_fill_apart_from_draw {} [] []).2 [Action.record (Recording.draw 0 4), Action.wake]
      (by simp [Action.isExecute])⟩

/-- The slots walked by four consecutive cycles of a running queue with `m_fillBuf < 3`: the
registry is walked with `c1`, `c2`, `c3`, `c4`, where the first three are pairwise distinct
indices below 3 and the fourth is below 3. -/
theorem four_cycles (ctx : GraphicsContext) (hrun : ctx.commandQueue.m_running = true)
    (hf : ctx.commandQueue.m_fillBuf < 3) :
    ∃ c1 c2 c3 c4, c1 < 3 ∧ c2 < 3 ∧ c3 < 3 ∧ c4 < 3 ∧ c1 ≠ c2 ∧ c1 ≠ c3 ∧ c2 ≠ c3 ∧
      (GLCommandQueue.cycle (GLCommandQueue.cycle (GLCommandQueue.cycle ctx))).dataFactory =
        ((ctx.dataFactory.updateAll c1).updateAll c2).updateAll c3 ∧
      (GLCommandQueue.cycle (GLCommandQueue.cycle (GLCommandQueue.cycle
          (GLCommandQueue.cycle ctx)))).dataFactory =
        (((ctx.dataFactory.updateAll c1).updateAll c2).updateAll c3).updateAll c4 := by
  obtain ⟨a1, a2, a3, _, a5⟩ := cycle_spec ctx hrun
  obtain ⟨b1, b2, b3, _, b5⟩ := cycle_spec (GLCommandQueue.cycle ctx) a5
  obtain ⟨d1, d2, d3, _, d5⟩ := cycle_spec (GLCommandQueue.cycle (GLCommandQueue.cycle ctx)) b5
  obtain ⟨e1, _, _, _, _⟩ :=
    cycle_spec (GLCommandQueue.cycle (GLCommandQueue.cycle (GLCommandQueue.cycle ctx))) d5
  obtain ⟨r1, r2, _, _⟩ :=
    rotateFill_spec ctx.commandQueue.m_fillBuf ctx.commandQueue.m_drawBuf
      ctx.commandQueue.m_fillBuf
  obtain ⟨s1, s2, s3, _⟩ :=
    rotateFill_spec (GLCommandQueue.cycle ctx).commandQueue.m_fillBuf
      (GLCommandQueue.cycle ctx).commandQueue.m_drawBuf
      (GLCommandQueue.cycle ctx).commandQueue.m_fillBuf
  obtain ⟨t1, _, _, _⟩ :=
    rotateFill_spec (GLCommandQueue.cycle (GLCommandQueue.cycle ctx)).commandQueue.m_fillBuf
      (GLCommandQueue.cycle (GLCommandQueue.cycle ctx)).commandQueue.m_drawBuf
      (GLCommandQueue.cycle (GLCommandQueue.cycle ctx)).commandQueue.m_fillBuf
  rw [← a2] at r1 r2
  rw [← b2] at s1 s2 s3
  rw [a3] at s3
  rw [← d2] at t1
  refine ⟨ctx.commandQueue.m_fillBuf, (GLCommandQueue.cycle ctx).commandQueue.m_fillBuf,
    (GLCommandQueue.cycle (GLCommandQueue.cycle ctx)).commandQueue.m_fillBuf,
    (GLCommandQueue.cycle (GLCommandQueue.cycle (GLCommandQueue.cycle ctx))).commandQueue.m_fillBuf,
    hf, r1, s1, t1, fun e => r2 e.symm, fun e => s3 e.symm, fun e => s2 e.symm, ?_, ?_⟩
  · rw [d1, b1, a1]
  · rw [e1, d1, b1, a1]

/-- C7: let the queue be in a state reached from the freshly constructed queue by any sequence
of `execute()`, recording calls and worker wake-ups, and let a dynamic buffer (resp. texture)
be committed at position `(di, bi)` (resp. `(di, ti)`).  After `load(data, sz)` on it and three
cycles (`execute()` followed by one worker wake-up) the resource has received exactly three
uploads, to the slots `c1, c2, c3` which are `0, 1, 2` in some order, each carrying the
loaded staging bytes; its validity mask is `0b111`; and a fourth cycle leaves the resource,
upload log included, unchanged. -/
theorem C7_three_cycles_upload_each_slot_once (ctx0 : GraphicsContext) (acts : List Action)
    (gfxF : GLDataFactory) (di : Nat) (data : List Nat) (sz : Nat)
    (h0 : ctx0.commandQueue = {}) :
    (∀ (bi : Nat) (b : GLGraphicsBufferD), gfxF.dbuf di bi = some b →
      ∃ b3 c1 c2 c3,
        (GLCommandQueue.cycle (GLCommandQueue.cycle (GLCommandQueue.cycle
          { dataFactory := gfxF.onDBuf di bi (fun x => x.load data sz)
            commandQueue := (run ctx0 acts).commandQueue }))).dataFactory.dbuf di bi = some b3 ∧
        List.Perm [c1, c2, c3] [0, 1, 2] ∧
        b3.glUploads =
          b.glUploads ++ [(c1, (b.load data sz).m_cpuBuf), (c2, (b.load data sz).m_cpuBuf),
            (c3, (b.load data sz).m_cpuBuf)] ∧
        b3.m_validMask = 7 ∧
        (GLCommandQueue.cycle (GLCommandQueue.cycle (GLCommandQueue.cycle (GLCommandQueue.cycle
          { dataFactory := gfxF.onDBuf di bi (fun x => x.load data sz)
            commandQueue := (run ctx0 acts).commandQueue })))).dataFactory.dbuf di bi =
          some b3) ∧
    (∀ (ti : Nat) (t : GLTextureD), gfxF.dtex di ti = some t →
      ∃ t3 c1 c2 c3,
        (GLCommandQueue.cycle (GLCommandQueue.cycle (GLCommandQueue.cycle
          { dataFactory := gfxF.onDTex di ti (fun x => x.load data sz)
            commandQueue := (run ctx0 acts).commandQueue }))).dataFactory.dtex di ti = some t3 ∧
        List.Perm [c1, c2, c3] [0, 1, 2] ∧
        t3.glUploads =
          t.glUploads ++ [(c1, (t.load data sz).m_cpuBuf), (c2, (t.load data sz).m_cpuBuf),
            (c3, (t.load data sz).m_cpuBuf)] ∧
        t3.m_validMask = 7 ∧
        (GLCommandQueue.cycle (GLCommandQueue.cycle (GLCommandQueue.cycle (GLCommandQueue.cycle
          { dataFactory := gfxF.onDTex di ti (fun x => x.load data sz)
            commandQueue := (run ctx0 acts).commandQueue })))).dataFactory.dtex di ti =
          some t3) := by
  have hk := run_keeps acts ctx0 (by rw [h0]) (by rw [h0]; decide)
  constructor
  · intro bi b hb
    obtain ⟨c1, c2, c3, c4, h1, h2, h3, h4, h12, h13, h23, e3, e4⟩ :=
      four_cycles
        { dataFactory := gfxF.onDBuf di bi (fun x => x.load data sz)
          commandQueue := (run ctx0 acts).commandQueue } hk.1 hk.2
    obtain ⟨u1, u2, _, u4⟩ :=
      GLGraphicsBufferD.update3 (b.load data sz) rfl c1 c2 c3 c4 h1 h2 h3 h4 h12 h13 h23
    refine ⟨(((b.load data sz).update c1).update c2).update c3, c1, c2, c3, ?_,
      perm_of_three_slots c1 c2 c3 h1 h2 h3 h12 h13 h23, u1, u2, ?_⟩
    · rw [e3, dbuf_updateAll, dbuf_updateAll, dbuf_updateAll, dbuf_onDBuf, hb]
      rfl
    · rw [e4, dbuf_updateAll, dbuf_updateAll, dbuf_updateAll, dbuf_updateAll, dbuf_onDBuf, hb]
      simp only [Option.map_some']
      rw [u4]
  · intro ti t ht
    obtain ⟨c1, c2, c3, c4, h1, h2, h3, h4, h12, h13, h23, e3, e4⟩ :=
      four_cycles
        { dataFactory := gfxF.onDTex di ti (fun x => x.load data sz)
          commandQueue := (run ctx0 acts).commandQueue } hk.1 hk.2
    obtain ⟨u1, u2, _, u4⟩ :=
      GLTextureD.texUpdate3 (t.load data sz) rfl c1 c2 c3 c4 h1 h2 h3 h4 h12 h13 h23
    refine ⟨(((t.load data sz).update c1).update c2).update c3, c1, c2, c3, ?_,
      perm_of_three_slots c1 c2 c3 h1 h2 h3 h12 h13 h23, u1, u2, ?_⟩
    · rw [e3, dtex_updateAll, dtex_updateAll, dtex_updateAll, dtex_onDTex, ht]
      rfl
    · rw [e4, dtex_updateAll, dtex_updateAll, dtex_updateAll, dtex_updateAll, dtex_onDTex, ht]
      simp only [Option.map_some']
      rw [u4]

/-- Witness for C7: the queue reached by `execute()` and one wake-up, a two-byte dynamic
buffer committed at `(0, 0)`, and a load of `[1, 2]`. -/
theorem C7_three_cycles_upload_each_slot_once_witness :
    ({} : GraphicsContext).commandQueue = {} ∧
    ∃ b3 c1 c2 c3,
      (GLCommandQueue.cycle (GLCommandQueue.cycle (GLCommandQueue.cycle
        { dataFactory :=
            GLDataFactory.onDBuf
              { m_committedData :=
                  [{ m_DBufs := [GLGraphicsBufferD.ctor 1 2 (fun _ => 0) (fun _ _ => 0)] }] }
              0 0 (fun x => x.load [1, 2] 2)
          commandQueue :=
            (run {} [Action.execute, Action.wake]).commandQueue }))).dataFactory.dbuf 0 0 =
        some b3 ∧
      List.Perm [c1, c2, c3] [0, 1, 2] ∧
      b3.glUploads =
        (GLGraphicsBufferD.ctor 1 2 (fun _ => 0) (fun _ _ => 0)).glUploads ++
          [(c1, ((GLGraphicsBufferD.ctor 1 2 (fun _ => 0) (fun _ _ => 0)).load [1, 2] 2).m_cpuBuf),
            (c2, ((GLGraphicsBufferD.ctor 1 2 (fun _ => 0) (fun _ _ => 0)).load [1, 2] 2).m_cpuBuf),
            (c3,
              ((GLGraphicsBufferD.ctor 1 2 (fun _ => 0) (fun _ _ => 0)).load [1, 2] 2).m_cpuBuf)] ∧
      b3.m_validMask = 7 ∧
      (GLCommandQueue.cycle (GLCommandQueue.cycle (GLCommandQueue.cycle (GLCommandQueue.cycle
        { dataFactory :=
            GLDataFactory.onDBuf
              { m_committedData :=
                  [{ m_DBufs := [GLGraphicsBufferD.ctor 1 2 (fun _ => 0) (fun _ _ => 0)] }] }
              0 0 (fun x => x.load [1, 2] 2)
          commandQueue :=
            (run {} [Action.execute, Action.wake]).commandQueue })))).dataFactory.dbuf 0 0 =
        some b3 :=
  ⟨rfl,
    (C7_three_cycles_upload_each_slot_once {} [Action.execute, Action.wake]
      { m_committedData :=
          [{ m_DBufs := [GLGraphicsBufferD.ctor 1 2 (fun _ => 0) (fun _ _ => 0)] }] }
      0 [1, 2] 2 rfl).1 0 (GLGraphicsBufferD.ctor 1 2 (fun _ => 0) (fun _ _ => 0)) rfl⟩

theorem GLGraphicsBufferD.load_all (b : GLGraphicsBufferD) (bytes : List Nat)
    (hlen : bytes.length = b.m_cpuSz) : (b.load bytes b.m_cpuSz).m_cpuBuf = bytes := by
  show memcpy b.m_cpuBuf bytes (min b.m_cpuSz b.m_cpuSz) = bytes
  rw [Nat.min_self, ← hlen]
  exact memcpy_all _ _ hlen

/-- The uploads of the scenario seen from the buffer: `update(0)`, `load(B)`, `update(1)`,
`update(2)` on a buffer with clear mask holding `A`. -/
theorem scenario_uploads (x : GLGraphicsBufferD) (A B : List Nat) (n : Nat)
    (hA : x.m_cpuBuf = A) (hx : x.m_validMask = 0) (hn : x.m_cpuSz = n) (hB : B.length = n) :
    ((((x.update 0).load B n).update 1).update 2).glUploads =
      x.glUploads ++ [(0, A), (1, B), (2, B)] := by
  have u0 := GLGraphicsBufferD.update_of_clear x 0 (by rw [hx]; decide)
  rw [u0]
  have l1 : (GLGraphicsBufferD.load
      { x with
        m_bufs := x.m_bufs.set 0 x.m_cpuBuf
        glUploads := x.glUploads ++ [(0, x.m_cpuBuf)]
        m_validMask := x.m_validMask ||| 1 <<< 0 } B n).m_cpuBuf = B := by
    have := GLGraphicsBufferD.load_all
      { x with
        m_bufs := x.m_bufs.set 0 x.m_cpuBuf
        glUploads := x.glUploads ++ [(0, x.m_cpuBuf)]
        m_validMask := x.m_validMask ||| 1 <<< 0 } B (by rw [hB]; exact hn.symm)
    have hn' : GLGraphicsBufferD.m_cpuSz
      { x with
        m_bufs := x.m_bufs.set 0 x.m_cpuBuf
        glUploads := x.glUploads ++ [(0, x.m_cpuBuf)]
        m_validMask := x.m_validMask ||| 1 <<< 0 } = n := hn
    rwa [hn'] at this
  have l2 : (GLGraphicsBufferD.load
      { x with
        m_bufs := x.m_bufs.set 0 x.m_cpuBuf
        glUploads := x.glUploads ++ [(0, x.m_cpuBuf)]
        m_validMask := x.m_validMask ||| 1 <<< 0 } B n).m_validMask = 0 := rfl
  have l3 : (GLGraphicsBufferD.load
      { x with
        m_bufs := x.m_bufs.set 0 x.m_cpuBuf
        glUploads := x.glUploads ++ [(0, x.m_cpuBuf)]
        m_validMask := x.m_validMask ||| 1 <<< 0 } B n).glUploads =
      x.glUploads ++ [(0, x.m_cpuBuf)] := rfl
  generalize GLGraphicsBufferD.load
      { x with
        m_bufs := x.m_bufs.set 0 x.m_cpuBuf
        glUploads := x.glUploads ++ [(0, x.m_cpuBuf)]
        m_validMask := x.m_validMask ||| 1 <<< 0 } B n = y at l1 l2 l3 ⊢
  have u1 := GLGraphicsBufferD.update_of_clear y 1 (by rw [l2]; decide)
  rw [u1]
  have u2 := GLGraphicsBufferD.update_of_clear
    { y with
      m_bufs := y.m_bufs.set 1 y.m_cpuBuf
      glUploads := y.glUploads ++ [(1, y.m_cpuBuf)]
      m_validMask := y.m_validMask ||| 1 <<< 1 } 2
    (by show (y.m_validMask ||| 1 <<< 1).testBit 2 = false
        rw [l2]; decide)
  rw [u2]
  show (y.glUploads ++ [(1, y.m_cpuBuf)]) ++ [(2, y.m_cpuBuf)] = _
  rw [l3, l1, hA]
  simp

/-- C8: start from a freshly constructed queue and one committed set holding a 16-byte static
buffer and a 16-byte dynamic buffer loaded with `A`.  Run `execute()`, then `load(B)` on the
dynamic buffer, then `execute()` twice, with arbitrary recording calls and worker wake-ups
(`mid0` .. `mid4`) before, between and after these calls.  The upload log of the dynamic
buffer is then exactly: slot 0 with `A`, slot 1 with `B`, slot 2 with `B`. -/
theorem C8_upload_scenario (use suse : Nat) (cpuIndet : Nat → Nat) (gpuIndet : Nat → Nat → Nat)
    (A B S : List Nat) (mid0 mid1 mid2 mid3 mid4 : List Action)
    (hA : A.length = 16) (hB : B.length = 16)
    (h0 : ∀ a ∈ mid0, a.isExecute = false) (h1 : ∀ a ∈ mid1, a.isExecute = false)
    (h2 : ∀ a ∈ mid2, a.isExecute = false) (h3 : ∀ a ∈ mid3, a.isExecute = false)
    (h4 : ∀ a ∈ mid4, a.isExecute = false) :
    ((run
        ((run (scenarioStart use suse cpuIndet gpuIndet A S)
          (mid0 ++ Action.execute :: mid1)).loadDBuf 0 0 B 16)
        (mid2 ++ Action.execute :: (mid3 ++ Action.execute :: mid4))).dataFactory.dbuf 0 0).map
      (fun b => b.glUploads) = some [(0, A), (1, B), (2, B)] := by
  -- the dynamic buffer as committed
  have hsz : (GLGraphicsBufferD.ctor use 16 cpuIndet gpuIndet).m_cpuSz = 16 := by
    simp [GLGraphicsBufferD.m_cpuSz, GLGraphicsBufferD.ctor, newBytes]
  have hbA : ((GLGraphicsBufferD.ctor use 16 cpuIndet gpuIndet).load A 16).m_cpuBuf = A := by
    have := GLGraphicsBufferD.load_all (GLGraphicsBufferD.ctor use 16 cpuIndet gpuIndet) A
      (by rw [hsz, hA])
    rwa [hsz] at this
  have hszA : ((GLGraphicsBufferD.ctor use 16 cpuIndet gpuIndet).load A 16).m_cpuSz = 16 := by
    unfold GLGraphicsBufferD.m_cpuSz; rw [hbA, hA]
  -- first `execute()`
  obtain ⟨a1, a2, a3, a4⟩ := quiet_run mid0 (scenarioStart use suse cpuIndet gpuIndet A S) h0
  have a4' : (run (scenarioStart use suse cpuIndet gpuIndet A S) mid0).commandQueue.m_drawBuf
      = 0 := by
    rcases a4 with a4 | a4 <;> rw [a4] <;> rfl
  have a2' : (run (scenarioStart use suse cpuIndet gpuIndet A S) mid0).commandQueue.m_fillBuf
      = 0 := by rw [a2]; rfl
  obtain ⟨b1, b2, b3, b4⟩ := quiet_run mid1
    (GLCommandQueue.execute (run (scenarioStart use suse cpuIndet gpuIndet A S) mid0)) h1
  have e1F : (GLCommandQueue.execute
      (run (scenarioStart use suse cpuIndet gpuIndet A S) mid0)).commandQueue.m_fillBuf = 1 := by
    show GLCommandQueue.rotateFill _ _ _ (List.range 3) = 1
    rw [a2', a4']; decide
  have e1C : (GLCommandQueue.execute
      (run (scenarioStart use suse cpuIndet gpuIndet A S) mid0)).commandQueue.m_completeBuf
        = 0 := a2'
  have e1D : (GLCommandQueue.execute
      (run (scenarioStart use suse cpuIndet gpuIndet A S) mid0)).commandQueue.m_drawBuf
        = 0 := a4'
  have e1DF : (GLCommandQueue.execute
      (run (scenarioStart use suse cpuIndet gpuIndet A S) mid0)).dataFactory =
        (scenarioStart use suse cpuIndet gpuIndet A S).dataFactory.updateAll 0 := by
    show (run (scenarioStart use suse cpuIndet gpuIndet A S) mid0).dataFactory.updateAll _ = _
    rw [a1, a2']
  rw [e1DF] at b1
  rw [e1F] at b2
  rw [e1C] at b3
  rw [e1D, e1C, or_self] at b4
  -- the state after the first `execute()` and the steps `mid1`
  rw [run_append, run_cons, run_append, run_cons, run_append, run_cons]
  simp only [step]
  generalize hs1 : run (GLCommandQueue.execute
    (run (scenarioStart use suse cpuIndet gpuIndet A S) mid0)) mid1 = s1 at b1 b2 b3 b4
  -- second `execute()`
  obtain ⟨c1, c2, c3, c4⟩ := quiet_run mid2 (s1.loadDBuf 0 0 B 16) h2
  have c2' : (run (s1.loadDBuf 0 0 B 16) mid2).commandQueue.m_fillBuf = 1 := by
    rw [c2]; exact b2
  have c4' : (run (s1.loadDBuf 0 0 B 16) mid2).commandQueue.m_drawBuf = 0 := by
    rcases c4 with c4 | c4 <;> rw [c4]
    · exact b4
    · exact b3
  have e2F : (GLCommandQueue.execute
      (run (s1.loadDBuf 0 0 B 16) mid2)).commandQueue.m_fillBuf = 2 := by
    show GLCommandQueue.rotateFill _ _ _ (List.range 3) = 2
    rw [c2', c4']; decide
  have e2DF : (GLCommandQueue.execute (run (s1.loadDBuf 0 0 B 16) mid2)).dataFactory =
      (((scenarioStart use suse cpuIndet gpuIndet A S).dataFactory.updateAll 0).onDBuf 0 0
        (fun b => b.load B 16)).updateAll 1 := by
    show (run (s1.loadDBuf 0 0 B 16) mid2).dataFactory.updateAll _ = _
    rw [c1, c2']
    show (s1.dataFactory.onDBuf 0 0 (fun b => b.load B 16)).updateAll 1 = _
    rw [b1]
  generalize hs2 : GLCommandQueue.execute (run (s1.loadDBuf 0 0 B 16) mid2) = s2 at e2F e2DF
  -- third `execute()`
  obtain ⟨d1, d2, _, _⟩ := quiet_run mid3 s2 h3
  obtain ⟨f1, _, _, _⟩ := quiet_run mid4 (GLCommandQueue.execute (run s2 mid3)) h4
  have e3DF : (GLCommandQueue.execute (run s2 mid3)).dataFactory =
      ((((scenarioStart use suse cpuIndet gpuIndet A S).dataFactory.updateAll 0).onDBuf 0 0
        (fun b => b.load B 16)).updateAll 1).updateAll 2 := by
    show (run s2 mid3).dataFactory.updateAll _ = _
    rw [d1, d2, e2F, e2DF]
  rw [f1, e3DF, dbuf_updateAll, dbuf_updateAll, dbuf_onDBuf, dbuf_updateAll]
  have hstart : (scenarioStart use suse cpuIndet gpuIndet A S).dataFactory.dbuf 0 0 =
      some ((GLGraphicsBufferD.ctor use 16 cpuIndet gpuIndet).load A 16) := rfl
  rw [hstart]
  simp only [Option.map_some']
  -- the three uploads
  rw [scenario_uploads _ A B 16 hbA rfl hszA hB]
  rfl

/-- Witness for C8: `A` is sixteen bytes `7`, `B` sixteen bytes `9`; the worker wakes after the
first and after the second `execute()`, and a draw is recorded after the load. -/
theorem C8_upload_scenario_witness :
    (List.replicate 16 7).length = 16 ∧ (List.replicate 16 9).length = 16 ∧
    (∀ a ∈ ([] : List Action), a.isExecute = false) ∧
    (∀ a ∈ [Action.wake], a.isExecute = false) ∧
    (∀ a ∈ [Action.record (Recording.draw 0 4)], a.isExecute = false) ∧
    (∀ a ∈ [Action.wake], a.isExecute = false) ∧
    (∀ a ∈ ([] : List Action), a.isExecute = false) ∧
    ((run
        ((run (scenarioStart 1 1 (fun _ => 0) (fun _ _ => 0) (List.replicate 16 7)
            (List.replicate 16 1))
          ([] ++ Action.execute :: [Action.wake])).loadDBuf 0 0 (List.replicate 16 9) 16)
        ([Action.record (Recording.draw 0 4)] ++
          Action.execute :: ([Action.wake] ++ Action.execute :: []))).dataFactory.dbuf 0 0).map
      (fun b => b.glUploads) =
      some [(0, List.replicate 16 7), (1, List.replicate 16 9), (2, List.replicate 16 9)] :=
  ⟨by decide, by decide, by simp, by simp [Action.isExecute], by simp [Action.isExecute],
    by simp [Action.isExecute], by simp,
    C8_upload_scenario 1 1 (fun _ => 0) (fun _ _ => 0) (List.replicate 16 7)
      (List.replicate 16 9) (List.replicate 16 1) [] [Action.wake]
      [Action.record (Recording.draw 0 4)] [Action.wake] []
      (by decide) (by decide) (by simp) (by simp [Action.isExecute])
      (by simp [Action.isExecute]) (by simp [Action.isExecute]) (by simp)⟩

/-! ## Recording calls -/

theorem Arr3.get?_modify_self {α : Type} (a : Arr3 α) (i : Nat) (f : α → α) (hi : i < 3) :
    ∃ old, a.get? i = some old ∧ (a.modify i f).get? i = some (f old) := by
  interval_cases i <;> exact ⟨_, rfl, rfl⟩

/-- C11: for every state and every recording call `r` there is one entry `c` such that the
queue afterwards is the old queue with `c` appended at the end of `m_cmdBufs[m_fillBuf]` and
nothing else changed: the other two command buffers, the fill / complete / draw indices and all
other members are as before, and the factory side of the context, which holds every GL data
store and upload log, is untouched.  The entry is tagged with the op of the call and carries its
arguments: `clearTarget` as the two flag bits, `resolveBindTexture` as the texture, the two
booleans and the rectangle clipped to the texture (flipped vertically for `tlOrigin`). -/
theorem C11_recording_appends_one_entry (ctx : GraphicsContext) (r : Recording) :
    ∃ c : Command,
      step ctx (Action.record r) =
        { ctx with
          commandQueue :=
            { ctx.commandQueue with
              m_cmdBufs :=
                ctx.commandQueue.m_cmdBufs.modify ctx.commandQueue.m_fillBuf
                  (fun cmds => cmds ++ [c]) } } ∧
      (ctx.commandQueue.m_fillBuf < 3 →
        ∃ old, ctx.commandQueue.m_cmdBufs.get? ctx.commandQueue.m_fillBuf = some old ∧
          (step ctx (Action.record r)).commandQueue.m_cmdBufs.get? ctx.commandQueue.m_fillBuf =
            some (old ++ [c])) ∧
      (∀ j, j ≠ ctx.commandQueue.m_fillBuf →
        (step ctx (Action.record r)).commandQueue.m_cmdBufs.get? j =
          ctx.commandQueue.m_cmdBufs.get? j) ∧
      (step ctx (Action.record r)).commandQueue.m_fillBuf = ctx.commandQueue.m_fillBuf ∧
      (step ctx (Action.record r)).commandQueue.m_completeBuf =
        ctx.commandQueue.m_completeBuf ∧
      (step ctx (Action.record r)).commandQueue.m_drawBuf = ctx.commandQueue.m_drawBuf ∧
      (step ctx (Action.record r)).dataFactory = ctx.dataFactory ∧
      (match r with
        | .setShaderDataBinding binding => c.m_op = Op.SetShaderDataBinding ∧ c.binding = binding
        | .setRenderTarget target => c.m_op = Op.SetRenderTarget ∧ c.target = target
        | .setViewport rect znear zfar =>
          c.m_op = Op.SetViewport ∧ c.rect = rect ∧ c.znear = znear ∧ c.zfar = zfar
        | .setScissor rect => c.m_op = Op.SetScissor ∧ c.rect = rect
        | .setClearColor red green blue alpha =>
          c.m_op = Op.SetClearColor ∧ c.rgba = [red, green, blue, alpha]
        | .clearTarget render depth =>
          c.m_op = Op.ClearTarget ∧
            c.flags = (if render then GL_COLOR_BUFFER_BIT else 0) +
              (if depth then GL_DEPTH_BUFFER_BIT else 0)
        | .draw start count => c.m_op = Op.Draw ∧ c.start = start ∧ c.count = count
        | .drawIndexed start count =>
          c.m_op = Op.DrawIndexed ∧ c.start = start ∧ c.count = count
        | .drawInstances start count instCount =>
          c.m_op = Op.DrawInstances ∧ c.start = start ∧ c.count = count ∧
            c.instCount = instCount
        | .drawInstancesIndexed start count instCount =>
          c.m_op = Op.DrawInstancesIndexed ∧ c.start = start ∧ c.count = count ∧
            c.instCount = instCount
        | .resolveBindTexture intersect texture texWidth texHeight rect tlOrigin color depth =>
          c.m_op = Op.ResolveBindTexture ∧ c.resolveTex = texture ∧ c.resolveColor = color ∧
            c.resolveDepth = depth ∧
            c.rect.location0 =
              (intersect rect
                { location0 := 0, location1 := 0, size0 := toInt32 texWidth,
                  size1 := toInt32 texHeight }).location0 ∧
            c.rect.location1 =
              (if tlOrigin then
                toInt32 ((texHeight : Int) -
                  (intersect rect
                    { location0 := 0, location1 := 0, size0 := toInt32 texWidth,
                      size1 := toInt32 texHeight }).location1 -
                  (intersect rect
                    { location0 := 0, location1 := 0, size0 := toInt32 texWidth,
                      size1 := toInt32 texHeight }).size1)
              else
                (intersect rect
                  { location0 := 0, location1 := 0, size0 := toInt32 texWidth,
                    size1 := toInt32 texHeight }).location1) ∧
            c.rect.size0 =
              (intersect rect
                { location0 := 0, location1 := 0, size0 := toInt32 texWidth,
                  size1 := toInt32 texHeight }).size0 ∧
            c.rect.size1 =
              (intersect rect
                { location0 := 0, location1 := 0, size0 := toInt32 texWidth,
                  size1 := toInt32 texHeight }).size1
        | .resolveDisplay source => c.m_op = Op.Present ∧ c.source = source) := by
  have key : ∀ c : Command, ctx.commandQueue.perform r = ctx.commandQueue.record c →
      step ctx (Action.record r) =
        { ctx with
          commandQueue :=
            { ctx.commandQueue with
              m_cmdBufs :=
                ctx.commandQueue.m_cmdBufs.modify ctx.commandQueue.m_fillBuf
                  (fun cmds => cmds ++ [c]) } } ∧
      (ctx.commandQueue.m_fillBuf < 3 →
        ∃ old, ctx.commandQueue.m_cmdBufs.get? ctx.commandQueue.m_fillBuf = some old ∧
          (step ctx (Action.record r)).commandQueue.m_cmdBufs.get? ctx.commandQueue.m_fillBuf =
            some (old ++ [c])) ∧
      (∀ j, j ≠ ctx.commandQueue.m_fillBuf →
        (step ctx (Action.record r)).commandQueue.m_cmdBufs.get? j =
          ctx.commandQueue.m_cmdBufs.get? j) ∧
      (step ctx (Action.record r)).commandQueue.m_fillBuf = ctx.commandQueue.m_fillBuf ∧
      (step ctx (Action.record r)).commandQueue.m_completeBuf =
        ctx.commandQueue.m_completeBuf ∧
      (step ctx (Action.record r)).commandQueue.m_drawBuf = ctx.commandQueue.m_drawBuf ∧
      (step ctx (Action.record r)).dataFactory = ctx.dataFactory := by
    intro c hc
    have hs : step ctx (Action.record r) =
        { ctx with commandQueue := ctx.commandQueue.record c } := by
      simp only [step, hc]
    rw [hs]
    refine ⟨rfl, fun hf => ?_, fun j hj => ?_, rfl, rfl, rfl, rfl⟩
    · exact Arr3.get?_modify_self _ _ _ hf
    · exact Arr3.get?_modify_ne _ _ _ _ hj
  cases r with
  | setShaderDataBinding binding =>
    obtain ⟨k1, k2, k3, k4, k5, k6, k7⟩ := key _ rfl
    exact ⟨_, k1, k2, k3, k4, k5, k6, k7, rfl, rfl⟩
  | setRenderTarget target =>
    obtain ⟨k1, k2, k3, k4, k5, k6, k7⟩ := key _ rfl
    exact ⟨_, k1, k2, k3, k4, k5, k6, k7, rfl, rfl⟩
  | setViewport rect znear zfar =>
    obtain ⟨k1, k2, k3, k4, k5, k6, k7⟩ := key _ rfl
    exact ⟨_, k1, k2, k3, k4, k5, k6, k7, rfl, rfl, rfl, rfl⟩
  | setScissor rect =>
    obtain ⟨k1, k2, k3, k4, k5, k6, k7⟩ := key _ rfl
    exact ⟨_, k1, k2, k3, k4, k5, k6, k7, rfl, rfl⟩
  | setClearColor red green blue alpha =>
    obtain ⟨k1, k2, k3, k4, k5, k6, k7⟩ := key _ rfl
    exact ⟨_, k1, k2, k3, k4, k5, k6, k7, rfl, rfl⟩
  | clearTarget render depth =>
    obtain ⟨k1, k2, k3, k4, k5, k6, k7⟩ := key _ rfl
    refine ⟨_, k1, k2, k3, k4, k5, k6, k7, rfl, ?_⟩
    cases render <;> cases depth <;> decide
  | draw start count =>
    obtain ⟨k1, k2, k3, k4, k5, k6, k7⟩ := key _ rfl
    exact ⟨_, k1, k2, k3, k4, k5, k6, k7, rfl, rfl, rfl⟩
  | drawIndexed start count =>
    obtain ⟨k1, k2, k3, k4, k5, k6, k7⟩ := key _ rfl
    exact ⟨_, k1, k2, k3, k4, k5, k6, k7, rfl, rfl, rfl⟩
  | drawInstances start count instCount =>
    obtain ⟨k1, k2, k3, k4, k5, k6, k7⟩ := key _ rfl
    exact ⟨_, k1, k2, k3, k4, k5, k6, k7, rfl, rfl, rfl, rfl⟩
  | drawInstancesIndexed start count instCount =>
    obtain ⟨k1, k2, k3, k4, k5, k6, k7⟩ := key _ rfl
    exact ⟨_, k1, k2, k3, k4, k5, k6, k7, rfl, rfl, rfl, rfl⟩
  | resolveBindTexture intersect texture texWidth texHeight rect tlOrigin color depth =>
    obtain ⟨k1, k2, k3, k4, k5, k6, k7⟩ := key _ rfl
    exact ⟨_, k1, k2, k3, k4, k5, k6, k7, rfl, rfl, rfl, rfl, rfl, rfl, rfl, rfl⟩
  | resolveDisplay source =>
    obtain ⟨k1, k2, k3, k4, k5, k6, k7⟩ := key _ rfl
    exact ⟨_, k1, k2, k3, k4, k5, k6, k7, rfl, rfl⟩

/-- Witness for C11: on the freshly constructed queue (fill index `0`) a recorded
`draw(0, 4)` makes command buffer 0 hold exactly the one `Draw` entry. -/
theorem C11_recording_appends_one_entry_witness :
    ({} : GraphicsContext).commandQueue.m_fillBuf < 3 ∧
    ∃ c : Command,
      (step {} (Action.record (Recording.draw 0 4))).commandQueue.m_cmdBufs.get? 0 =
        some ([] ++ [c]) ∧
      c.m_op = Op.Draw ∧ c.start = 0 ∧ c.count = 4 := by
  obtain ⟨c, _, h2, _, _, _, _, _, h8⟩ :=
    C11_recording_appends_one_entry {} (Recording.draw 0 4)
  obtain ⟨old, ho, hn⟩ := h2 (by decide)
  have : old = [] := by
    have h0 : ({} : GraphicsContext).commandQueue.m_cmdBufs.get?
        ({} : GraphicsContext).commandQueue.m_fillBuf = some [] := rfl
    rw [h0] at ho
    exact (Option.some.inj ho).symm
  subst this
  exact ⟨by decide, c, hn, h8.1, h8.2.1, h8.2.2⟩

/-! ## Auxiliary facts about context calls and transactions -/

/-- A completed context call leaves the factory as it was except that the
current-transaction target has registered what the call built. -/
theorem perform_frame (ctx ctx1 : GraphicsContext) (c : FactoryCall) (r : Option Nat)
    (h : Context.perform ctx c = .ok (r, ctx1)) :
    ctx1.dataFactory =
      { ctx.dataFactory with
        m_deferredData :=
          ctx.dataFactory.m_deferredData.map (fun d =>
            d.register ctx.dataFactory.ndebug ctx.dataFactory.m_drawSamples (c, r)) } := by
  rcases ctx with ⟨⟨dd, reg, ds, nd⟩, q⟩
  cases c with
  | newStaticBuffer use data stride count addr =>
    simp only [Context.perform, Context.newStaticBuffer, Except.ok.injEq, Prod.mk.injEq] at h
    obtain ⟨rfl, rfl⟩ := h
    cases dd <;>
      simp [GLDataFactory.onDeferred, GLData.register, FactoryCall.builtSP,
        FactoryCall.builtSBind, FactoryCall.builtSBuf, FactoryCall.builtDBuf,
        FactoryCall.builtSTex, FactoryCall.builtSATex, FactoryCall.builtDTex,
        FactoryCall.builtRTex, FactoryCall.builtVFmt]
  | newDynamicBuffer use stride count cpuIndet gpuIndet addr =>
    simp only [Context.perform, Context.newDynamicBuffer, Except.ok.injEq, Prod.mk.injEq] at h
    obtain ⟨rfl, rfl⟩ := h
    cases dd <;>
      simp [GLDataFactory.onDeferred, GLData.register, FactoryCall.builtSP,
        FactoryCall.builtSBind, FactoryCall.builtSBuf, FactoryCall.builtDBuf,
        FactoryCall.builtSTex, FactoryCall.builtSATex, FactoryCall.builtDTex,
        FactoryCall.builtRTex, FactoryCall.builtVFmt]
  | newStaticTexture width height mips fmt data sz addr =>
    simp only [Context.perform, Context.newStaticTexture] at h
    split at h
    · simp at h
    · rename_i retval hr
      simp only [Except.ok.injEq, Prod.mk.injEq] at h
      obtain ⟨rfl, rfl⟩ := h
      cases dd <;>
        simp [GLDataFactory.onDeferred, GLData.register, FactoryCall.builtSP,
        FactoryCall.builtSBind, FactoryCall.builtSBuf, FactoryCall.builtDBuf,
        FactoryCall.builtSTex, FactoryCall.builtSATex, FactoryCall.builtDTex,
        FactoryCall.builtRTex, FactoryCall.builtVFmt, hr]
  | newStaticArrayTexture width height layers fmt data sz addr =>
    simp only [Context.perform, Context.newStaticArrayTexture, Except.ok.injEq, Prod.mk.injEq] at h
    obtain ⟨rfl, rfl⟩ := h
    cases dd <;>
      simp [GLDataFactory.onDeferred, GLData.register, FactoryCall.builtSP,
        FactoryCall.builtSBind, FactoryCall.builtSBuf, FactoryCall.builtDBuf,
        FactoryCall.builtSTex, FactoryCall.builtSATex, FactoryCall.builtDTex,
        FactoryCall.builtRTex, FactoryCall.builtVFmt]
  | newDynamicTexture width height fmt cpuIndet gpuIndet addr =>
    simp only [Context.perform, Context.newDynamicTexture] at h
    split at h
    · simp at h
    · rename_i retval hr
      simp only [Except.ok.injEq, Prod.mk.injEq] at h
      obtain ⟨rfl, rfl⟩ := h
      cases dd <;>
        simp [GLDataFactory.onDeferred, GLData.register, FactoryCall.builtSP,
        FactoryCall.builtSBind, FactoryCall.builtSBuf, FactoryCall.builtDBuf,
        FactoryCall.builtSTex, FactoryCall.builtSATex, FactoryCall.builtDTex,
        FactoryCall.builtRTex, FactoryCall.builtVFmt, hr]
  | newRenderTexture width height color depth names addr =>
    simp only [Context.perform, Context.newRenderTexture, Except.ok.injEq, Prod.mk.injEq] at h
    obtain ⟨rfl, rfl⟩ := h
    cases dd <;>
      simp [GLDataFactory.onDeferred, GLData.register, FactoryCall.builtSP,
        FactoryCall.builtSBind, FactoryCall.builtSBuf, FactoryCall.builtDBuf,
        FactoryCall.builtSTex, FactoryCall.builtSATex, FactoryCall.builtDTex,
        FactoryCall.builtRTex, FactoryCall.builtVFmt, GLTextureR.ctor]
  | newVertexFormat elementCount elements addr =>
    simp only [Context.perform, Context.newVertexFormat, Except.ok.injEq, Prod.mk.injEq] at h
    obtain ⟨rfl, rfl⟩ := h
    cases dd <;>
      simp [GLDataFactory.onDeferred, GLData.register, FactoryCall.builtSP,
        FactoryCall.builtSBind, FactoryCall.builtSBuf, FactoryCall.builtDBuf,
        FactoryCall.builtSTex, FactoryCall.builtSATex, FactoryCall.builtDTex,
        FactoryCall.builtRTex, FactoryCall.builtVFmt, GLVertexFormat.ctor]
  | newShaderPipeline args driver addr =>
    simp only [Context.perform, Context.newShaderPipeline, Except.ok.injEq] at h
    split_ifs at h <;>
    · simp only [Prod.mk.injEq] at h
      obtain ⟨rfl, rfl⟩ := h
      cases dd <;>
        simp [GLDataFactory.onDeferred, GLData.register, FactoryCall.builtSP,
        FactoryCall.builtSBind, FactoryCall.builtSBuf, FactoryCall.builtDBuf,
        FactoryCall.builtSTex, FactoryCall.builtSATex, FactoryCall.builtDTex,
        FactoryCall.builtRTex, FactoryCall.builtVFmt]
  | newShaderDataBinding args addr =>
    simp only [Context.perform, Context.newShaderDataBinding] at h
    split at h
    · simp at h
    · rename_i retval hr
      simp only [Except.ok.injEq, Prod.mk.injEq] at h
      obtain ⟨rfl, rfl⟩ := h
      cases dd <;>
        simp [GLDataFactory.onDeferred, GLData.register, FactoryCall.builtSP,
        FactoryCall.builtSBind, FactoryCall.builtSBuf, FactoryCall.builtDBuf,
        FactoryCall.builtSTex, FactoryCall.builtSATex, FactoryCall.builtDTex,
        FactoryCall.builtRTex, FactoryCall.builtVFmt, hr]

/-- A completed context call adds one resource to the set when it returned an object and none
when it returned `nullptr`. -/
theorem perform_size (ctx ctx1 : GraphicsContext) (c : FactoryCall) (r : Option Nat)
    (d : GLData) (h : Context.perform ctx c = .ok (r, ctx1)) :
    (d.register ctx.dataFactory.ndebug ctx.dataFactory.m_drawSamples (c, r)).size =
      d.size + (if r.isSome then 1 else 0) := by
  cases c with
  | newStaticBuffer use data stride count addr =>
    simp only [Context.perform, Context.newStaticBuffer, Except.ok.injEq, Prod.mk.injEq] at h
    obtain ⟨rfl, rfl⟩ := h
    simp [GLData.size, GLData.register, FactoryCall.builtSP,
        FactoryCall.builtSBind, FactoryCall.builtSBuf, FactoryCall.builtDBuf,
        FactoryCall.builtSTex, FactoryCall.builtSATex, FactoryCall.builtDTex,
        FactoryCall.builtRTex, FactoryCall.builtVFmt]
    omega
  | newDynamicBuffer use stride count cpuIndet gpuIndet addr =>
    simp only [Context.perform, Context.newDynamicBuffer, Except.ok.injEq, Prod.mk.injEq] at h
    obtain ⟨rfl, rfl⟩ := h
    simp [GLData.size, GLData.register, FactoryCall.builtSP,
        FactoryCall.builtSBind, FactoryCall.builtSBuf, FactoryCall.builtDBuf,
        FactoryCall.builtSTex, FactoryCall.builtSATex, FactoryCall.builtDTex,
        FactoryCall.builtRTex, FactoryCall.builtVFmt]
    omega
  | newStaticTexture width height mips fmt data sz addr =>
    simp only [Context.perform, Context.newStaticTexture] at h
    split at h
    · simp at h
    · rename_i retval hr
      simp only [Except.ok.injEq, Prod.mk.injEq] at h
      obtain ⟨rfl, rfl⟩ := h
      simp [GLData.size, GLData.register, FactoryCall.builtSP,
        FactoryCall.builtSBind, FactoryCall.builtSBuf, FactoryCall.builtDBuf,
        FactoryCall.builtSTex, FactoryCall.builtSATex, FactoryCall.builtDTex,
        FactoryCall.builtRTex, FactoryCall.builtVFmt, hr]
      omega
  | newStaticArrayTexture width height layers fmt data sz addr =>
    simp only [Context.perform, Context.newStaticArrayTexture, Except.ok.injEq, Prod.mk.injEq] at h
    obtain ⟨rfl, rfl⟩ := h
    simp [GLData.size, GLData.register, FactoryCall.builtSP,
        FactoryCall.builtSBind, FactoryCall.builtSBuf, FactoryCall.builtDBuf,
        FactoryCall.builtSTex, FactoryCall.builtSATex, FactoryCall.builtDTex,
        FactoryCall.builtRTex, FactoryCall.builtVFmt]
    omega
  | newDynamicTexture width height fmt cpuIndet gpuIndet addr =>
    simp only [Context.perform, Context.newDynamicTexture] at h
    split at h
    · simp at h
    · rename_i retval hr
      simp only [Except.ok.injEq, Prod.mk.injEq] at h
      obtain ⟨rfl, rfl⟩ := h
      simp [GLData.size, GLData.register, FactoryCall.builtSP,
        FactoryCall.builtSBind, FactoryCall.builtSBuf, FactoryCall.builtDBuf,
        FactoryCall.builtSTex, FactoryCall.builtSATex, FactoryCall.builtDTex,
        FactoryCall.builtRTex, FactoryCall.builtVFmt, hr]
      omega
  | newRenderTexture width height color depth names addr =>
    simp only [Context.perform, Context.newRenderTexture, Except.ok.injEq, Prod.mk.injEq] at h
    obtain ⟨rfl, rfl⟩ := h
    simp [GLData.size, GLData.register, FactoryCall.builtSP,
        FactoryCall.builtSBind, FactoryCall.builtSBuf, FactoryCall.builtDBuf,
        FactoryCall.builtSTex, FactoryCall.builtSATex, FactoryCall.builtDTex,
        FactoryCall.builtRTex, FactoryCall.builtVFmt]
    omega
  | newVertexFormat elementCount elements addr =>
    simp only [Context.perform, Context.newVertexFormat, Except.ok.injEq, Prod.mk.injEq] at h
    obtain ⟨rfl, rfl⟩ := h
    simp [GLData.size, GLData.register, FactoryCall.builtSP,
        FactoryCall.builtSBind, FactoryCall.builtSBuf, FactoryCall.builtDBuf,
        FactoryCall.builtSTex, FactoryCall.builtSATex, FactoryCall.builtDTex,
        FactoryCall.builtRTex, FactoryCall.builtVFmt]
    omega
  | newShaderPipeline args driver addr =>
    simp only [Context.perform, Context.newShaderPipeline, Except.ok.injEq] at h
    split_ifs at h <;>
    · simp only [Prod.mk.injEq] at h
      obtain ⟨rfl, rfl⟩ := h
      simp [GLData.size, GLData.register, FactoryCall.builtSP,
        FactoryCall.builtSBind, FactoryCall.builtSBuf, FactoryCall.builtDBuf,
        FactoryCall.builtSTex, FactoryCall.builtSATex, FactoryCall.builtDTex,
        FactoryCall.builtRTex, FactoryCall.builtVFmt]
      try omega
  | newShaderDataBinding args addr =>
    simp only [Context.perform, Context.newShaderDataBinding] at h
    split at h
    · simp at h
    · rename_i retval hr
      simp only [Except.ok.injEq, Prod.mk.injEq] at h
      obtain ⟨rfl, rfl⟩ := h
      simp [GLData.size, GLData.register, FactoryCall.builtSP,
        FactoryCall.builtSBind, FactoryCall.builtSBuf, FactoryCall.builtDBuf,
        FactoryCall.builtSTex, FactoryCall.builtSATex, FactoryCall.builtDTex,
        FactoryCall.builtRTex, FactoryCall.builtVFmt, hr]
      omega

theorem fillOffsets_error (ndebug : Bool) (offs sizes : List Nat) (todo i : Nat)
    (acc : List (Nat × Nat)) (e : Fatal)
    (h : GLShaderDataBinding.fillOffsets ndebug offs sizes todo i acc = .error e) :
    ∃ j, e = Fatal.unalignedUniformOffset j := by
  induction todo generalizing i acc with
  | zero => simp [GLShaderDataBinding.fillOffsets] at h
  | succ n ih =>
    simp only [GLShaderDataBinding.fillOffsets] at h
    split_ifs at h
    · exact ⟨i, by simpa using h.symm⟩
    · exact ih _ _ h

theorem fillBuffers_error (ndebug : Bool) (ubufs : List Nat) (todo i : Nat)
    (acc : List Nat) (e : Fatal)
    (h : GLShaderDataBinding.fillBuffers ndebug ubufs todo i acc = .error e) :
    ∃ j, e = Fatal.nullUniformBuffer j := by
  induction todo generalizing i acc with
  | zero => simp [GLShaderDataBinding.fillBuffers] at h
  | succ n ih =>
    simp only [GLShaderDataBinding.fillBuffers] at h
    split_ifs at h
    · exact ⟨i, by simpa using h.symm⟩
    · exact ih _ _ h

/-- The constructor of a data binding raises no other fatal error than the two of its debug
checks. -/
theorem binding_ctor_error (ndebug : Bool) (pipeline vtxFormat ubufCount : Nat)
    (ubufs : List Nat) (ubufOffs ubufSizes : Option (List Nat)) (texCount : Nat)
    (texs : List Nat) (e : Fatal)
    (h : GLShaderDataBinding.ctor ndebug pipeline vtxFormat ubufCount ubufs ubufOffs ubufSizes
      texCount texs = .error e) :
    (∃ j, e = Fatal.unalignedUniformOffset j) ∨ (∃ j, e = Fatal.nullUniformBuffer j) := by
  unfold GLShaderDataBinding.ctor at h
  cases ubufOffs with
  | none =>
    simp only at h
    split at h
    · rename_i e1 he1
      have : e1 = e := by simpa using h
      subst this
      exact Or.inr (fillBuffers_error _ _ _ _ _ _ he1)
    · simp at h
  | some offs =>
    cases ubufSizes with
    | none =>
      simp only at h
      split at h
      · rename_i e1 he1
        have : e1 = e := by simpa using h
        subst this
        exact Or.inr (fillBuffers_error _ _ _ _ _ _ he1)
      · simp at h
    | some sizes =>
      simp only at h
      split at h
      · rename_i e1 he1
        have : e1 = e := by simpa using h
        subst this
        exact Or.inl (fillOffsets_error _ _ _ _ _ _ _ he1)
      · split at h
        · rename_i e1 he1
          have : e1 = e := by simpa using h
          subst this
          exact Or.inr (fillBuffers_error _ _ _ _ _ _ he1)
        · simp at h

/-- No context call raises the nested-transaction error. -/
theorem perform_not_nested (ctx : GraphicsContext) (c : FactoryCall) :
    Context.perform ctx c ≠ .error Fatal.nestedCommitTransaction := by
  intro h
  cases c with
  | newStaticBuffer use data stride count addr => simp [Context.perform] at h
  | newDynamicBuffer use stride count cpuIndet gpuIndet addr => simp [Context.perform] at h
  | newStaticTexture width height mips fmt data sz addr =>
    simp only [Context.perform, Context.newStaticTexture] at h
    split at h <;> simp at h
  | newStaticArrayTexture width height layers fmt data sz addr => simp [Context.perform] at h
  | newDynamicTexture width height fmt cpuIndet gpuIndet addr =>
    simp only [Context.perform, Context.newDynamicTexture] at h
    split at h <;> simp at h
  | newRenderTexture width height color depth names addr => simp [Context.perform] at h
  | newVertexFormat elementCount elements addr => simp [Context.perform] at h
  | newShaderPipeline args driver addr => simp [Context.perform] at h
  | newShaderDataBinding args addr =>
    simp only [Context.perform, Context.newShaderDataBinding] at h
    split at h
    · rename_i e he
      have : e = Fatal.nestedCommitTransaction := by simpa using h
      subst this
      rcases binding_ctor_error _ _ _ _ _ _ _ _ _ _ he with ⟨j, hj⟩ | ⟨j, hj⟩ <;> simp at hj
    · simp at h

theorem foldl_register_addr (ndebug : Bool) (drawSamples : Nat)
    (calls : List (FactoryCall × Option Nat)) (d : GLData) :
    (calls.foldl (GLData.register ndebug drawSamples) d).addr = d.addr := by
  induction calls generalizing d with
  | nil => rfl
  | cons cr rest ih => rw [List.foldl_cons, ih]; rfl

/-- The lists of a set after a sequence of completed calls has been registered. -/
theorem foldl_register_lists (ndebug : Bool) (drawSamples : Nat)
    (calls : List (FactoryCall × Option Nat)) (d : GLData) :
    (calls.foldl (GLData.register ndebug drawSamples) d).m_SPs =
      d.m_SPs ++ calls.filterMap FactoryCall.builtSP ∧
    (calls.foldl (GLData.register ndebug drawSamples) d).m_SBinds =
      d.m_SBinds ++ calls.filterMap (FactoryCall.builtSBind ndebug) ∧
    (calls.foldl (GLData.register ndebug drawSamples) d).m_SBufs =
      d.m_SBufs ++ calls.filterMap FactoryCall.builtSBuf ∧
    (calls.foldl (GLData.register ndebug drawSamples) d).m_DBufs =
      d.m_DBufs ++ calls.filterMap FactoryCall.builtDBuf ∧
    (calls.foldl (GLData.register ndebug drawSamples) d).m_STexs =
      d.m_STexs ++ calls.filterMap FactoryCall.builtSTex ∧
    (calls.foldl (GLData.register ndebug drawSamples) d).m_SATexs =
      d.m_SATexs ++ calls.filterMap FactoryCall.builtSATex ∧
    (calls.foldl (GLData.register ndebug drawSamples) d).m_DTexs =
      d.m_DTexs ++ calls.filterMap FactoryCall.builtDTex ∧
    (calls.foldl (GLData.register ndebug drawSamples) d).m_RTexs =
      d.m_RTexs ++ calls.filterMap (FactoryCall.builtRTex drawSamples) ∧
    (calls.foldl (GLData.register ndebug drawSamples) d).m_VFmts =
      d.m_VFmts ++ calls.filterMap FactoryCall.builtVFmt := by
  induction calls generalizing d with
  | nil => simp
  | cons cr rest ih =>
    obtain ⟨h1, h2, h3, h4, h5, h6, h7, h8, h9⟩ := ih (d.register ndebug drawSamples cr)
    rw [List.foldl_cons, h1, h2, h3, h4, h5, h6, h7, h8, h9]
    simp only [List.filterMap_cons, GLData.register]
    refine ⟨?_, ?_, ?_, ?_, ?_, ?_, ?_, ?_, ?_⟩
    · cases FactoryCall.builtSP cr <;> simp
    · cases FactoryCall.builtSBind ndebug cr <;> simp
    · cases FactoryCall.builtSBuf cr <;> simp
    · cases FactoryCall.builtDBuf cr <;> simp
    · cases FactoryCall.builtSTex cr <;> simp
    · cases FactoryCall.builtSATex cr <;> simp
    · cases FactoryCall.builtDTex cr <;> simp
    · cases FactoryCall.builtRTex drawSamples cr <;> simp
    · cases FactoryCall.builtVFmt cr <;> simp

theorem commitTransactionWith_open (addr : Nat)
    (runTrans : GraphicsContext → Except Fatal (Bool × GraphicsContext))
    (ctx : GraphicsContext) (h : ctx.dataFactory.m_deferredData.isSome = true) :
    GLDataFactory.commitTransactionWith addr runTrans ctx =
      .error Fatal.nestedCommitTransaction := by
  unfold GLDataFactory.commitTransactionWith
  rw [if_pos h]

/-- A `commitTransaction` call made by a transaction function while the current-transaction
target is set ends the run with the nested-transaction error. -/
theorem run_commit_open (addr : Nat) (inner : Trans) (k : Option Nat → Trans)
    (ctx : GraphicsContext) (h : ctx.dataFactory.m_deferredData.isSome = true) :
    (Trans.commit addr inner k).run ctx = .error Fatal.nestedCommitTransaction := by
  rw [Trans.run, commitTransactionWith_open _ _ _ h]

/-- What a transaction function that returns leaves behind when it was started with the
current-transaction target set: the factory is as before except that the target has
registered the completed calls, one resource per call that returned an object. -/
theorem run_frame (trans : Trans) :
    ∀ (ctx ctx2 : GraphicsContext) (d : GLData) (b : Bool),
      ctx.dataFactory.m_deferredData = some d → trans.run ctx = .ok (b, ctx2) →
      ctx2.dataFactory =
        { ctx.dataFactory with
          m_deferredData :=
            some ((trans.calls ctx).foldl
              (GLData.register ctx.dataFactory.ndebug ctx.dataFactory.m_drawSamples) d) } ∧
      ((trans.calls ctx).foldl
          (GLData.register ctx.dataFactory.ndebug ctx.dataFactory.m_drawSamples) d).size =
        d.size + ((trans.calls ctx).filter (fun cr => cr.2.isSome)).length := by
  induction trans with
  | ret ok =>
    intro ctx ctx2 d b hd h
    simp only [Trans.run, Except.ok.injEq, Prod.mk.injEq] at h
    obtain ⟨rfl, rfl⟩ := h
    rcases ctx with ⟨⟨dd, reg, ds, nd⟩, q⟩
    simp only at hd
    subst hd
    simp [Trans.calls]
  | call c k ih =>
    intro ctx ctx2 d b hd h
    simp only [Trans.run] at h
    split at h
    · simp at h
    · rename_i r ctx1 hp
      have hf := perform_frame ctx ctx1 c r hp
      have hs := perform_size ctx ctx1 c r d hp
      have hd1 : ctx1.dataFactory.m_deferredData =
          some (d.register ctx.dataFactory.ndebug ctx.dataFactory.m_drawSamples (c, r)) := by
        rw [hf, hd]; rfl
      have hnd : ctx1.dataFactory.ndebug = ctx.dataFactory.ndebug := by rw [hf]
      have hds : ctx1.dataFactory.m_drawSamples = ctx.dataFactory.m_drawSamples := by rw [hf]
      obtain ⟨i1, i2⟩ := ih r ctx1 ctx2 _ b hd1 h
      have hc : (Trans.call c k).calls ctx = (c, r) :: (k r).calls ctx1 := by
        simp only [Trans.calls, hp]
      rw [hc, List.foldl_cons]
      rw [hnd, hds] at i1 i2
      refine ⟨?_, ?_⟩
      · rw [i1, hf]
      · rw [i2, hs]
        cases r with
        | none => simp [List.filter_cons]
        | some a => simp [List.filter_cons]; omega
  | commit addr inner k _ _ =>
    intro ctx ctx2 d b hd h
    rw [run_commit_open addr inner k ctx (by rw [hd]; rfl)] at h
    simp at h

/-- A transaction function that makes no `commitTransaction` call of its own does not end in
the nested-transaction error. -/
theorem run_not_nested (trans : Trans) :
    ∀ ctx : GraphicsContext, trans.commitFree →
      trans.run ctx ≠ .error Fatal.nestedCommitTransaction := by
  induction trans with
  | ret ok => intro ctx _ h; simp [Trans.run] at h
  | call c k ih =>
    intro ctx hfree h
    simp only [Trans.run] at h
    split at h
    · rename_i e he
      have : e = Fatal.nestedCommitTransaction := by simpa using h
      subst this
      exact perform_not_nested ctx c he
    · rename_i r ctx1 hp
      exact ih r ctx1 (hfree r) h
  | commit addr inner k _ _ => intro ctx hfree; exact absurd hfree (by simp [Trans.commitFree])


theorem commitTransactionWith_false (addr : Nat)
    (runTrans : GraphicsContext → Except Fatal (Bool × GraphicsContext))
    (ctx ctx2 : GraphicsContext) (hopen : ctx.dataFactory.m_deferredData = none)
    (h : runTrans (GLDataFactory.openTransaction ctx addr) = .ok (false, ctx2)) :
    GLDataFactory.commitTransactionWith addr runTrans ctx =
      .ok (none,
        { dataFactory := { ctx2.dataFactory with m_deferredData := none }
          commandQueue :=
            match ctx2.dataFactory.m_deferredData with
            | some d => d.dtor ctx2.commandQueue
            | none => ctx2.commandQueue }) := by
  unfold GLDataFactory.commitTransactionWith
  rw [if_neg (by rw [hopen]; simp), h]

theorem commitTransactionWith_true (addr : Nat)
    (runTrans : GraphicsContext → Except Fatal (Bool × GraphicsContext))
    (ctx ctx2 : GraphicsContext) (retval : GLData)
    (hopen : ctx.dataFactory.m_deferredData = none)
    (h : runTrans (GLDataFactory.openTransaction ctx addr) = .ok (true, ctx2))
    (hd : ctx2.dataFactory.m_deferredData = some retval) :
    GLDataFactory.commitTransactionWith addr runTrans ctx =
      .ok (some retval.addr,
        { ctx2 with
          dataFactory :=
            { ctx2.dataFactory with
              m_deferredData := none
              m_committedData :=
                GLDataFactory.insertCommitted ctx2.dataFactory.m_committedData retval } }) := by
  unfold GLDataFactory.commitTransactionWith
  rw [if_neg (by rw [hopen]; simp), h]
  simp only [hd]

theorem insertCommitted_fresh (registry : List GLData) (retval : GLData)
    (hfresh : ∀ d ∈ registry, d.addr ≠ retval.addr) :
    GLDataFactory.insertCommitted registry retval = registry ++ [retval] := by
  unfold GLDataFactory.insertCommitted
  rw [if_neg]
  simp only [List.any_eq_true, beq_iff_eq, not_exists, not_and]
  exact fun d hd => hfresh d hd

/-- With no transaction open, a fatal error of `commitTransaction` is the fatal error that
ended the transaction function. -/
theorem commitTransactionWith_error (addr : Nat)
    (runTrans : GraphicsContext → Except Fatal (Bool × GraphicsContext))
    (ctx : GraphicsContext) (e : Fatal) (hopen : ctx.dataFactory.m_deferredData = none)
    (h : GLDataFactory.commitTransactionWith addr runTrans ctx = .error e) :
    runTrans (GLDataFactory.openTransaction ctx addr) = .error e := by
  unfold GLDataFactory.commitTransactionWith at h
  rw [if_neg (by rw [hopen]; simp)] at h
  cases hrun : runTrans (GLDataFactory.openTransaction ctx addr) with
  | error e1 =>
    rw [hrun] at h
    simpa using h
  | ok res =>
    obtain ⟨b, ctx2⟩ := res
    rw [hrun] at h
    cases b with
    | false => simp at h
    | true =>
      simp only at h
      split at h <;> simp at h

/-! ## Transactions -/

/-- C12: let no transaction be open and let the transaction function return `false`, whatever
context calls it made before.  Then `commitTransaction` returns the null token, the committed
registry afterwards is exactly the registry before the call, and the current-transaction
target is null again. -/
theorem C12_failed_transaction_keeps_registry (ctx ctx2 : GraphicsContext) (addr : Nat)
    (trans : Trans) (hopen : ctx.dataFactory.m_deferredData = none)
    (hfalse : trans.run (GLDataFactory.openTransaction ctx addr) = .ok (false, ctx2)) :
    ∃ ctx3, GLDataFactory.commitTransaction addr trans ctx = .ok (none, ctx3) ∧
      ctx3.dataFactory.m_committedData = ctx.dataFactory.m_committedData ∧
      ctx3.dataFactory.m_deferredData = none := by
  have hf := (run_frame trans (GLDataFactory.openTransaction ctx addr) ctx2 { addr := addr }
    false rfl hfalse).1
  refine ⟨_, commitTransactionWith_false addr (fun c => trans.run c) ctx ctx2 hopen hfalse,
    ?_, rfl⟩
  show ctx2.dataFactory.m_committedData = ctx.dataFactory.m_committedData
  rw [hf]
  rfl

/-- Witness for C12: a transaction that creates a static buffer and a render texture, fails to
compile its vertex shader and returns `false`, run against a registry holding one set. -/
theorem C12_failed_transaction_keeps_registry_witness :
    ({ dataFactory := { m_committedData := [{ addr := 7 }] } } : GraphicsContext
      ).dataFactory.m_deferredData = none ∧
    ∃ ctx3,
      GLDataFactory.commitTransaction 10
        (Trans.call (FactoryCall.newStaticBuffer 1 [1, 2, 3, 4] 2 2 100) fun _ =>
          Trans.call (FactoryCall.newRenderTexture 8 8 true false (1, 2, 3, 4) 200) fun _ =>
          Trans.call
            (FactoryCall.newShaderPipeline
              { vertSource := 0, fragSource := 0, texCount := 0, texNames := [],
                uniformBlockCount := 0, uniformBlockNames := [], srcFac := 1, dstFac := 0,
                prim := 0, depthTest := true, depthWrite := true, backfaceCulling := true }
              { vert := 1, frag := 2, prog := 3, vertStatus := 0, fragStatus := 1,
                linkStatus := 1, uniformBlockIndex := fun _ => 0 } 300) fun p =>
          Trans.ret p.isSome)
        { dataFactory := { m_committedData := [{ addr := 7 }] } } = .ok (none, ctx3) ∧
      ctx3.dataFactory.m_committedData = [{ addr := 7 }] ∧
      ctx3.dataFactory.m_deferredData = none :=
  ⟨rfl,
    C12_failed_transaction_keeps_registry
      { dataFactory := { m_committedData := [{ addr := 7 }] } } _ 10 _ rfl rfl⟩

/-- C13: let no transaction be open, let `addr`, the address of the new set, be the address of
no committed set, and let the transaction function return `true`.  Then `commitTransaction`
returns a token for a set `D` at `addr` which is not in the registry `R` before the call; the
registry afterwards is `R` with `D` added and nothing else; and each list of `D` holds exactly
the resources built by the completed context calls of its kind, in call order, one resource
for every call that returned an object and none for a call that returned `nullptr`. -/
theorem C13_successful_transaction_publishes_set (ctx ctx2 : GraphicsContext) (addr : Nat)
    (trans : Trans) (hopen : ctx.dataFactory.m_deferredData = none)
    (hfresh : ∀ d ∈ ctx.dataFactory.m_committedData, d.addr ≠ addr)
    (htrue : trans.run (GLDataFactory.openTransaction ctx addr) = .ok (true, ctx2)) :
    ∃ D ctx3, GLDataFactory.commitTransaction addr trans ctx = .ok (some addr, ctx3) ∧
      D.addr = addr ∧
      D ∉ ctx.dataFactory.m_committedData ∧
      ctx3.dataFactory.m_committedData = ctx.dataFactory.m_committedData ++ [D] ∧
      (∀ x, x ∈ ctx3.dataFactory.m_committedData ↔
        x ∈ ctx.dataFactory.m_committedData ∨ x = D) ∧
      D.m_SPs =
        (trans.calls (GLDataFactory.openTransaction ctx addr)).filterMap FactoryCall.builtSP ∧
      D.m_SBinds =
        (trans.calls (GLDataFactory.openTransaction ctx addr)).filterMap
          (FactoryCall.builtSBind ctx.dataFactory.ndebug) ∧
      D.m_SBufs =
        (trans.calls (GLDataFactory.openTransaction ctx addr)).filterMap FactoryCall.builtSBuf ∧
      D.m_DBufs =
        (trans.calls (GLDataFactory.openTransaction ctx addr)).filterMap FactoryCall.builtDBuf ∧
      D.m_STexs =
        (trans.calls (GLDataFactory.openTransaction ctx addr)).filterMap FactoryCall.builtSTex ∧
      D.m_SATexs =
        (trans.calls (GLDataFactory.openTransaction ctx addr)).filterMap FactoryCall.builtSATex ∧
      D.m_DTexs =
        (trans.calls (GLDataFactory.openTransaction ctx addr)).filterMap FactoryCall.builtDTex ∧
      D.m_RTexs =
        (trans.calls (GLDataFactory.openTransaction ctx addr)).filterMap
          (FactoryCall.builtRTex ctx.dataFactory.m_drawSamples) ∧
      D.m_VFmts =
        (trans.calls (GLDataFactory.openTransaction ctx addr)).filterMap FactoryCall.builtVFmt ∧
      D.size =
        ((trans.calls (GLDataFactory.openTransaction ctx addr)).filter
          (fun cr => cr.2.isSome)).length := by
  obtain ⟨hf, hsize⟩ := run_frame trans (GLDataFactory.openTransaction ctx addr) ctx2
    { addr := addr } true rfl htrue
  have hnd : (GLDataFactory.openTransaction ctx addr).dataFactory.ndebug =
      ctx.dataFactory.ndebug := rfl
  have hds : (GLDataFactory.openTransaction ctx addr).dataFactory.m_drawSamples =
      ctx.dataFactory.m_drawSamples := rfl
  rw [hnd, hds] at hf hsize
  have hreg : ctx2.dataFactory.m_committedData = ctx.dataFactory.m_committedData := by
    rw [hf]; rfl
  have hdef : ctx2.dataFactory.m_deferredData =
      some ((trans.calls (GLDataFactory.openTransaction ctx addr)).foldl
        (GLData.register ctx.dataFactory.ndebug ctx.dataFactory.m_drawSamples)
        { addr := addr }) := by
    rw [hf]
  have haddr := foldl_register_addr ctx.dataFactory.ndebug ctx.dataFactory.m_drawSamples
    (trans.calls (GLDataFactory.openTransaction ctx addr)) { addr := addr }
  obtain ⟨l1, l2, l3, l4, l5, l6, l7, l8, l9⟩ :=
    foldl_register_lists ctx.dataFactory.ndebug ctx.dataFactory.m_drawSamples
      (trans.calls (GLDataFactory.openTransaction ctx addr)) { addr := addr }
  have hcommit := commitTransactionWith_true addr (fun c => trans.run c) ctx ctx2 _ hopen htrue
    hdef
  generalize hD : (trans.calls (GLDataFactory.openTransaction ctx addr)).foldl
    (GLData.register ctx.dataFactory.ndebug ctx.dataFactory.m_drawSamples) { addr := addr } = D
    at hcommit haddr l1 l2 l3 l4 l5 l6 l7 l8 l9 hsize
  have haddr' : D.addr = addr := haddr
  have hnot : D ∉ ctx.dataFactory.m_committedData :=
    fun hin => hfresh D hin haddr'
  have hins : GLDataFactory.insertCommitted ctx2.dataFactory.m_committedData D =
      ctx.dataFactory.m_committedData ++ [D] := by
    rw [hreg]
    exact insertCommitted_fresh _ _ (fun d hd => by rw [haddr']; exact hfresh d hd)
  rw [haddr'] at hcommit
  refine ⟨D, _, hcommit, haddr', hnot, hins, ?_, ?_, ?_, ?_, ?_, ?_, ?_, ?_, ?_, ?_, ?_⟩
  · intro x
    show x ∈ GLDataFactory.insertCommitted ctx2.dataFactory.m_committedData D ↔ _
    rw [hins]
    simp
  · simpa using l1
  · simpa using l2
  · simpa using l3
  · simpa using l4
  · simpa using l5
  · simpa using l6
  · simpa using l7
  · simpa using l8
  · simpa using l9
  · rw [hsize]
    simp [GLData.size]

/-- Witness for C13: a transaction that creates a static buffer and a dynamic buffer and
returns `true`, committed at address 10 into a registry holding the set at address 7. -/
theorem C13_successful_transaction_publishes_set_witness :
    ({ dataFactory := { m_committedData := [{ addr := 7 }] } } : GraphicsContext
      ).dataFactory.m_deferredData = none ∧
    (∀ d ∈ ({ dataFactory := { m_committedData := [{ addr := 7 }] } } : GraphicsContext
      ).dataFactory.m_committedData, d.addr ≠ 10) ∧
    ∃ D ctx3,
      GLDataFactory.commitTransaction 10
        (Trans.call (FactoryCall.newStaticBuffer 1 [1, 2, 3, 4] 2 2 100) fun _ =>
          Trans.call (FactoryCall.newDynamicBuffer 3 4 4 (fun _ => 0) (fun _ _ => 0) 200) fun _ =>
          Trans.ret true)
        { dataFactory := { m_committedData := [{ addr := 7 }] } } = .ok (some 10, ctx3) ∧
      D.addr = 10 ∧
      ctx3.dataFactory.m_committedData = [{ addr := 7 }] ++ [D] ∧
      D.size = 2 := by
  have hfresh : ∀ d ∈ ({ dataFactory := { m_committedData := [{ addr := 7 }] } } :
      GraphicsContext).dataFactory.m_committedData, d.addr ≠ 10 := by
    intro d hd
    simp only [List.mem_singleton] at hd
    subst hd
    decide
  obtain ⟨D, ctx3, h1, h2, _, h4, _, _, _, _, _, _, _, _, _, _, h15⟩ :=
    C13_successful_transaction_publishes_set
      { dataFactory := { m_committedData := [{ addr := 7 }] } } _ 10
      (Trans.call (FactoryCall.newStaticBuffer 1 [1, 2, 3, 4] 2 2 100) fun _ =>
        Trans.call (FactoryCall.newDynamicBuffer 3 4 4 (fun _ => 0) (fun _ _ => 0) 200) fun _ =>
        Trans.ret true)
      rfl hfresh rfl
  exact ⟨rfl, hfresh, D, ctx3, h1, h2, h4, h15⟩

/-- C14: whenever `commitTransaction` returns, with a data token or with the null token, the
current-transaction target is null, so the entry check of a following call passes: a
following `commitTransaction` whose function makes no nested call is not rejected as nested.
And it does return whenever it is entered with no transaction open and the transaction
function returns, be it `true` or `false`. -/
theorem C14_target_cleared_on_return (ctx : GraphicsContext) (addr : Nat) (trans : Trans) :
    (∀ token ctx3, GLDataFactory.commitTransaction addr trans ctx = .ok (token, ctx3) →
      ctx3.dataFactory.m_deferredData = none ∧
      ∀ (addr1 : Nat) (trans1 : Trans), trans1.commitFree →
        GLDataFactory.commitTransaction addr1 trans1 ctx3 ≠
          .error Fatal.nestedCommitTransaction) ∧
    (∀ (b : Bool) ctx2, ctx.dataFactory.m_deferredData = none →
      trans.run (GLDataFactory.openTransaction ctx addr) = .ok (b, ctx2) →
      ∃ token ctx3, GLDataFactory.commitTransaction addr trans ctx = .ok (token, ctx3)) := by
  have hclear : ∀ token ctx3,
      GLDataFactory.commitTransaction addr trans ctx = .ok (token, ctx3) →
      ctx3.dataFactory.m_deferredData = none := by
    intro token ctx3 h
    cases hopen : ctx.dataFactory.m_deferredData with
    | some d =>
      rw [GLDataFactory.commitTransaction,
        commitTransactionWith_open _ _ _ (by rw [hopen]; rfl)] at h
      simp at h
    | none =>
      cases hrun : trans.run (GLDataFactory.openTransaction ctx addr) with
      | error e =>
        simp [GLDataFactory.commitTransaction, GLDataFactory.commitTransactionWith, hopen,
          hrun] at h
      | ok res =>
        obtain ⟨b, ctx2⟩ := res
        cases b with
        | false =>
          rw [GLDataFactory.commitTransaction,
            commitTransactionWith_false addr _ ctx ctx2 hopen hrun] at h
          simp only [Except.ok.injEq, Prod.mk.injEq] at h
          rw [← h.2]
        | true =>
          obtain ⟨hf, _⟩ := run_frame trans (GLDataFactory.openTransaction ctx addr) ctx2
            { addr := addr } true rfl hrun
          obtain ⟨D, hdef⟩ : ∃ D, ctx2.dataFactory.m_deferredData = some D := ⟨_, by rw [hf]⟩
          rw [GLDataFactory.commitTransaction,
            commitTransactionWith_true addr _ ctx ctx2 D hopen hrun hdef] at h
          simp only [Except.ok.injEq, Prod.mk.injEq] at h
          rw [← h.2]
  refine ⟨fun token ctx3 h => ⟨hclear token ctx3 h, fun addr1 trans1 hfree hbad => ?_⟩,
    fun b ctx2 hopen hrun => ?_⟩
  · have hnone := hclear token ctx3 h
    exact run_not_nested trans1 _ hfree
      (commitTransactionWith_error addr1 (fun c => trans1.run c) ctx3 _ hnone hbad)
  · cases b with
    | false =>
      exact ⟨_, _, commitTransactionWith_false addr (fun c => trans.run c) ctx ctx2 hopen hrun⟩
    | true =>
      obtain ⟨hf, _⟩ := run_frame trans (GLDataFactory.openTransaction ctx addr) ctx2
        { addr := addr } true rfl hrun
      obtain ⟨D, hdef⟩ : ∃ D, ctx2.dataFactory.m_deferredData = some D := ⟨_, by rw [hf]⟩
      exact ⟨_, _,
        commitTransactionWith_true addr (fun c => trans.run c) ctx ctx2 D hopen hrun hdef⟩

/-- Witness for C14: a transaction that creates a static buffer and returns `false`, entered
with no transaction open, returns and leaves the current-transaction target null. -/
theorem C14_target_cleared_on_return_witness :
    ({} : GraphicsContext).dataFactory.m_deferredData = none ∧
    ∃ token ctx3,
      GLDataFactory.commitTransaction 10
        (Trans.call (FactoryCall.newStaticBuffer 1 [1, 2, 3, 4] 2 2 100) fun _ =>
          Trans.ret false) {} = .ok (token, ctx3) ∧
      ctx3.dataFactory.m_deferredData = none := by
  obtain ⟨token, ctx3, h⟩ :=
    (C14_target_cleared_on_return {} 10
      (Trans.call (FactoryCall.newStaticBuffer 1 [1, 2, 3, 4] 2 2 100) fun _ =>
        Trans.ret false)).2 false _ rfl rfl
  exact ⟨rfl, token, ctx3, h,
    ((C14_target_cleared_on_return {} 10
      (Trans.call (FactoryCall.newStaticBuffer 1 [1, 2, 3, 4] 2 2 100) fun _ =>
        Trans.ret false)).1 token ctx3 h).1⟩

/-- C15: `commitTransaction` entered while the current-transaction target is non-null reports
the fatal nested-usage error, whatever the transaction function; entered while it is null it
does not report that error unless the transaction function itself makes a nested call; and a
`commitTransaction` call made from inside a transaction function (where the target is set) is
always rejected, so that the enclosing call ends with the same fatal error. -/
theorem C15_nested_commit_is_fatal (ctx : GraphicsContext) (addr : Nat) (trans : Trans) :
    (ctx.dataFactory.m_deferredData.isSome = true →
      GLDataFactory.commitTransaction addr trans ctx = .error Fatal.nestedCommitTransaction) ∧
    (ctx.dataFactory.m_deferredData = none → trans.commitFree →
      GLDataFactory.commitTransaction addr trans ctx ≠ .error Fatal.nestedCommitTransaction) ∧
    (∀ (addr1 : Nat) (inner : Trans) (k : Option Nat → Trans),
      ctx.dataFactory.m_deferredData.isSome = true →
      (Trans.commit addr1 inner k).run ctx = .error Fatal.nestedCommitTransaction) ∧
    (∀ (addr1 : Nat) (inner : Trans) (k : Option Nat → Trans),
      ctx.dataFactory.m_deferredData = none →
      GLDataFactory.commitTransaction addr (Trans.commit addr1 inner k) ctx =
        .error Fatal.nestedCommitTransaction) := by
  refine ⟨fun h => commitTransactionWith_open _ _ _ h, fun hopen hfree hbad => ?_,
    fun addr1 inner k h => run_commit_open addr1 inner k ctx h, fun addr1 inner k hopen => ?_⟩
  · exact run_not_nested trans _ hfree
      (commitTransactionWith_error addr (fun c => trans.run c) ctx _ hopen hbad)
  · have hrun : (Trans.commit addr1 inner k).run (GLDataFactory.openTransaction ctx addr) =
        .error Fatal.nestedCommitTransaction :=
      run_commit_open addr1 inner k _ rfl
    unfold GLDataFactory.commitTransaction GLDataFactory.commitTransactionWith
    rw [if_neg (by rw [hopen]; simp)]
    simp only [hrun]

/-- Witness for C15: with a set already installed as the current-transaction target the call is
rejected; from the idle factory a transaction function that calls `commitTransaction` itself
makes the outer call end with the nested-usage error. -/
theorem C15_nested_commit_is_fatal_witness :
    (({ dataFactory := { m_deferredData := some { addr := 5 } } } : GraphicsContext
        ).dataFactory.m_deferredData.isSome = true ∧
      GLDataFactory.commitTransaction 10 (Trans.ret true)
        { dataFactory := { m_deferredData := some { addr := 5 } } } =
          .error Fatal.nestedCommitTransaction) ∧
    (({} : GraphicsContext).dataFactory.m_deferredData = none ∧
      GLDataFactory.commitTransaction 10
        (Trans.commit 11 (Trans.ret true) fun _ => Trans.ret true) {} =
          .error Fatal.nestedCommitTransaction) :=
  ⟨⟨rfl,
      (C15_nested_commit_is_fatal { dataFactory := { m_deferredData := some { addr := 5 } } } 10
        (Trans.ret true)).1 rfl⟩,
    ⟨rfl,
      (C15_nested_commit_is_fatal {} 10 (Trans.ret true)).2.2.2 11 (Trans.ret true)
        (fun _ => Trans.ret true) rfl⟩⟩

/-! ## Destroying committed sets -/

/-- C16: for every registry `R` and every set address `d`, after `destroyData(d)` the registry
is `R` without the set at `d`: that set is absent, every other set of `R` is still present,
unchanged and in the same order, and nothing was added; the current-transaction target is
untouched.  After `destroyAllData()` the registry is empty. -/
theorem C16_destroy_data (ctx : GraphicsContext) (d : Nat) :
    (GLDataFactory.destroyData ctx d).dataFactory.m_committedData =
      ctx.dataFactory.m_committedData.filter (fun x => x.addr != d) ∧
    (∀ x, x ∈ (GLDataFactory.destroyData ctx d).dataFactory.m_committedData ↔
      x ∈ ctx.dataFactory.m_committedData ∧ x.addr ≠ d) ∧
    (∀ x ∈ (GLDataFactory.destroyData ctx d).dataFactory.m_committedData, x.addr ≠ d) ∧
    (GLDataFactory.destroyData ctx d).dataFactory.m_deferredData =
      ctx.dataFactory.m_deferredData ∧
    (GLDataFactory.destroyAllData ctx).dataFactory.m_committedData = [] := by
  refine ⟨rfl, fun x => ?_, fun x hx => ?_, rfl, rfl⟩
  · show x ∈ ctx.dataFactory.m_committedData.filter (fun x => x.addr != d) ↔ _
    simp [List.mem_filter]
  · have : x ∈ ctx.dataFactory.m_committedData.filter (fun x => x.addr != d) := hx
    simp only [List.mem_filter, bne_iff_ne, ne_eq] at this
    exact this.2

/-! ## Pipeline creation -/

/-- C17: a `newShaderPipeline` call in which shader-object creation (a zero name for the vertex
shader, the fragment shader or the program), vertex compilation, fragment compilation or
program linking fails returns `nullptr` and leaves the whole state, the in-progress set
included, unchanged.  When all four steps succeed it returns the new object and the
in-progress set has exactly one more pipeline, appended to `m_SPs`, all other lists being
unchanged.  In every case an object is returned only if all four steps succeeded. -/
theorem C17_pipeline_failure_registers_nothing (ctx : GraphicsContext)
    (args : ShaderPipelineArgs) (driver : ShaderDriver) (addr : Nat) :
    ((driver.vert = 0 ∨ driver.frag = 0 ∨ driver.prog = 0 ∨ driver.vertStatus ≠ GL_TRUE ∨
        driver.fragStatus ≠ GL_TRUE ∨ driver.linkStatus ≠ GL_TRUE) →
      Context.newShaderPipeline ctx args driver addr = (none, ctx)) ∧
    ((driver.vert ≠ 0 ∧ driver.frag ≠ 0 ∧ driver.prog ≠ 0 ∧ driver.vertStatus = GL_TRUE ∧
        driver.fragStatus = GL_TRUE ∧ driver.linkStatus = GL_TRUE) →
      ∃ p : GLShaderPipeline,
        p.m_vert = driver.vert ∧ p.m_frag = driver.frag ∧ p.m_prog = driver.prog ∧
        Context.newShaderPipeline ctx args driver addr =
          (some addr,
            { ctx with
              dataFactory :=
                { ctx.dataFactory with
                  m_deferredData :=
                    ctx.dataFactory.m_deferredData.map
                      (fun d => { d with m_SPs := d.m_SPs ++ [p] }) } })) ∧
    ((Context.newShaderPipeline ctx args driver addr).1.isSome = true →
      driver.vert ≠ 0 ∧ driver.frag ≠ 0 ∧ driver.prog ≠ 0 ∧ driver.vertStatus = GL_TRUE ∧
        driver.fragStatus = GL_TRUE ∧ driver.linkStatus = GL_TRUE) := by
  have hinit : (GLShaderPipeline.initObjects {} driver).1 =
      decide (¬ (driver.vert = 0 ∨ driver.frag = 0 ∨ driver.prog = 0)) := by
    unfold GLShaderPipeline.initObjects
    by_cases h : driver.vert = 0 ∨ driver.frag = 0 ∨ driver.prog = 0
    · simp [h]
    · simp [h]
  have hinit2 : ¬ (driver.vert = 0 ∨ driver.frag = 0 ∨ driver.prog = 0) →
      (GLShaderPipeline.initObjects {} driver).2 =
        { m_vert := driver.vert, m_frag := driver.frag, m_prog := driver.prog } := by
    intro h
    unfold GLShaderPipeline.initObjects
    simp [h]
  refine ⟨fun hfail => ?_, fun hok => ?_, fun hsome => ?_⟩
  · unfold Context.newShaderPipeline
    simp only [hinit]
    by_cases h0 : driver.vert = 0 ∨ driver.frag = 0 ∨ driver.prog = 0
    · simp [h0]
    · have h1 : driver.vertStatus ≠ GL_TRUE ∨ driver.fragStatus ≠ GL_TRUE ∨
          driver.linkStatus ≠ GL_TRUE := by tauto
      simp only [h0, not_false_eq_true, decide_True, Bool.not_true, Bool.false_eq_true,
        if_false]
      split_ifs <;> first | rfl | (exfalso; tauto)
  · obtain ⟨a1, a2, a3, a4, a5, a6⟩ := hok
    have h0 : ¬ (driver.vert = 0 ∨ driver.frag = 0 ∨ driver.prog = 0) := by tauto
    refine ⟨Context.linkedPipeline (GLShaderPipeline.initObjects {} driver).2 args driver,
      ?_, ?_, ?_, ?_⟩
    · rw [hinit2 h0]; rfl
    · rw [hinit2 h0]; rfl
    · rw [hinit2 h0]; rfl
    · unfold Context.newShaderPipeline
      simp only [hinit, h0, not_false_eq_true, decide_True, Bool.not_true, Bool.false_eq_true,
        if_false, a4, a5, a6, ne_eq, not_true_eq_false]
      rfl
  · unfold Context.newShaderPipeline at hsome
    simp only [hinit] at hsome
    by_cases h0 : driver.vert = 0 ∨ driver.frag = 0 ∨ driver.prog = 0
    · simp [h0] at hsome
    · simp only [h0, not_false_eq_true, decide_True, Bool.not_true, Bool.false_eq_true,
        if_false] at hsome
      split_ifs at hsome with h1 h2 h3
      · simp at hsome
      · simp at hsome
      · simp at hsome
      · exact ⟨by tauto, by tauto, by tauto, not_not.mp h1, not_not.mp h2, not_not.mp h3⟩

/-- Witness for C17: the driver hands out three names and compiles the vertex shader but not
the fragment shader; the call returns `nullptr` and the in-progress set stays empty. -/
theorem C17_pipeline_failure_registers_nothing_witness :
    ((1 : Nat) = 0 ∨ (2 : Nat) = 0 ∨ (3 : Nat) = 0 ∨ (1 : Nat) ≠ GL_TRUE ∨ (0 : Nat) ≠ GL_TRUE ∨
      (1 : Nat) ≠ GL_TRUE) ∧
    Context.newShaderPipeline { dataFactory := { m_deferredData := some { addr := 10 } } }
      { vertSource := 0, fragSource := 0, texCount := 0, texNames := [],
        uniformBlockCount := 0, uniformBlockNames := [], srcFac := 1, dstFac := 0,
        prim := 0, depthTest := true, depthWrite := true, backfaceCulling := true }
      { vert := 1, frag := 2, prog := 3, vertStatus := 1, fragStatus := 0,
        linkStatus := 1, uniformBlockIndex := fun _ => 0 } 300 =
      (none, { dataFactory := { m_deferredData := some { addr := 10 } } }) :=
  ⟨by decide,
    (C17_pipeline_failure_registers_nothing
      { dataFactory := { m_deferredData := some { addr := 10 } } }
      { vertSource := 0, fragSource := 0, texCount := 0, texNames := [],
        uniformBlockCount := 0, uniformBlockNames := [], srcFac := 1, dstFac := 0,
        prim := 0, depthTest := true, depthWrite := true, backfaceCulling := true }
      { vert := 1, frag := 2, prog := 3, vertStatus := 1, fragStatus := 0,
        linkStatus := 1, uniformBlockIndex := fun _ => 0 } 300).1 (by decide)⟩

/-! ## Construction errors -/

/-- In a debug build the offset loop stops with the fatal error at the first offset that is not
a multiple of 256. -/
theorem fillOffsets_first_unaligned (offs sizes : List Nat) (todo : Nat) :
    ∀ (i : Nat) (acc : List (Nat × Nat)),
      (∃ j, i ≤ j ∧ j < i + todo ∧ offs.getD j 0 % 256 ≠ 0) →
      ∃ j, i ≤ j ∧ j < i + todo ∧ offs.getD j 0 % 256 ≠ 0 ∧
        (∀ k, i ≤ k → k < j → offs.getD k 0 % 256 = 0) ∧
        GLShaderDataBinding.fillOffsets false offs sizes todo i acc =
          .error (Fatal.unalignedUniformOffset j) := by
  induction todo with
  | zero =>
    intro i acc h
    obtain ⟨j, h1, h2, _⟩ := h
    omega
  | succ n ih =>
    intro i acc h
    by_cases hi : offs.getD i 0 % 256 = 0
    · obtain ⟨j, h1, h2, h3⟩ := h
      have hne : j ≠ i := fun e => h3 (e ▸ hi)
      obtain ⟨j1, g1, g2, g3, g4, g5⟩ :=
        ih (i + 1)
          (acc ++ [(offs.getD i 0,
            ((sizes.getD i 0 + 255) % SIZE_MAX1) &&& (SIZE_MAX1 - 256))])
          ⟨j, by omega, by omega, h3⟩
      refine ⟨j1, by omega, by omega, g3, fun k hk1 hk2 => ?_, ?_⟩
      · by_cases hk : k = i
        · rw [hk]; exact hi
        · exact g4 k (by omega) hk2
      · rw [GLShaderDataBinding.fillOffsets]
        simp only [Bool.not_false, Bool.true_and, hi, bne_self_eq_false, Bool.false_eq_true,
          if_false]
        exact g5
    · refine ⟨i, le_refl _, by omega, hi, fun k hk1 hk2 => by omega, ?_⟩
      have hc : (!false && offs.getD i 0 % 256 != 0) = true := by
        rw [Bool.not_false, Bool.true_and]
        exact bne_iff_ne.mpr hi
      rw [GLShaderDataBinding.fillOffsets, if_pos hc]

/-- In a build with `NDEBUG` defined the offset loop never fails. -/
theorem fillOffsets_release (offs sizes : List Nat) (todo : Nat) :
    ∀ (i : Nat) (acc : List (Nat × Nat)),
      ∃ res, GLShaderDataBinding.fillOffsets true offs sizes todo i acc = .ok res := by
  induction todo with
  | zero => intro i acc; exact ⟨acc, rfl⟩
  | succ n ih =>
    intro i acc
    rw [GLShaderDataBinding.fillOffsets]
    simp only [Bool.not_true, Bool.false_and, Bool.false_eq_true, if_false]
    exact ih _ _

/-- C18 (as the code behaves): in a debug build (`ndebug = false`), when the call supplies both
the offsets and the sizes and one of the first `ubufCount` offsets is not a multiple of 256,
`newShaderDataBinding` ends with the fatal error for the first such index.  In a build with
`NDEBUG` defined, and in any build for a call that supplies no sizes or no offsets, no
alignment error is reported. -/
theorem C18_unaligned_offset_fatal_in_debug (ctx : GraphicsContext)
    (args : ShaderDataBindingArgs) (addr : Nat) :
    (∀ offs sizes, ctx.dataFactory.ndebug = false → args.ubufOffs = some offs →
      args.ubufSizes = some sizes →
      (∃ i, i < args.ubufCount ∧ offs.getD i 0 % 256 ≠ 0) →
      ∃ i, i < args.ubufCount ∧ offs.getD i 0 % 256 ≠ 0 ∧
        (∀ j, j < i → offs.getD j 0 % 256 = 0) ∧
        Context.newShaderDataBinding ctx args addr =
          .error (Fatal.unalignedUniformOffset i)) ∧
    ((ctx.dataFactory.ndebug = true ∨ args.ubufOffs = none ∨ args.ubufSizes = none) →
      ∀ i, Context.newShaderDataBinding ctx args addr ≠
        .error (Fatal.unalignedUniformOffset i)) := by
  constructor
  · intro offs sizes hnd ho hs hmis
    obtain ⟨i0, hi0, hm0⟩ := hmis
    obtain ⟨j, _, j2, j3, j4, j5⟩ :=
      fillOffsets_first_unaligned offs sizes args.ubufCount 0 [] ⟨i0, by omega, by omega, hm0⟩
    refine ⟨j, by omega, j3, fun k hk => j4 k (by omega) hk, ?_⟩
    unfold Context.newShaderDataBinding GLShaderDataBinding.ctor
    simp only [hnd, ho, hs, j5]
  · intro hcase i hbad
    unfold Context.newShaderDataBinding at hbad
    split at hbad
    · rename_i e he
      have hee : e = Fatal.unalignedUniformOffset i := by simpa using hbad
      subst hee
      unfold GLShaderDataBinding.ctor at he
      rcases hcase with hnd | ho | hs
      · rw [hnd] at he
        cases hO : args.ubufOffs with
        | none =>
          simp only [hO] at he
          split at he
          · rename_i e1 he1
            obtain ⟨j, hj⟩ := fillBuffers_error _ _ _ _ _ _ he1
            subst hj
            simp at he
          · simp at he
        | some offs =>
          cases hS : args.ubufSizes with
          | none =>
            simp only [hO, hS] at he
            split at he
            · rename_i e1 he1
              obtain ⟨j, hj⟩ := fillBuffers_error _ _ _ _ _ _ he1
              subst hj
              simp at he
            · simp at he
          | some sizes =>
            obtain ⟨res, hres⟩ := fillOffsets_release offs sizes args.ubufCount 0 []
            simp only [hO, hS, hres] at he
            split at he
            · rename_i e1 he1
              obtain ⟨j, hj⟩ := fillBuffers_error _ _ _ _ _ _ he1
              subst hj
              simp at he
            · simp at he
      · simp only [ho] at he
        split at he
        · rename_i e1 he1
          obtain ⟨j, hj⟩ := fillBuffers_error _ _ _ _ _ _ he1
          subst hj
          simp at he
        · simp at he
      · cases hO : args.ubufOffs with
        | none =>
          simp only [hO] at he
          split at he
          · rename_i e1 he1
            obtain ⟨j, hj⟩ := fillBuffers_error _ _ _ _ _ _ he1
            subst hj
            simp at he
          · simp at he
        | some offs =>
          simp only [hO, hs] at he
          split at he
          · rename_i e1 he1
            obtain ⟨j, hj⟩ := fillBuffers_error _ _ _ _ _ _ he1
            subst hj
            simp at he
          · simp at he
    · simp at hbad

/-- Witness for C18: a debug build, two uniform ranges with offsets 256 and 3: the call ends
with the fatal error for index 1. -/
theorem C18_unaligned_offset_fatal_in_debug_witness :
    ({ dataFactory := { m_deferredData := some { addr := 10 } } } : GraphicsContext
      ).dataFactory.ndebug = false ∧
    (∃ i, i < 2 ∧ [256, 3].getD i 0 % 256 ≠ 0) ∧
    ∃ i, i < 2 ∧ [256, 3].getD i 0 % 256 ≠ 0 ∧ (∀ j, j < i → [256, 3].getD j 0 % 256 = 0) ∧
      Context.newShaderDataBinding { dataFactory := { m_deferredData := some { addr := 10 } } }
        { pipeline := 1, vtxFormat := 2, ubufCount := 2, ubufs := [5, 6],
          ubufOffs := some [256, 3], ubufSizes := some [4, 257], texCount := 0, texs := [] }
        300 = .error (Fatal.unalignedUniformOffset i) :=
  ⟨rfl, ⟨1, by decide, by decide⟩,
    (C18_unaligned_offset_fatal_in_debug
      { dataFactory := { m_deferredData := some { addr := 10 } } }
      { pipeline := 1, vtxFormat := 2, ubufCount := 2, ubufs := [5, 6],
        ubufOffs := some [256, 3], ubufSizes := some [4, 257], texCount := 0, texs := [] }
      300).1 [256, 3] [4, 257] rfl rfl rfl ⟨1, by decide, by decide⟩⟩

/-- C18 fails as stated: the offset 1 is not a multiple of 256, yet in a build with `NDEBUG`
defined the binding is constructed (with the range `(1, 256)`), and in a debug build it is
constructed as well when the call supplies the offsets without the sizes. -/
theorem C18_unaligned_offset_accepted :
    1 % 256 ≠ 0 ∧
    GLShaderDataBinding.ctor true 1 2 1 [5] (some [1]) (some [4]) 0 [] =
      .ok { m_pipeline := 1, m_vtxFormat := 2, m_ubufCount := 1, m_ubufs := [5],
            m_ubufOffs := [(1, 256)], m_texCount := 0, m_texs := [] } ∧
    GLShaderDataBinding.ctor false 1 2 1 [5] (some [1]) none 0 [] =
      .ok { m_pipeline := 1, m_vtxFormat := 2, m_ubufCount := 1, m_ubufs := [5],
            m_ubufOffs := [], m_texCount := 0, m_texs := [] } ∧
    (Context.newShaderDataBinding
        { dataFactory := { m_deferredData := some { addr := 10 }, ndebug := true } }
        { pipeline := 1, vtxFormat := 2, ubufCount := 1, ubufs := [5], ubufOffs := some [1],
          ubufSizes := some [4], texCount := 0, texs := [] } 300).toOption.isSome = true := by
  refine ⟨by decide, rfl, rfl, rfl⟩

/-- C19 (as the code behaves): `newStaticTexture` ends with the fatal error for every format
other than RGBA8, I8 and DXT1, and `newDynamicTexture` for every format other than RGBA8 and
I8; `newStaticArrayTexture` never does: for DXT1 (a format its constructor does not handle) it
returns an object and registers an array texture for which no image was specified. -/
theorem C19_array_texture_accepts_unsupported_format :
    (∀ (ctx : GraphicsContext) (width height mips : Nat) (fmt : TextureFormat)
        (data : List Nat) (sz addr : Nat),
      fmt ≠ TextureFormat.RGBA8 → fmt ≠ TextureFormat.I8 → fmt ≠ TextureFormat.DXT1 →
      Context.newStaticTexture ctx width height mips fmt data sz addr =
        .error Fatal.unsupportedTexFormat) ∧
    (∀ (ctx : GraphicsContext) (width height : Nat) (fmt : TextureFormat)
        (cpuIndet : Nat → Nat) (gpuIndet : Nat → Nat → Nat) (addr : Nat),
      fmt ≠ TextureFormat.RGBA8 → fmt ≠ TextureFormat.I8 →
      Context.newDynamicTexture ctx width height fmt cpuIndet gpuIndet addr =
        .error Fatal.unsupportedTexFormat) ∧
    Context.perform { dataFactory := { m_deferredData := some { addr := 10 } } }
        (FactoryCall.newStaticArrayTexture 4 4 1 TextureFormat.DXT1 [] 0 300) =
      .ok (some 300,
        { dataFactory :=
            { m_deferredData := some { addr := 10, m_SATexs := [{ m_image := none }] } } }) := by
  refine ⟨?_, ?_, rfl⟩
  · intro ctx width height mips fmt data sz addr h1 h2 h3
    cases fmt with
    | RGBA8 => exact absurd rfl h1
    | I8 => exact absurd rfl h2
    | DXT1 => exact absurd rfl h3
    | other tag => rfl
  · intro ctx width height fmt cpuIndet gpuIndet addr h1 h2
    cases fmt with
    | RGBA8 => exact absurd rfl h1
    | I8 => exact absurd rfl h2
    | DXT1 => rfl
    | other tag => rfl

/-! ## The validity mask as an invariant -/

/-- In every reachable state of a dynamic buffer a set validity bit marks a slot that holds the
current staging bytes. -/
theorem GLGraphicsBufferD.valid_slot_current (b : GLGraphicsBufferD)
    (hb : GLGraphicsBufferD.Reachable b) :
    ∀ i, i < 3 → b.m_validMask.testBit i = true → b.m_bufs.get? i = some b.m_cpuBuf := by
  induction hb with
  | ctor use sz cpuIndet gpuIndet =>
    intro i _ h
    have : Nat.testBit 0 i = true := h
    simp at this
  | load b data sz _ _ =>
    intro i _ h
    have : Nat.testBit 0 i = true := h
    simp at this
  | mapWriteUnmap b hint bytes _ _ _ =>
    intro i _ h
    have : Nat.testBit 0 i = true := h
    simp at this
  | update b j _ hj ih =>
    intro i hi h
    cases hbit : b.m_validMask.testBit j with
    | true =>
      rw [GLGraphicsBufferD.update_of_set b j hbit] at h ⊢
      exact ih i hi h
    | false =>
      rw [GLGraphicsBufferD.update_of_clear b j hbit] at h ⊢
      by_cases hij : i = j
      · subst hij
        exact Arr3.get?_set_self _ _ _ hi
      · have h1 : (b.m_validMask ||| 1 <<< j).testBit i = true := h
        rw [testBit_lor_slot] at h1
        have hne : ¬ (j = i) := fun e => hij e.symm
        simp only [hne, decide_False, Bool.or_false] at h1
        show (b.m_bufs.set j b.m_cpuBuf).get? i = some b.m_cpuBuf
        rw [Arr3.get?_set_ne _ _ _ _ hij]
        exact ih i hi h1

/-- In every reachable state of a dynamic texture a set validity bit marks a slot that holds
the current staging bytes. -/
theorem GLTextureD.tex_valid_slot_current (t : GLTextureD) (ht : GLTextureD.Reachable t) :
    ∀ i, i < 3 → t.m_validMask.testBit i = true → t.m_texs.get? i = some t.m_cpuBuf := by
  induction ht with
  | ctor width height fmt cpuIndet gpuIndet t hc =>
    intro i _ h
    unfold GLTextureD.ctor at hc
    split at hc
    · simp at hc
    · simp only [Option.some.injEq] at hc
      subst hc
      have : Nat.testBit 0 i = true := h
      simp at this
  | load t data sz _ _ =>
    intro i _ h
    have : Nat.testBit 0 i = true := h
    simp at this
  | mapWriteUnmap t hint bytes _ _ _ =>
    intro i _ h
    have : Nat.testBit 0 i = true := h
    simp at this
  | update t j _ hj ih =>
    intro i hi h
    cases hbit : t.m_validMask.testBit j with
    | true =>
      rw [GLTextureD.texUpdate_of_set t j hbit] at h ⊢
      exact ih i hi h
    | false =>
      rw [GLTextureD.texUpdate_of_clear t j hbit] at h ⊢
      by_cases hij : i = j
      · subst hij
        exact Arr3.get?_set_self _ _ _ hi
      · have h1 : (t.m_validMask ||| 1 <<< j).testBit i = true := h
        rw [testBit_lor_slot] at h1
        have hne : ¬ (j = i) := fun e => hij e.symm
        simp only [hne, decide_False, Bool.or_false] at h1
        show (t.m_texs.set j t.m_cpuBuf).get? i = some t.m_cpuBuf
        rw [Arr3.get?_set_ne _ _ _ _ hij]
        exact ih i hi h1

/-- C20 (as the code behaves): in every state of a dynamic buffer or texture reachable from
construction by `load`, `map` / write / `unmap` and `update(i)`, for every slot `i < 3`: if bit
`i` of the validity mask is set, the GPU contents of slot `i` are the current staging bytes
(those of the most recent `load` or mapped write). -/
theorem C20_valid_bit_implies_slot_current :
    (∀ b : GLGraphicsBufferD, GLGraphicsBufferD.Reachable b →
      ∀ i, i < 3 → b.m_validMask.testBit i = true → b.m_bufs.get? i = some b.m_cpuBuf) ∧
    (∀ t : GLTextureD, GLTextureD.Reachable t →
      ∀ i, i < 3 → t.m_validMask.testBit i = true → t.m_texs.get? i = some t.m_cpuBuf) :=
  ⟨fun b hb => GLGraphicsBufferD.valid_slot_current b hb,
    fun t ht => GLTextureD.tex_valid_slot_current t ht⟩

/-- Witness for C20: a two-byte buffer after `load([1, 2])` and `update(0)`: bit 0 is set and
slot 0 holds `[1, 2]`. -/
theorem C20_valid_bit_implies_slot_current_witness :
    GLGraphicsBufferD.Reachable
      (((GLGraphicsBufferD.ctor 1 2 (fun _ => 0) (fun _ _ => 0)).load [1, 2] 2).update 0) ∧
    0 < 3 ∧
    (((GLGraphicsBufferD.ctor 1 2 (fun _ => 0) (fun _ _ => 0)).load [1, 2] 2).update
      0).m_validMask.testBit 0 = true ∧
    (((GLGraphicsBufferD.ctor 1 2 (fun _ => 0) (fun _ _ => 0)).load [1, 2] 2).update
      0).m_bufs.get? 0 =
      some (((GLGraphicsBufferD.ctor 1 2 (fun _ => 0) (fun _ _ => 0)).load [1, 2] 2).update
        0).m_cpuBuf :=
  ⟨.update _ 0 (.load _ _ _ (.ctor 1 2 _ _)) (by decide), by decide, by decide,
    C20_valid_bit_implies_slot_current.1 _
      (.update _ 0 (.load _ _ _ (.ctor 1 2 _ _)) (by decide)) 0 (by decide) (by decide)⟩

/-- C20 fails as stated: after `load([1, 2])`, `update(0)` and a second `load([1, 2])` of the
same bytes, a reachable state, slot 0 still holds exactly the staging bytes of the most recent
`load`, but bit 0 of the validity mask is clear; so "contents equal" does not imply "bit
set". -/
theorem C20_equal_contents_without_valid_bit :
    GLGraphicsBufferD.Reachable
      ((((GLGraphicsBufferD.ctor 1 2 (fun _ => 0) (fun _ _ => 0)).load [1, 2] 2).update 0).load
        [1, 2] 2) ∧
    ((((GLGraphicsBufferD.ctor 1 2 (fun _ => 0) (fun _ _ => 0)).load [1, 2] 2).update 0).load
      [1, 2] 2).m_cpuBuf = [1, 2] ∧
    ¬ (((((GLGraphicsBufferD.ctor 1 2 (fun _ => 0) (fun _ _ => 0)).load [1, 2] 2).update 0).load
          [1, 2] 2).m_bufs.get? 0 =
        some ((((GLGraphicsBufferD.ctor 1 2 (fun _ => 0) (fun _ _ => 0)).load [1, 2] 2).update
          0).load [1, 2] 2).m_cpuBuf ↔
      ((((GLGraphicsBufferD.ctor 1 2 (fun _ => 0) (fun _ _ => 0)).load [1, 2] 2).update 0).load
        [1, 2] 2).m_validMask.testBit 0 = true) := by
  refine ⟨.load _ _ _ (.update _ 0 (.load _ _ _ (.ctor 1 2 _ _)) (by decide)), by decide, ?_⟩
  decide

/-! ## Rounding of uniform range sizes -/

/-- Masking a 64-bit value with `~255` rounds it down to a multiple of 256. -/
theorem and_mask256 (x : Nat) (hx : x < 2 ^ 64) : x &&& (2 ^ 64 - 256) = x / 256 * 256 := by
  apply Nat.eq_of_testBit_eq
  intro i
  have hm : (2 ^ 64 - 256 : Nat) = 2 ^ 8 * (2 ^ 56 - 1) := by norm_num
  have hd : x / 256 * 256 = 2 ^ 8 * (x >>> 8) := by
    rw [Nat.shiftRight_eq_div_pow]; ring
  rw [Nat.testBit_and, hm, hd, Nat.testBit_mul_pow_two, Nat.testBit_mul_pow_two,
    Nat.testBit_two_pow_sub_one, Nat.testBit_shiftRight]
  by_cases h8 : i ≥ 8
  · by_cases h64 : i < 64
    · have e : 8 + (i - 8) = i := by omega
      have : i - 8 < 56 := by omega
      simp [h8, this, e]
    · have hf : x.testBit i = false :=
        Nat.testBit_lt_two_pow (lt_of_lt_of_le hx (Nat.pow_le_pow_right (by norm_num) (by omega)))
      have e : 8 + (i - 8) = i := by omega
      simp [hf, e]
  · simp [h8]

/-- A successful run of the offset loop appends, for each index, the caller's offset and the
masked size. -/
theorem fillOffsets_ok (ndebug : Bool) (offs sizes : List Nat) (todo : Nat) :
    ∀ (i : Nat) (acc res : List (Nat × Nat)),
      GLShaderDataBinding.fillOffsets ndebug offs sizes todo i acc = .ok res →
      res = acc ++ (List.range' i todo).map (fun k =>
        (offs.getD k 0, ((sizes.getD k 0 + 255) % SIZE_MAX1) &&& (SIZE_MAX1 - 256))) := by
  induction todo with
  | zero =>
    intro i acc res h
    rw [GLShaderDataBinding.fillOffsets] at h
    cases h
    simp
  | succ n ih =>
    intro i acc res h
    rw [GLShaderDataBinding.fillOffsets] at h
    split at h
    · cases h
    · rw [ih _ _ _ h, List.range'_succ]
      simp

/-- C24: when `newShaderDataBinding` is given both the offsets and the sizes and returns, the
binding it registers holds one `(offset, size)` pair per uniform range; for every range `i`
whose size `s` satisfies `s + 255 < 2^64` the stored offset is the caller's offset and the
stored size is the least multiple of 256 that is at least `s`: a multiple of 256, at least `s`,
less than `s + 256`, and no larger than any other such multiple. -/
theorem C24_uniform_size_rounded_up (ctx ctx2 : GraphicsContext) (args : ShaderDataBindingArgs)
    (addr : Nat) (r : Option Nat) (offs sizes : List Nat)
    (ho : args.ubufOffs = some offs) (hs : args.ubufSizes = some sizes)
    (hcall : Context.newShaderDataBinding ctx args addr = .ok (r, ctx2)) :
    ∃ b : GLShaderDataBinding,
      GLShaderDataBinding.ctor ctx.dataFactory.ndebug args.pipeline args.vtxFormat
        args.ubufCount args.ubufs args.ubufOffs args.ubufSizes args.texCount args.texs = .ok b ∧
      ctx2.dataFactory =
        ctx.dataFactory.onDeferred (fun d => { d with m_SBinds := d.m_SBinds ++ [b] }) ∧
      b.m_ubufOffs.length = args.ubufCount ∧
      ∀ i, i < args.ubufCount → sizes.getD i 0 + 255 < 2 ^ 64 →
        ∃ off sz, b.m_ubufOffs[i]? = some (off, sz) ∧
          off = offs.getD i 0 ∧
          256 ∣ sz ∧ sizes.getD i 0 ≤ sz ∧ sz < sizes.getD i 0 + 256 ∧
          ∀ m, 256 ∣ m → sizes.getD i 0 ≤ m → sz ≤ m := by
  unfold Context.newShaderDataBinding at hcall
  split at hcall
  · cases hcall
  · rename_i b hb
    refine ⟨b, hb, ?_, ?_⟩
    · cases hcall; rfl
    · unfold GLShaderDataBinding.ctor at hb
      simp only [ho, hs] at hb
      split at hb
      · cases hb
      · rename_i lst hl
        split at hb
        · cases hb
        · rename_i bufs _
          have hb2 := Except.ok.inj hb
          have hl2 := fillOffsets_ok _ _ _ _ _ _ _ hl
          simp only [List.nil_append] at hl2
          subst hb2
          subst hl2
          refine ⟨by simp, ?_⟩
          intro i hi hsz
          have hlt : sizes.getD i 0 + 255 < SIZE_MAX1 := hsz
          have key : ((sizes.getD i 0 + 255) % SIZE_MAX1) &&& (SIZE_MAX1 - 256) =
              (sizes.getD i 0 + 255) / 256 * 256 := by
            rw [Nat.mod_eq_of_lt hlt]
            exact and_mask256 _ hsz
          refine ⟨offs.getD i 0, (sizes.getD i 0 + 255) / 256 * 256, ?_, rfl,
            ⟨(sizes.getD i 0 + 255) / 256, by ring⟩, by omega, by omega, ?_⟩
          · rw [List.getElem?_map, List.getElem?_range' _ _ hi]
            simp only [Option.map_some', Nat.one_mul, Nat.zero_add]
            rw [key]
          · intro m hm hle
            obtain ⟨k, rfl⟩ := hm
            omega

/-- Witness for C24: two ranges with offsets 0 and 256 and sizes 4 and 257; the stored pairs are
`(0, 256)` and `(256, 512)`. -/
theorem C24_uniform_size_rounded_up_witness :
    Context.newShaderDataBinding { dataFactory := { m_deferredData := some { addr := 10 } } }
        { pipeline := 1, vtxFormat := 2, ubufCount := 2, ubufs := [5, 6],
          ubufOffs := some [0, 256], ubufSizes := some [4, 257], texCount := 0, texs := [] }
        300 =
      .ok (some 300,
        { dataFactory :=
            { m_deferredData :=
                some
                  { addr := 10
                    m_SBinds :=
                      [{ m_pipeline := 1, m_vtxFormat := 2, m_ubufCount := 2, m_ubufs := [5, 6],
                         m_ubufOffs := [(0, 256), (256, 512)], m_texCount := 0,
                         m_texs := [] }] } } }) ∧
    ∃ b : GLShaderDataBinding,
      GLShaderDataBinding.ctor false 1 2 2 [5, 6] (some [0, 256]) (some [4, 257]) 0 [] =
        .ok b ∧
      b.m_ubufOffs.length = 2 ∧
      ∀ i, i < 2 → [4, 257].getD i 0 + 255 < 2 ^ 64 →
        ∃ off sz, b.m_ubufOffs[i]? = some (off, sz) ∧
          off = [0, 256].getD i 0 ∧
          256 ∣ sz ∧ [4, 257].getD i 0 ≤ sz ∧ sz < [4, 257].getD i 0 + 256 ∧
          ∀ m, 256 ∣ m → [4, 257].getD i 0 ≤ m → sz ≤ m := by
  refine ⟨rfl, ?_⟩
  obtain ⟨b, h1, _, h3, h4⟩ :=
    C24_uniform_size_rounded_up
      { dataFactory := { m_deferredData := some { addr := 10 } } } _
      { pipeline := 1, vtxFormat := 2, ubufCount := 2, ubufs := [5, 6],
        ubufOffs := some [0, 256], ubufSizes := some [4, 257], texCount := 0, texs := [] }
      300 _ [0, 256] [4, 257] rfl rfl rfl
  exact ⟨b, h1, h3, h4⟩

/-! ## The validity mask and the upload log -/

theorem lastUpload_append (log : List (Nat × List Nat)) (j i : Nat) (x : List Nat) :
    lastUpload (log ++ [(j, x)]) i = if j = i then some x else lastUpload log i := by
  unfold lastUpload
  rw [List.reverse_append]
  by_cases h : j = i
  · simp [h, List.find?]
  · have hb : (j == i) = false := by simpa using h
    simp [List.find?, hb, h]

theorem slot_lt_eight (m i : Nat) (hm : m < 8) (hi : i < 3) : m ||| 1 <<< i < 8 := by
  have h1 : (1 <<< i : Nat) < 2 ^ 3 := by
    rcases i with _ | _ | _ | i
    · decide
    · decide
    · decide
    · omega
  exact Nat.or_lt_two_pow (by simpa using hm) h1

/-- In every reachable state of a dynamic buffer the mask is below 8 and a set bit marks a slot
whose most recent upload carried the current staging bytes. -/
theorem GLGraphicsBufferD.valid_slot_uploaded (b : GLGraphicsBufferD)
    (hb : GLGraphicsBufferD.Reachable b) :
    b.m_validMask < 8 ∧
    ∀ i, b.m_validMask.testBit i = true → lastUpload b.glUploads i = some b.m_cpuBuf := by
  induction hb with
  | ctor use sz cpuIndet gpuIndet =>
    refine ⟨show (0 : Nat) < 8 by decide, ?_⟩
    intro i h
    have : Nat.testBit 0 i = true := h
    simp at this
  | load b data sz _ _ =>
    refine ⟨show (0 : Nat) < 8 by decide, ?_⟩
    intro i h
    have : Nat.testBit 0 i = true := h
    simp at this
  | mapWriteUnmap b hint bytes _ _ _ =>
    refine ⟨show (0 : Nat) < 8 by decide, ?_⟩
    intro i h
    have : Nat.testBit 0 i = true := h
    simp at this
  | update b j _ hj ih =>
    cases hbit : b.m_validMask.testBit j with
    | true =>
      rw [GLGraphicsBufferD.update_of_set b j hbit]
      exact ih
    | false =>
      rw [GLGraphicsBufferD.update_of_clear b j hbit]
      refine ⟨slot_lt_eight _ _ ih.1 hj, ?_⟩
      intro i h
      have h1 : (b.m_validMask ||| 1 <<< j).testBit i = true := h
      show lastUpload (b.glUploads ++ [(j, b.m_cpuBuf)]) i = some b.m_cpuBuf
      rw [lastUpload_append]
      by_cases hji : j = i
      · rw [if_pos hji]
      · rw [if_neg hji]
        rw [testBit_lor_slot] at h1
        simp only [hji, decide_False, Bool.or_false] at h1
        exact ih.2 i h1

/-- In every reachable state of a dynamic texture the mask is below 8 and a set bit marks a
slot whose most recent upload carried the current staging bytes. -/
theorem GLTextureD.tex_valid_slot_uploaded (t : GLTextureD) (ht : GLTextureD.Reachable t) :
    t.m_validMask < 8 ∧
    ∀ i, t.m_validMask.testBit i = true → lastUpload t.glUploads i = some t.m_cpuBuf := by
  induction ht with
  | ctor width height fmt cpuIndet gpuIndet t hc =>
    unfold GLTextureD.ctor at hc
    split at hc
    · simp at hc
    · simp only [Option.some.injEq] at hc
      subst hc
      refine ⟨show (0 : Nat) < 8 by decide, ?_⟩
      intro i h
      have : Nat.testBit 0 i = true := h
      simp at this
  | load t data sz _ _ =>
    refine ⟨show (0 : Nat) < 8 by decide, ?_⟩
    intro i h
    have : Nat.testBit 0 i = true := h
    simp at this
  | mapWriteUnmap t hint bytes _ _ _ =>
    refine ⟨show (0 : Nat) < 8 by decide, ?_⟩
    intro i h
    have : Nat.testBit 0 i = true := h
    simp at this
  | update t j _ hj ih =>
    cases hbit : t.m_validMask.testBit j with
    | true =>
      rw [GLTextureD.texUpdate_of_set t j hbit]
      exact ih
    | false =>
      rw [GLTextureD.texUpdate_of_clear t j hbit]
      refine ⟨slot_lt_eight _ _ ih.1 hj, ?_⟩
      intro i h
      have h1 : (t.m_validMask ||| 1 <<< j).testBit i = true := h
      show lastUpload (t.glUploads ++ [(j, t.m_cpuBuf)]) i = some t.m_cpuBuf
      rw [lastUpload_append]
      by_cases hji : j = i
      · rw [if_pos hji]
      · rw [if_neg hji]
        rw [testBit_lor_slot] at h1
        simp only [hji, decide_False, Bool.or_false] at h1
        exact ih.2 i h1

theorem testBit_lt_eight (m i : Nat) (hm : m < 8) (h : m.testBit i = true) : i < 3 := by
  by_contra hc
  have : m < 2 ^ i := lt_of_lt_of_le hm
    (le_trans (by norm_num : 8 ≤ 2 ^ 3) (Nat.pow_le_pow_right (by norm_num) (by omega)))
  rw [Nat.testBit_lt_two_pow this] at h
  cases h

/-- C25: in every state of a dynamic buffer or texture reachable from construction by
`load(data, sz)`, a write through `map` followed by `unmap`, and `update(i)` with `i < 3`, the
validity mask lies in `0..7`, and whenever bit `i` of the mask is set, `i` is one of the three
slots, the most recent upload issued for slot `i` carried exactly the current staging bytes,
and the data store of slot `i` holds them. -/
theorem C25_valid_bit_never_marks_stale_data :
    (∀ b : GLGraphicsBufferD, GLGraphicsBufferD.Reachable b →
      b.m_validMask ≤ 7 ∧
      ∀ i, b.m_validMask.testBit i = true →
        i < 3 ∧ lastUpload b.glUploads i = some b.m_cpuBuf ∧
        b.m_bufs.get? i = some b.m_cpuBuf) ∧
    (∀ t : GLTextureD, GLTextureD.Reachable t →
      t.m_validMask ≤ 7 ∧
      ∀ i, t.m_validMask.testBit i = true →
        i < 3 ∧ lastUpload t.glUploads i = some t.m_cpuBuf ∧
        t.m_texs.get? i = some t.m_cpuBuf) := by
  constructor
  · intro b hb
    obtain ⟨h1, h2⟩ := GLGraphicsBufferD.valid_slot_uploaded b hb
    refine ⟨by omega, fun i hi => ?_⟩
    have h3 := testBit_lt_eight _ _ h1 hi
    exact ⟨h3, h2 i hi, GLGraphicsBufferD.valid_slot_current b hb i h3 hi⟩
  · intro t ht
    obtain ⟨h1, h2⟩ := GLTextureD.tex_valid_slot_uploaded t ht
    refine ⟨by omega, fun i hi => ?_⟩
    have h3 := testBit_lt_eight _ _ h1 hi
    exact ⟨h3, h2 i hi, GLTextureD.tex_valid_slot_current t ht i h3 hi⟩

/-- Witness for C25: a two-byte buffer after `load([1, 2])`, `update(0)`, `load([3, 4])` and
`update(1)`: the mask is 2, and the last upload to slot 1 carried `[3, 4]`, the staging
bytes. -/
theorem C25_valid_bit_never_marks_stale_data_witness :
    GLGraphicsBufferD.Reachable
      ((((GLGraphicsBufferD.ctor 1 2 (fun _ => 0) (fun _ _ => 0)).load [1, 2] 2).update 0).load
        [3, 4] 2 |>.update 1) ∧
    ((((GLGraphicsBufferD.ctor 1 2 (fun _ => 0) (fun _ _ => 0)).load [1, 2] 2).update 0).load
        [3, 4] 2 |>.update 1).m_validMask = 2 ∧
    lastUpload
      ((((GLGraphicsBufferD.ctor 1 2 (fun _ => 0) (fun _ _ => 0)).load [1, 2] 2).update 0).load
        [3, 4] 2 |>.update 1).glUploads 1 = some [3, 4] ∧
    (1 < 3 ∧
      lastUpload
        ((((GLGraphicsBufferD.ctor 1 2 (fun _ => 0) (fun _ _ => 0)).load [1, 2] 2).update
          0).load [3, 4] 2 |>.update 1).glUploads 1 =
        some ((((GLGraphicsBufferD.ctor 1 2 (fun _ => 0) (fun _ _ => 0)).load [1, 2] 2).update
          0).load [3, 4] 2 |>.update 1).m_cpuBuf ∧
      ((((GLGraphicsBufferD.ctor 1 2 (fun _ => 0) (fun _ _ => 0)).load [1, 2] 2).update
          0).load [3, 4] 2 |>.update 1).m_bufs.get? 1 =
        some ((((GLGraphicsBufferD.ctor 1 2 (fun _ => 0) (fun _ _ => 0)).load [1, 2] 2).update
          0).load [3, 4] 2 |>.update 1).m_cpuBuf) :=
  ⟨.update _ 1 (.load _ _ _ (.update _ 0 (.load _ _ _ (.ctor 1 2 _ _)) (by decide)))
      (by decide),
    by decide, by decide,
    (C25_valid_bit_never_marks_stale_data.1 _
      (.update _ 1 (.load _ _ _ (.update _ 0 (.load _ _ _ (.ctor 1 2 _ _)) (by decide)))
        (by decide))).2 1 (by decide)⟩

/-! ## The command buffers across `execute()` -/

/-- A recording call appends its entry to the command buffer at the fill index. -/
theorem perform_entries (q : GLCommandQueue) (r : Recording) :
    q.perform r =
      { q with m_cmdBufs := q.m_cmdBufs.modify q.m_fillBuf (fun cmds => cmds ++ r.entries) } := by
  cases r <;> rfl

/-- A step other than `execute()`, taken with the fill index apart from the complete index,
appends what it records to the command buffer at the fill index. -/
theorem quiet_step_fill (ctx : GraphicsContext) (a : Action) (ha : a.isExecute = false)
    (L : List Command) (hf : ctx.commandQueue.m_fillBuf < 3)
    (hsep : ctx.commandQueue.m_fillBuf ≠ ctx.commandQueue.m_completeBuf)
    (hL : ctx.commandQueue.m_cmdBufs.get? ctx.commandQueue.m_fillBuf = some L) :
    (step ctx a).commandQueue.m_cmdBufs.get? ctx.commandQueue.m_fillBuf =
      some (L ++ recorded [a]) := by
  cases a with
  | execute => simp [Action.isExecute] at ha
  | record r =>
    have hs : (step ctx (Action.record r)).commandQueue.m_cmdBufs =
        ctx.commandQueue.m_cmdBufs.modify ctx.commandQueue.m_fillBuf
          (fun cmds => cmds ++ r.entries) := by
      simp only [step, perform_entries]
    rw [hs]
    obtain ⟨old, h1, h2⟩ :=
      Arr3.get?_modify_self ctx.commandQueue.m_cmdBufs ctx.commandQueue.m_fillBuf
        (fun cmds => cmds ++ r.entries) hf
    rw [h2]
    rw [hL] at h1
    cases h1
    simp [recorded]
  | wake =>
    by_cases hrun : ctx.commandQueue.m_running = true
    · have hs : (step ctx Action.wake).commandQueue.m_cmdBufs =
          ctx.commandQueue.m_cmdBufs.set ctx.commandQueue.m_completeBuf [] := by
        simp [step, GLCommandQueue.wake, GLCommandQueue.RenderingWorker, hrun]
      rw [hs, Arr3.get?_set_ne _ _ _ _ hsep, hL]
      simp [recorded]
    · have hs : (step ctx Action.wake).commandQueue.m_cmdBufs = ctx.commandQueue.m_cmdBufs := by
        simp [step, GLCommandQueue.wake, GLCommandQueue.RenderingWorker, hrun]
      rw [hs, hL]
      simp [recorded]

theorem recorded_cons (a : Action) (as : List Action) :
    recorded (a :: as) = recorded [a] ++ recorded as := by
  cases a <;> simp [recorded]

/-- Steps other than `execute()`, taken with the fill index apart from the complete index,
append what they record to the command buffer at the fill index, in order. -/
theorem quiet_run_fill (acts : List Action) (ctx : GraphicsContext)
    (hacts : ∀ a ∈ acts, a.isExecute = false)
    (L : List Command) (hf : ctx.commandQueue.m_fillBuf < 3)
    (hsep : ctx.commandQueue.m_fillBuf ≠ ctx.commandQueue.m_completeBuf)
    (hL : ctx.commandQueue.m_cmdBufs.get? ctx.commandQueue.m_fillBuf = some L) :
    (run ctx acts).commandQueue.m_cmdBufs.get? ctx.commandQueue.m_fillBuf =
      some (L ++ recorded acts) := by
  induction acts generalizing ctx L with
  | nil => simpa [run_nil, recorded] using hL
  | cons a as ih =>
    have has : ∀ x ∈ as, x.isExecute = false := fun x hx => hacts x (List.mem_cons_of_mem _ hx)
    have ha : a.isExecute = false := hacts a (List.mem_cons_self _ _)
    obtain ⟨_, g2, g3, _⟩ := quiet_step ctx a ha
    have h1 := quiet_step_fill ctx a ha L hf hsep hL
    rw [run_cons, recorded_cons, ← List.append_assoc]
    have := ih (step ctx a) has (L ++ recorded [a]) (by rw [g2]; exact hf)
      (by rw [g2, g3]; exact hsep) (by rw [g2]; exact h1)
    rw [g2] at this
    exact this

/-- What `execute()` does to the command buffers: the one at the new fill index is emptied, the
others are kept. -/
theorem execute_cmdBufs (ctx : GraphicsContext) :
    (GLCommandQueue.execute ctx).commandQueue.m_cmdBufs =
      ctx.commandQueue.m_cmdBufs.set (GLCommandQueue.execute ctx).commandQueue.m_fillBuf [] :=
  rfl

/-- C26: for every queue state, after `execute()` the command buffer at the new fill index is
empty, whatever it held before, and the command buffer at the new complete index is the one
that was being filled, with its entries unchanged; when the state was itself reached by an
`execute()` followed by recording calls and worker wake-ups in any interleaving, the buffer at
the new complete index holds exactly the entries of those recording calls, in order. -/
theorem C26_execute_clears_new_fill_buffer (ctx : GraphicsContext) :
    (GLCommandQueue.execute ctx).commandQueue.m_cmdBufs.get?
        (GLCommandQueue.execute ctx).commandQueue.m_fillBuf = some [] ∧
    (GLCommandQueue.execute ctx).commandQueue.m_cmdBufs.get?
        (GLCommandQueue.execute ctx).commandQueue.m_completeBuf =
      ctx.commandQueue.m_cmdBufs.get? ctx.commandQueue.m_fillBuf ∧
    ∀ acts : List Action, (∀ a ∈ acts, a.isExecute = false) →
      (GLCommandQueue.execute (run (GLCommandQueue.execute ctx) acts)).commandQueue.m_cmdBufs.get?
          (GLCommandQueue.execute
            (run (GLCommandQueue.execute ctx) acts)).commandQueue.m_completeBuf =
        some (recorded acts) := by
  have key : ∀ c : GraphicsContext,
      (GLCommandQueue.execute c).commandQueue.m_cmdBufs.get?
          (GLCommandQueue.execute c).commandQueue.m_fillBuf = some [] ∧
      (GLCommandQueue.execute c).commandQueue.m_cmdBufs.get?
          (GLCommandQueue.execute c).commandQueue.m_completeBuf =
        c.commandQueue.m_cmdBufs.get? c.commandQueue.m_fillBuf := by
    intro c
    obtain ⟨h1, h2, _, _⟩ :=
      rotateFill_spec c.commandQueue.m_fillBuf c.commandQueue.m_drawBuf c.commandQueue.m_fillBuf
    constructor
    · rw [execute_cmdBufs]
      exact Arr3.get?_set_self _ _ _ h1
    · rw [execute_cmdBufs]
      exact Arr3.get?_set_ne _ _ _ _ (fun e => h2 e.symm)
  refine ⟨(key ctx).1, (key ctx).2, ?_⟩
  intro acts hacts
  rw [(key _).2]
  obtain ⟨_, g2, _, _⟩ := quiet_run acts (GLCommandQueue.execute ctx) hacts
  rw [g2]
  have hsep := (execute_separates ctx).2
  have hf : (GLCommandQueue.execute ctx).commandQueue.m_fillBuf < 3 :=
    (rotateFill_spec _ _ _).1
  have := quiet_run_fill acts (GLCommandQueue.execute ctx) hacts [] hf hsep (key ctx).1
  simpa using this

/-- Witness for C26: buffer 1 still holds a draw entry that was never replayed when
`execute()` makes it the fill buffer again; afterwards it is empty, and after two recording
calls with a wake-up between them and one more `execute()` the complete buffer holds the two
entries. -/
theorem C26_execute_clears_new_fill_buffer_witness :
    (∀ a ∈ [Action.record (Recording.draw 0 3), Action.wake,
        Action.record (Recording.drawIndexed 3 6)], a.isExecute = false) ∧
    ({ commandQueue :=
        { m_cmdBufs := ⟨[], [{ m_op := Op.Draw, start := 9, count := 9 }], []⟩
          m_fillBuf := 0, m_completeBuf := 2, m_drawBuf := 2 } } :
      GraphicsContext).commandQueue.m_cmdBufs.get? 1 =
      some [{ m_op := Op.Draw, start := 9, count := 9 }] ∧
    (GLCommandQueue.execute
      { commandQueue :=
          { m_cmdBufs := ⟨[], [{ m_op := Op.Draw, start := 9, count := 9 }], []⟩
            m_fillBuf := 0, m_completeBuf := 2, m_drawBuf := 2 } }).commandQueue.m_fillBuf = 1 ∧
    (GLCommandQueue.execute (run (GLCommandQueue.execute
        { commandQueue :=
            { m_cmdBufs := ⟨[], [{ m_op := Op.Draw, start := 9, count := 9 }], []⟩
              m_fillBuf := 0, m_completeBuf := 2, m_drawBuf := 2 } })
        [Action.record (Recording.draw 0 3), Action.wake,
          Action.record (Recording.drawIndexed 3 6)])).commandQueue.m_cmdBufs.get?
        (GLCommandQueue.execute (run (GLCommandQueue.execute
          { commandQueue :=
              { m_cmdBufs := ⟨[], [{ m_op := Op.Draw, start := 9, count := 9 }], []⟩
                m_fillBuf := 0, m_completeBuf := 2, m_drawBuf := 2 } })
          [Action.record (Recording.draw 0 3), Action.wake,
            Action.record (Recording.drawIndexed 3 6)])).commandQueue.m_completeBuf =
      some (recorded [Action.record (Recording.draw 0 3), Action.wake,
        Action.record (Recording.drawIndexed 3 6)]) :=
  ⟨by decide, rfl, rfl,
    (C26_execute_clears_new_fill_buffer
      { commandQueue :=
          { m_cmdBufs := ⟨[], [{ m_op := Op.Draw, start := 9, count := 9 }], []⟩
            m_fillBuf := 0, m_completeBuf := 2, m_drawBuf := 2 } }).2.2
      [Action.record (Recording.draw 0 3), Action.wake,
        Action.record (Recording.drawIndexed 3 6)] (by decide)⟩

/-! ## Stick clamping -/

/-- The result of `pad_clampstick` in terms of the adjusted position, its distance measure and
the two sign factors. -/
theorem pad_clampstick_eq (px py max xy min : Int) :
    pad_clampstick px py max xy min =
      if deadZone px min ≠ 0 ∨ deadZone py min ≠ 0 then
        if max * xy < clampDistance (deadZone px min) (deadZone py min) max xy then
          (toInt8 (deadZone px min *
              (max * xy).tdiv (clampDistance (deadZone px min) (deadZone py min) max xy) *
              stickSign px),
            toInt8 (deadZone py min *
              (max * xy).tdiv (clampDistance (deadZone px min) (deadZone py min) max xy) *
              stickSign py))
        else (toInt8 (deadZone px min * stickSign px), toInt8 (deadZone py min * stickSign py))
      else (0, 0) := by
  have h : pad_clampstick px py max xy min =
      (if deadZone px min ≠ 0 ∨ deadZone py min ≠ 0 then
        if deadZone py min * xy ≤ deadZone px min * xy then
          if max * xy < deadZone px min * xy + deadZone py min * (max - xy) then
            (toInt8 (deadZone px min *
                (max * xy).tdiv (deadZone px min * xy + deadZone py min * (max - xy)) *
                stickSign px),
              toInt8 (deadZone py min *
                (max * xy).tdiv (deadZone px min * xy + deadZone py min * (max - xy)) *
                stickSign py))
          else (toInt8 (deadZone px min * stickSign px), toInt8 (deadZone py min * stickSign py))
        else
          if max * xy < deadZone py min * xy + deadZone px min * (max - xy) then
            (toInt8 (deadZone px min *
                (max * xy).tdiv (deadZone py min * xy + deadZone px min * (max - xy)) *
                stickSign px),
              toInt8 (deadZone py min *
                (max * xy).tdiv (deadZone py min * xy + deadZone px min * (max - xy)) *
                stickSign py))
          else (toInt8 (deadZone px min * stickSign px), toInt8 (deadZone py min * stickSign py))
      else (0, 0)) := rfl
  rw [h]
  unfold clampDistance
  generalize deadZone px min = x
  generalize deadZone py min = y
  split_ifs <;> rfl

/-- C29 (what the code does): with `0 ≤ max * xy`, as for the parameters used by `clamp`,
whenever the dead-zone-adjusted position `(x, y)` lies outside the clamp region
(`max * xy < d`) the factor `maxy / d` of `x *= maxy / d` is `0` and `pad_clampstick` yields
`(0, 0)`; an adjusted position that is not `(0, 0)` and lies inside the region is returned
with its signs.  For the left stick at `(127, 0)` the adjusted position is `(112, 0)`, which
rescaled onto the boundary is `112 * 2880 / 4480 = 72`, while `clamp` stores `(0, 0)`. -/
theorem C29_clampstick_outside_region_yields_zero (px py max xy min : Int)
    (hmaxy : 0 ≤ max * xy) :
    (max * xy < clampDistance (deadZone px min) (deadZone py min) max xy →
      pad_clampstick px py max xy min = (0, 0)) ∧
    ((deadZone px min ≠ 0 ∨ deadZone py min ≠ 0) →
      ¬ max * xy < clampDistance (deadZone px min) (deadZone py min) max xy →
      pad_clampstick px py max xy min =
        (toInt8 (deadZone px min * stickSign px), toInt8 (deadZone py min * stickSign py))) ∧
    (deadZone 127 15 = 112 ∧ deadZone 0 15 = 0 ∧ (72 : Int) * 40 = 2880 ∧
      clampDistance 112 0 72 40 = 4480 ∧ ((112 : Int) * 2880).tdiv 4480 = 72 ∧
      (DolphinControllerState.clamp { m_leftStick := (127, 0) }).m_leftStick = (0, 0)) := by
  refine ⟨?_, ?_, by decide⟩
  · intro hout
    have hd : 0 < clampDistance (deadZone px min) (deadZone py min) max xy :=
      lt_of_le_of_lt hmaxy hout
    have hz : (max * xy).tdiv
        (clampDistance (deadZone px min) (deadZone py min) max xy) = 0 :=
      Int.tdiv_eq_zero_of_lt hmaxy hout
    have hne : deadZone px min ≠ 0 ∨ deadZone py min ≠ 0 := by
      by_contra hc
      push_neg at hc
      rw [hc.1, hc.2] at hd
      simp [clampDistance] at hd
    rw [pad_clampstick_eq, if_pos hne, if_pos hout, hz]
    simp [toInt8]
  · intro hne hin
    rw [pad_clampstick_eq, if_pos hne, if_neg hin]

/-- Witness for C29: the left stick pushed fully right, with the parameters `clamp` passes for
the left stick: the adjusted position `(112, 0)` is outside the region (`2880 < 4480`) and the
result is `(0, 0)`. -/
theorem C29_clampstick_outside_region_yields_zero_witness :
    (0 : Int) ≤ 72 * 40 ∧
    (72 : Int) * 40 < clampDistance (deadZone 127 15) (deadZone 0 15) 72 40 ∧
    pad_clampstick 127 0 72 40 15 = (0, 0) :=
  ⟨by decide, by decide,
    (C29_clampstick_outside_region_yields_zero 127 0 72 40 15 (by decide)).1 (by decide)⟩

/-! ## Replay of a command buffer -/

theorem primAfter_nil (mem : Memory) (p : Nat) : primAfter mem p [] = p := rfl

/-- An entry other than `SetShaderDataBinding` leaves `currentPrim` as it is. -/
theorem exec_keeps_prim (mem : Memory) (b p : Nat) (c : Command)
    (h : c.m_op ≠ Op.SetShaderDataBinding) : (c.exec mem b p).2 = p := by
  unfold Command.exec
  cases hop : c.m_op <;> simp_all

/-- A `SetShaderDataBinding` entry sets `currentPrim` to the primitive of the pipeline of its
binding. -/
theorem exec_binding_prim (mem : Memory) (b p : Nat) (c : Command)
    (h : c.m_op = Op.SetShaderDataBinding) :
    (c.exec mem b p).2 = (mem.pipeline (mem.binding c.binding).m_pipeline).m_drawPrim := by
  unfold Command.exec
  rw [h]

theorem primAfter_concat (mem : Memory) (p : Nat) (cmds : List Command) (c : Command) :
    primAfter mem p (cmds ++ [c]) = (c.exec mem 0 (primAfter mem p cmds)).2 := by
  by_cases h : c.m_op = Op.SetShaderDataBinding
  · rw [exec_binding_prim mem 0 _ c h]
    unfold primAfter
    simp [List.reverse_append, List.find?, h]
  · rw [exec_keeps_prim mem 0 _ c h]
    unfold primAfter
    simp [List.reverse_append, List.find?, h]

theorem primAfter_cons (mem : Memory) (p : Nat) (c : Command) (cmds : List Command) :
    primAfter mem p (c :: cmds) = primAfter mem (c.exec mem 0 p).2 cmds := by
  induction cmds using List.reverseRecOn with
  | nil =>
    have := primAfter_concat mem p [] c
    simpa [primAfter_nil] using this
  | append_singleton xs x ih =>
    rw [← List.cons_append, primAfter_concat, primAfter_concat, ih]

theorem exec_prim_indep (mem : Memory) (b b2 p : Nat) (c : Command) :
    (c.exec mem b p).2 = (c.exec mem b2 p).2 := by
  unfold Command.exec
  cases c.m_op <;> rfl

/-- The replay of a list is the replay of a prefix followed by the replay of the rest with the
primitive current after the prefix. -/
theorem replay_append (mem : Memory) (b : Nat) (xs ys : List Command) :
    ∀ p, GLCommandQueue.replay mem b p (xs ++ ys) =
      GLCommandQueue.replay mem b p xs ++ GLCommandQueue.replay mem b (primAfter mem p xs) ys := by
  induction xs with
  | nil => intro p; simp [GLCommandQueue.replay, primAfter_nil]
  | cons x xs ih =>
    intro p
    rw [List.cons_append, GLCommandQueue.replay, GLCommandQueue.replay, ih, primAfter_cons,
      exec_prim_indep mem 0 b, List.append_assoc]

theorem replay_cons (mem : Memory) (b p : Nat) (c : Command) (cmds : List Command) :
    GLCommandQueue.replay mem b p (c :: cmds) =
      (c.exec mem b p).1 ++ GLCommandQueue.replay mem b (c.exec mem b p).2 cmds := rfl

/-- The replay of a list is the concatenation, in list order, of the calls of each entry, every
entry taken with the primitive current after the entries before it. -/
theorem replay_eq_flatMap (mem : Memory) (b : Nat) (cmds : List Command) :
    ∀ p, GLCommandQueue.replay mem b p cmds =
      (List.range cmds.length).flatMap (fun k =>
        match cmds[k]? with
        | some c => (c.exec mem b (primAfter mem p (cmds.take k))).1
        | none => []) := by
  induction cmds using List.reverseRecOn with
  | nil => intro p; rfl
  | append_singleton xs x ih =>
    intro p
    rw [replay_append, ih p, List.length_append, List.length_singleton, List.range_succ,
      List.flatMap_append]
    congr 1
    · apply List.flatMap_congr
      intro k hk
      have hk2 : k < xs.length := List.mem_range.mp hk
      rw [List.getElem?_append_left hk2, List.take_append_of_le_length (le_of_lt hk2)]
    · simp [GLCommandQueue.replay]

/-- The primitive current after entries none of which is a `SetShaderDataBinding` is the one
before them. -/
theorem primAfter_no_binding (mem : Memory) (p : Nat) (cmds : List Command)
    (h : ∀ c ∈ cmds, c.m_op ≠ Op.SetShaderDataBinding) : primAfter mem p cmds = p := by
  induction cmds generalizing p with
  | nil => rfl
  | cons c cs ih =>
    rw [primAfter_cons, ih _ (fun x hx => h x (List.mem_cons_of_mem _ hx)),
      exec_keeps_prim mem 0 p c (h c (List.mem_cons_self _ _))]

/-- The primitive current after a list whose latest `SetShaderDataBinding` entry is `c`. -/
theorem primAfter_latest (mem : Memory) (p : Nat) (pre rest : List Command) (c : Command)
    (hc : c.m_op = Op.SetShaderDataBinding)
    (h : ∀ x ∈ rest, x.m_op ≠ Op.SetShaderDataBinding) :
    primAfter mem p (pre ++ c :: rest) =
      (mem.pipeline (mem.binding c.binding).m_pipeline).m_drawPrim := by
  induction pre generalizing p with
  | nil =>
    rw [List.nil_append, primAfter_cons, primAfter_no_binding mem _ rest h,
      exec_binding_prim mem 0 p c hc]
  | cons x xs ih => rw [List.cons_append, primAfter_cons, ih]

/-- C22: in the replay of a command list by the worker (which starts with `currentPrim` equal
to triangles), a `Draw`, `DrawIndexed`, `DrawInstances` or `DrawInstancesIndexed` entry `c`
that follows the entries `pre` is issued as one draw call whose mode is the primitive current
after `pre`; that primitive is triangles when `pre` holds no `SetShaderDataBinding` entry, and
otherwise `m_drawPrim` of the pipeline of the binding of the latest such entry of `pre`; an
entry other than `SetShaderDataBinding` leaves the current primitive as it is. -/
theorem C22_draw_uses_latest_bound_primitive (mem : Memory) (b : Nat)
    (pre post : List Command) (c : Command) :
    (c.m_op = Op.Draw →
      GLCommandQueue.replay mem b GL_TRIANGLES (pre ++ c :: post) =
        GLCommandQueue.replay mem b GL_TRIANGLES pre ++
          GLCall.glDrawArrays (primAfter mem GL_TRIANGLES pre) c.start c.count ::
            GLCommandQueue.replay mem b (primAfter mem GL_TRIANGLES pre) post) ∧
    (c.m_op = Op.DrawIndexed →
      GLCommandQueue.replay mem b GL_TRIANGLES (pre ++ c :: post) =
        GLCommandQueue.replay mem b GL_TRIANGLES pre ++
          GLCall.glDrawElements (primAfter mem GL_TRIANGLES pre) c.count GL_UNSIGNED_INT
              (c.start * 4 % SIZE_MAX1) ::
            GLCommandQueue.replay mem b (primAfter mem GL_TRIANGLES pre) post) ∧
    (c.m_op = Op.DrawInstances →
      GLCommandQueue.replay mem b GL_TRIANGLES (pre ++ c :: post) =
        GLCommandQueue.replay mem b GL_TRIANGLES pre ++
          GLCall.glDrawArraysInstanced (primAfter mem GL_TRIANGLES pre) c.start c.count
              c.instCount ::
            GLCommandQueue.replay mem b (primAfter mem GL_TRIANGLES pre) post) ∧
    (c.m_op = Op.DrawInstancesIndexed →
      GLCommandQueue.replay mem b GL_TRIANGLES (pre ++ c :: post) =
        GLCommandQueue.replay mem b GL_TRIANGLES pre ++
          GLCall.glDrawElementsInstanced (primAfter mem GL_TRIANGLES pre) c.count
              GL_UNSIGNED_INT (c.start * 4 % SIZE_MAX1) c.instCount ::
            GLCommandQueue.replay mem b (primAfter mem GL_TRIANGLES pre) post) ∧
    ((∀ x ∈ pre, x.m_op ≠ Op.SetShaderDataBinding) →
      primAfter mem GL_TRIANGLES pre = GL_TRIANGLES) ∧
    (∀ (pre1 mid : List Command) (bnd : Command), pre = pre1 ++ bnd :: mid →
      bnd.m_op = Op.SetShaderDataBinding → (∀ x ∈ mid, x.m_op ≠ Op.SetShaderDataBinding) →
      primAfter mem GL_TRIANGLES pre =
        (mem.pipeline (mem.binding bnd.binding).m_pipeline).m_drawPrim) ∧
    (c.m_op ≠ Op.SetShaderDataBinding → ∀ p, (c.exec mem b p).2 = p) := by
  refine ⟨?_, ?_, ?_, ?_, primAfter_no_binding mem _ pre, ?_, ?_⟩
  · intro h
    rw [replay_append, replay_cons]
    simp [Command.exec, h]
  · intro h
    rw [replay_append, replay_cons]
    simp [Command.exec, h]
  · intro h
    rw [replay_append, replay_cons]
    simp [Command.exec, h]
  · intro h
    rw [replay_append, replay_cons]
    simp [Command.exec, h]
  · intro pre1 mid bnd hpre hb hmid
    rw [hpre]
    exact primAfter_latest mem _ pre1 mid bnd hb hmid
  · intro h p
    exact exec_keeps_prim mem b p c h

/-- Witness for C22: a draw, a binding to the pipeline at address 7 (triangle strips) and a
second draw: the first draw is issued with triangles, the second with triangle strips. -/
theorem C22_draw_uses_latest_bound_primitive_witness :
    ({ m_op := Op.Draw, start := 3, count := 4 } : Command).m_op = Op.Draw ∧
    (∀ x ∈ ([] : List Command), x.m_op ≠ Op.SetShaderDataBinding) ∧
    primAfter exampleMemory GL_TRIANGLES
        [{ m_op := Op.Draw, start := 0, count := 3 },
          { m_op := Op.SetShaderDataBinding, binding := 7 }] = GL_TRIANGLE_STRIP ∧
    GLCommandQueue.replay exampleMemory 1 GL_TRIANGLES
        ([{ m_op := Op.Draw, start := 0, count := 3 },
            { m_op := Op.SetShaderDataBinding, binding := 7 }] ++
          { m_op := Op.Draw, start := 3, count := 4 } :: []) =
      GLCommandQueue.replay exampleMemory 1 GL_TRIANGLES
          [{ m_op := Op.Draw, start := 0, count := 3 },
            { m_op := Op.SetShaderDataBinding, binding := 7 }] ++
        GLCall.glDrawArrays
            (primAfter exampleMemory GL_TRIANGLES
              [{ m_op := Op.Draw, start := 0, count := 3 },
                { m_op := Op.SetShaderDataBinding, binding := 7 }]) 3 4 ::
          GLCommandQueue.replay exampleMemory 1
            (primAfter exampleMemory GL_TRIANGLES
              [{ m_op := Op.Draw, start := 0, count := 3 },
                { m_op := Op.SetShaderDataBinding, binding := 7 }]) [] ∧
    (GLCommandQueue.replay exampleMemory 1 GL_TRIANGLES
        [{ m_op := Op.Draw, start := 0, count := 3 }]) =
      [GLCall.glDrawArrays GL_TRIANGLES 0 3] :=
  ⟨rfl, by simp,
    (C22_draw_uses_latest_bound_primitive exampleMemory 1
      [{ m_op := Op.Draw, start := 0, count := 3 },
        { m_op := Op.SetShaderDataBinding, binding := 7 }] []
      { m_op := Op.Draw, start := 3, count := 4 }).2.2.2.2.2.1
      [{ m_op := Op.Draw, start := 0, count := 3 }] []
      { m_op := Op.SetShaderDataBinding, binding := 7 } rfl rfl (by simp),
    (C22_draw_uses_latest_bound_primitive exampleMemory 1
      [{ m_op := Op.Draw, start := 0, count := 3 },
        { m_op := Op.SetShaderDataBinding, binding := 7 }] []
      { m_op := Op.Draw, start := 3, count := 4 }).1 rfl,
    by decide⟩

/-- C21: for every queue state with the complete index inside the array.  With the worker
running, one wake-up stores the complete index as the draw index, empties the command buffer at
that index and leaves the other two as they are; the calls it issues are those of the drain of
the pending lists followed by the calls of the entries of that command buffer, entry by entry
in their recorded order (the replay starts with triangles as the current primitive, in the
memory left by the drain).  A wake-up that finds the run flag cleared changes nothing and
issues no call. -/
theorem C21_worker_replays_in_recorded_order (sem : VertexSemanticEnum) (driver : WorkerDriver)
    (q : GLCommandQueue) (mem : Memory) (hc : q.m_completeBuf < 3) :
    (q.m_running = true →
      (GLCommandQueue.RenderingWorker q).m_drawBuf = q.m_completeBuf ∧
      (GLCommandQueue.RenderingWorker q).m_cmdBufs.get? q.m_completeBuf = some [] ∧
      (∀ j, j ≠ q.m_completeBuf →
        (GLCommandQueue.RenderingWorker q).m_cmdBufs.get? j = q.m_cmdBufs.get? j) ∧
      ∃ cmds, q.m_cmdBufs.get? q.m_completeBuf = some cmds ∧
        (GLCommandQueue.RenderingWorker.calls sem driver q mem).1 =
          (GLCommandQueue.drain sem driver q mem).1 ∧
        (GLCommandQueue.RenderingWorker.calls sem driver q mem).2 =
          (GLCommandQueue.drain sem driver q mem).2 ++
            (List.range cmds.length).flatMap (fun k =>
              match cmds[k]? with
              | some c =>
                (c.exec (GLCommandQueue.drain sem driver q mem).1 q.m_completeBuf
                  (primAfter (GLCommandQueue.drain sem driver q mem).1 GL_TRIANGLES
                    (cmds.take k))).1
              | none => [])) ∧
    (q.m_running = false →
      GLCommandQueue.RenderingWorker q = q ∧
      GLCommandQueue.RenderingWorker.calls sem driver q mem = (mem, [])) := by
  constructor
  · intro hrun
    have hq : GLCommandQueue.RenderingWorker q =
        { q with
          m_drawBuf := q.m_completeBuf
          m_pendingFboAdds := []
          m_pendingResizes := []
          m_pendingFmtAdds := []
          m_pendingFmtDels := []
          m_pendingFboDels := []
          m_pendingPosts2 := []
          m_cmdBufs := q.m_cmdBufs.set q.m_completeBuf []
          postsRun := q.postsRun ++ q.m_pendingPosts2 } := by
      simp [GLCommandQueue.RenderingWorker, hrun]
    rw [hq]
    refine ⟨rfl, Arr3.get?_set_self _ _ _ hc, fun j hj => Arr3.get?_set_ne _ _ _ _ hj, ?_⟩
    have hex : ∃ cmds, q.m_cmdBufs.get? q.m_completeBuf = some cmds := by
      have := hc
      interval_cases h : q.m_completeBuf <;> exact ⟨_, rfl⟩
    obtain ⟨cmds, hcmds⟩ := hex
    refine ⟨cmds, hcmds, ?_, ?_⟩
    · simp [GLCommandQueue.RenderingWorker.calls, hrun]
    · have : GLCommandQueue.RenderingWorker.calls sem driver q mem =
          ((GLCommandQueue.drain sem driver q mem).1,
            (GLCommandQueue.drain sem driver q mem).2 ++
              GLCommandQueue.replay (GLCommandQueue.drain sem driver q mem).1 q.m_completeBuf
                GL_TRIANGLES ((q.m_cmdBufs.get? q.m_completeBuf).getD [])) := by
        simp [GLCommandQueue.RenderingWorker.calls, hrun]
      rw [this, hcmds]
      simp only [Option.getD_some]
      rw [replay_eq_flatMap]
  · intro hrun
    constructor
    · simp [GLCommandQueue.RenderingWorker, hrun]
    · simp [GLCommandQueue.RenderingWorker.calls, hrun]

/-- Witness for C21: buffer 1 is complete and holds a draw, a binding to the pipeline at
address 7 and another draw; the pending lists are empty.  The wake-up issues the unbind of the
drain, the first draw with triangles, the calls of the binding and the second draw with
triangle strips, and leaves buffer 1 empty. -/
theorem C21_worker_replays_in_recorded_order_witness :
    (1 : Nat) < 3 ∧
    (GLCommandQueue.RenderingWorker
      { m_cmdBufs :=
          ⟨[], [{ m_op := Op.Draw, start := 0, count := 3 },
                { m_op := Op.SetShaderDataBinding, binding := 7 },
                { m_op := Op.Draw, start := 3, count := 4 }], []⟩
        m_fillBuf := 2, m_completeBuf := 1, m_drawBuf := 0 }).m_drawBuf = 1 ∧
    (GLCommandQueue.RenderingWorker
      { m_cmdBufs :=
          ⟨[], [{ m_op := Op.Draw, start := 0, count := 3 },
                { m_op := Op.SetShaderDataBinding, binding := 7 },
                { m_op := Op.Draw, start := 3, count := 4 }], []⟩
        m_fillBuf := 2, m_completeBuf := 1, m_drawBuf := 0 }).m_cmdBufs.get? 1 = some [] ∧
    (GLCommandQueue.RenderingWorker.calls exampleSemantics exampleDriver
      { m_cmdBufs :=
          ⟨[], [{ m_op := Op.Draw, start := 0, count := 3 },
                { m_op := Op.SetShaderDataBinding, binding := 7 },
                { m_op := Op.Draw, start := 3, count := 4 }], []⟩
        m_fillBuf := 2, m_completeBuf := 1, m_drawBuf := 0 } exampleMemory).2 =
      [GLCall.glBindFramebuffer GL_FRAMEBUFFER 0,
        GLCall.glDrawArrays GL_TRIANGLES 0 3,
        GLCall.glUseProgram 0, GLCall.glDisable GL_BLEND, GLCall.glEnable GL_DEPTH_TEST,
        GLCall.glDepthMask 1, GLCall.glDepthFunc GL_LEQUAL, GLCall.glEnable GL_CULL_FACE,
        GLCall.glBindVertexArray 0,
        GLCall.glDrawArrays GL_TRIANGLE_STRIP 3 4] :=
  ⟨by decide,
    ((C21_worker_replays_in_recorded_order exampleSemantics exampleDriver
      { m_cmdBufs :=
          ⟨[], [{ m_op := Op.Draw, start := 0, count := 3 },
                { m_op := Op.SetShaderDataBinding, binding := 7 },
                { m_op := Op.Draw, start := 3, count := 4 }], []⟩
        m_fillBuf := 2, m_completeBuf := 1, m_drawBuf := 0 } exampleMemory (by decide)).1
      rfl).1,
    ((C21_worker_replays_in_recorded_order exampleSemantics exampleDriver
      { m_cmdBufs :=
          ⟨[], [{ m_op := Op.Draw, start := 0, count := 3 },
                { m_op := Op.SetShaderDataBinding, binding := 7 },
                { m_op := Op.Draw, start := 3, count := 4 }], []⟩
        m_fillBuf := 2, m_completeBuf := 1, m_drawBuf := 0 } exampleMemory (by decide)).1
      rfl).2.1,
    by decide⟩

/-! ## The drain of the pending structural changes -/

/-- The calls of `ConfigureFBO` depend on the memory only through `m_texs` of the texture. -/
theorem ConfigureFBO_calls_congr (mem mem0 : Memory) (tex fbo : Nat)
    (h : (mem.texR tex).m_texs = (mem0.texR tex).m_texs) :
    (GLCommandQueue.ConfigureFBO mem tex fbo).2 = (GLCommandQueue.ConfigureFBO mem0 tex fbo).2 := by
  simp [GLCommandQueue.ConfigureFBO, h]

/-- What `ConfigureFBO` leaves as it is: buffers, textures, vertex formats, pipelines and
bindings, and all of every render texture but `m_fbo` of the one configured. -/
theorem ConfigureFBO_mem (mem : Memory) (tex fbo : Nat) :
    (GLCommandQueue.ConfigureFBO mem tex fbo).1.buffer = mem.buffer ∧
    (GLCommandQueue.ConfigureFBO mem tex fbo).1.vfmt = mem.vfmt ∧
    (∀ a, ((GLCommandQueue.ConfigureFBO mem tex fbo).1.texR a).m_texs = (mem.texR a).m_texs) ∧
    (∀ a, a ≠ tex → (GLCommandQueue.ConfigureFBO mem tex fbo).1.texR a = mem.texR a) ∧
    (GLCommandQueue.ConfigureFBO mem tex fbo).1.texR tex = { mem.texR tex with m_fbo := fbo } := by
  refine ⟨rfl, rfl, ?_, ?_, ?_⟩
  · intro a
    by_cases h : a = tex
    · subst h; simp [GLCommandQueue.ConfigureFBO]
    · simp [GLCommandQueue.ConfigureFBO, Function.update_noteq h]
  · intro a h
    simp [GLCommandQueue.ConfigureFBO, Function.update_noteq h]
  · simp [GLCommandQueue.ConfigureFBO]

/-- The loop over the pending framebuffer additions issues, entry by entry in list order, the
calls of `ConfigureFBO` for that entry; it leaves buffers and vertex formats as they are. -/
theorem drainFboAdds_spec (driver : WorkerDriver) (mem0 : Memory) (adds : List Nat) :
    ∀ (k : Nat) (mem : Memory),
      (∀ a, (mem.texR a).m_texs = (mem0.texR a).m_texs) →
      (GLCommandQueue.drainFboAdds driver k adds mem).2 =
        (adds.enumFrom k).flatMap (fun e =>
          (GLCommandQueue.ConfigureFBO mem0 e.2 (driver.genFramebuffer e.1)).2) ∧
      (GLCommandQueue.drainFboAdds driver k adds mem).1.buffer = mem.buffer ∧
      (GLCommandQueue.drainFboAdds driver k adds mem).1.vfmt = mem.vfmt := by
  induction adds with
  | nil => intro k mem _; exact ⟨rfl, rfl, rfl⟩
  | cons tex rest ih =>
    intro k mem h
    obtain ⟨m1, m2, m3, _, _⟩ := ConfigureFBO_mem mem tex (driver.genFramebuffer k)
    obtain ⟨i1, i2, i3⟩ :=
      ih (k + 1) (GLCommandQueue.ConfigureFBO mem tex (driver.genFramebuffer k)).1
        (fun a => (m3 a).trans (h a))
    rw [GLCommandQueue.drainFboAdds]
    refine ⟨?_, i2.trans m1, i3.trans m2⟩
    simp only [List.enumFrom_cons, List.flatMap_cons]
    rw [i1, ConfigureFBO_calls_congr mem mem0 tex _ (h tex)]

/-- The calls of `resize` depend on the object only through `m_samples`, `m_texs`,
`m_bindTexs` and `m_fbo`. -/
theorem resize_calls_congr (t t0 : GLTextureR) (w h : Nat)
    (h1 : t.m_samples = t0.m_samples) (h2 : t.m_texs = t0.m_texs)
    (h3 : t.m_bindTexs = t0.m_bindTexs) (h4 : t.m_fbo = t0.m_fbo) :
    (t.resize w h).2 = (t0.resize w h).2 := by
  unfold GLTextureR.resize
  simp only [h1, h2, h3, h4]
  by_cases hs : t0.m_samples > 1
  · simp only [if_pos hs]
  · simp only [if_neg hs]

theorem resize_fields (t : GLTextureR) (w h : Nat) :
    (t.resize w h).1 = { t with m_width := w, m_height := h } := by
  unfold GLTextureR.resize
  by_cases hs : t.m_samples > 1
  · simp only [if_pos hs]
  · simp only [if_neg hs]

/-- The loop over the pending resizes issues, entry by entry in list order, the calls of
`resize` on the texture as the memory held it when the loop began; it leaves buffers and
vertex formats as they are. -/
theorem drainResizes_spec (mem1 : Memory) (resizes : List RenderTextureResize) :
    ∀ (mem : Memory),
      (∀ a, (mem.texR a).m_samples = (mem1.texR a).m_samples ∧
        (mem.texR a).m_texs = (mem1.texR a).m_texs ∧
        (mem.texR a).m_bindTexs = (mem1.texR a).m_bindTexs ∧
        (mem.texR a).m_fbo = (mem1.texR a).m_fbo) →
      (GLCommandQueue.drainResizes resizes mem).2 =
        resizes.flatMap (fun r => ((mem1.texR r.tex).resize r.width r.height).2) ∧
      (GLCommandQueue.drainResizes resizes mem).1.buffer = mem.buffer ∧
      (GLCommandQueue.drainResizes resizes mem).1.vfmt = mem.vfmt := by
  induction resizes with
  | nil => intro mem _; exact ⟨rfl, rfl, rfl⟩
  | cons r rest ih =>
    intro mem h
    have hrel : ∀ a,
        (({ mem with
            texR := Function.update mem.texR r.tex
              ((mem.texR r.tex).resize r.width r.height).1 } : Memory).texR a).m_samples =
          (mem1.texR a).m_samples ∧
        (({ mem with
            texR := Function.update mem.texR r.tex
              ((mem.texR r.tex).resize r.width r.height).1 } : Memory).texR a).m_texs =
          (mem1.texR a).m_texs ∧
        (({ mem with
            texR := Function.update mem.texR r.tex
              ((mem.texR r.tex).resize r.width r.height).1 } : Memory).texR a).m_bindTexs =
          (mem1.texR a).m_bindTexs ∧
        (({ mem with
            texR := Function.update mem.texR r.tex
              ((mem.texR r.tex).resize r.width r.height).1 } : Memory).texR a).m_fbo =
          (mem1.texR a).m_fbo := by
      intro a
      by_cases ha : a = r.tex
      · subst ha
        simp only [Function.update_same, resize_fields]
        exact h r.tex
      · simp only [Function.update_noteq ha]
        exact h a
    obtain ⟨i1, i2, i3⟩ := ih _ hrel
    rw [GLCommandQueue.drainResizes]
    refine ⟨?_, i2, i3⟩
    simp only [List.flatMap_cons]
    rw [i1, resize_calls_congr _ _ _ _ (h r.tex).1 (h r.tex).2.1 (h r.tex).2.2.1 (h r.tex).2.2.2]

/-- The inner loop of `ConfigureVertexFormat` reads the memory only through the buffer
views. -/
theorem configureElements_congr (sem : VertexSemanticEnum) (mem mem0 : Memory)
    (h : mem.buffer = mem0.buffer) (b stride instStride : Nat)
    (ds : List VertexElementDescriptor) :
    ∀ i offset instOffset lastVBO lastEBO,
      GLCommandQueue.configureElements sem mem b stride instStride ds i offset instOffset
          lastVBO lastEBO =
        GLCommandQueue.configureElements sem mem0 b stride instStride ds i offset instOffset
          lastVBO lastEBO := by
  induction ds with
  | nil => intro i offset instOffset lastVBO lastEBO; rfl
  | cons d rest ih =>
    intro i offset instOffset lastVBO lastEBO
    rw [GLCommandQueue.configureElements, GLCommandQueue.configureElements, h]
    simp only [ih]

/-- The calls of `ConfigureVertexFormat` depend on the memory only through the buffer views
and the element list of the format. -/
theorem ConfigureVertexFormat_calls_congr (sem : VertexSemanticEnum) (mem mem0 : Memory)
    (fmt : Nat) (arrays : Arr3 Nat) (hb : mem.buffer = mem0.buffer)
    (h1 : (mem.vfmt fmt).m_elementCount = (mem0.vfmt fmt).m_elementCount)
    (h2 : (mem.vfmt fmt).m_elements = (mem0.vfmt fmt).m_elements) :
    (GLCommandQueue.ConfigureVertexFormat sem mem fmt arrays).2 =
      (GLCommandQueue.ConfigureVertexFormat sem mem0 fmt arrays).2 := by
  unfold GLCommandQueue.ConfigureVertexFormat
  simp only
  congr 1
  apply List.flatMap_congr
  intro b _
  unfold GLCommandQueue.configureArray GLCommandQueue.descs
  simp only [h1, h2]
  rw [configureElements_congr sem mem mem0 hb]

/-- What `ConfigureVertexFormat` leaves as it is: buffers, render textures, and all of every
vertex format but `m_vao` of the one configured. -/
theorem ConfigureVertexFormat_mem (sem : VertexSemanticEnum) (mem : Memory) (fmt : Nat)
    (arrays : Arr3 Nat) :
    (GLCommandQueue.ConfigureVertexFormat sem mem fmt arrays).1.buffer = mem.buffer ∧
    (GLCommandQueue.ConfigureVertexFormat sem mem fmt arrays).1.texR = mem.texR ∧
    (∀ a, ((GLCommandQueue.ConfigureVertexFormat sem mem fmt arrays).1.vfmt a).m_elementCount =
        (mem.vfmt a).m_elementCount ∧
      ((GLCommandQueue.ConfigureVertexFormat sem mem fmt arrays).1.vfmt a).m_elements =
        (mem.vfmt a).m_elements) ∧
    (∀ a, a ≠ fmt →
      (GLCommandQueue.ConfigureVertexFormat sem mem fmt arrays).1.vfmt a = mem.vfmt a) ∧
    (GLCommandQueue.ConfigureVertexFormat sem mem fmt arrays).1.vfmt fmt =
      { mem.vfmt fmt with m_vao := arrays } := by
  refine ⟨rfl, rfl, ?_, ?_, ?_⟩
  · intro a
    by_cases h : a = fmt
    · subst h; simp [GLCommandQueue.ConfigureVertexFormat]
    · simp [GLCommandQueue.ConfigureVertexFormat, Function.update_noteq h]
  · intro a h
    simp [GLCommandQueue.ConfigureVertexFormat, Function.update_noteq h]
  · simp [GLCommandQueue.ConfigureVertexFormat]

/-- The loop over the pending vertex-format additions issues, entry by entry in list order,
the calls of `ConfigureVertexFormat` for every entry that is not null, and none for a null
entry; it leaves buffers and render textures as they are, and every format that is not in the
list. -/
theorem drainFmtAdds_spec (sem : VertexSemanticEnum) (driver : WorkerDriver) (mem0 : Memory)
    (adds : List (Option Nat)) :
    ∀ (k : Nat) (mem : Memory),
      mem.buffer = mem0.buffer →
      (∀ a, (mem.vfmt a).m_elementCount = (mem0.vfmt a).m_elementCount ∧
        (mem.vfmt a).m_elements = (mem0.vfmt a).m_elements) →
      (GLCommandQueue.drainFmtAdds sem driver k adds mem).2 =
        (adds.enumFrom k).flatMap (fun e =>
          match e.2 with
          | some fmt =>
            (GLCommandQueue.ConfigureVertexFormat sem mem0 fmt (driver.genVertexArrays e.1)).2
          | none => []) ∧
      (GLCommandQueue.drainFmtAdds sem driver k adds mem).1.buffer = mem.buffer ∧
      (GLCommandQueue.drainFmtAdds sem driver k adds mem).1.texR = mem.texR ∧
      ∀ a, some a ∉ adds →
        (GLCommandQueue.drainFmtAdds sem driver k adds mem).1.vfmt a = mem.vfmt a := by
  induction adds with
  | nil => intro k mem _ _; exact ⟨rfl, rfl, rfl, fun _ _ => rfl⟩
  | cons e rest ih =>
    intro k mem hb h
    cases e with
    | none =>
      obtain ⟨i1, i2, i3, i4⟩ := ih (k + 1) mem hb h
      rw [GLCommandQueue.drainFmtAdds]
      refine ⟨?_, i2, i3, fun a ha => i4 a (fun hm => ha (List.mem_cons_of_mem _ hm))⟩
      simp only [List.enumFrom_cons, List.flatMap_cons, List.nil_append]
      exact i1
    | some fmt =>
      obtain ⟨m1, m2, m3, m4, _⟩ :=
        ConfigureVertexFormat_mem sem mem fmt (driver.genVertexArrays k)
      obtain ⟨i1, i2, i3, i4⟩ :=
        ih (k + 1)
          (GLCommandQueue.ConfigureVertexFormat sem mem fmt (driver.genVertexArrays k)).1
          (m1.trans hb)
          (fun a => ⟨((m3 a).1).trans (h a).1, ((m3 a).2).trans (h a).2⟩)
      rw [GLCommandQueue.drainFmtAdds]
      refine ⟨?_, i2.trans m1, i3.trans m2, ?_⟩
      · simp only [List.enumFrom_cons, List.flatMap_cons]
        rw [i1, ConfigureVertexFormat_calls_congr sem mem mem0 fmt _ hb (h fmt).1 (h fmt).2]
      · intro a ha
        have hne : a ≠ fmt := fun e => ha (e ▸ List.mem_cons_self _ _)
        rw [i4 a (fun hm => ha (List.mem_cons_of_mem _ hm)), m4 a hne]

/-- The calls of the drain: the unbind of the framebuffer, then the calls for the five pending
lists, list after list, each in insertion order. -/
theorem drain_calls_eq (sem : VertexSemanticEnum) (driver : WorkerDriver) (q : GLCommandQueue)
    (mem : Memory) :
    (GLCommandQueue.drain sem driver q mem).2 =
      [GLCall.glBindFramebuffer GL_FRAMEBUFFER 0] ++
        (q.m_pendingFboAdds.enumFrom 0).flatMap (fun e =>
          (GLCommandQueue.ConfigureFBO mem e.2 (driver.genFramebuffer e.1)).2) ++
        q.m_pendingResizes.flatMap (fun r =>
          (((GLCommandQueue.drainFboAdds driver 0 q.m_pendingFboAdds mem).1.texR r.tex).resize
            r.width r.height).2) ++
        (q.m_pendingFmtAdds.enumFrom 0).flatMap (fun e =>
          match e.2 with
          | some fmt =>
            (GLCommandQueue.ConfigureVertexFormat sem mem fmt (driver.genVertexArrays e.1)).2
          | none => []) ++
        q.m_pendingFmtDels.map (fun fmt =>
          GLCall.glDeleteVertexArrays 3 [fmt.e0, fmt.e1, fmt.e2]) ++
        q.m_pendingFboDels.map (fun fbo => GLCall.glDeleteFramebuffers 1 [fbo]) := by
  obtain ⟨a1, a2, a3⟩ :=
    drainFboAdds_spec driver mem q.m_pendingFboAdds 0 mem (fun _ => rfl)
  obtain ⟨r1, r2, r3⟩ :=
    drainResizes_spec (GLCommandQueue.drainFboAdds driver 0 q.m_pendingFboAdds mem).1
      q.m_pendingResizes (GLCommandQueue.drainFboAdds driver 0 q.m_pendingFboAdds mem).1
      (fun _ => ⟨rfl, rfl, rfl, rfl⟩)
  obtain ⟨f1, _, _, _⟩ :=
    drainFmtAdds_spec sem driver mem q.m_pendingFmtAdds 0
      (GLCommandQueue.drainResizes q.m_pendingResizes
        (GLCommandQueue.drainFboAdds driver 0 q.m_pendingFboAdds mem).1).1
      (r2.trans a2) (fun a => by rw [r3, a3]; exact ⟨rfl, rfl⟩)
  unfold GLCommandQueue.drain
  simp only
  rw [a1, r1, f1]

/-- C23: on a wake-up of a running worker all five pending lists are empty afterwards, and the
calls of the drain are, in this order: the unbind of the framebuffer; for every pending
framebuffer addition, in insertion order, the calls of `ConfigureFBO`; for every pending
resize, in insertion order, the calls of `resize` on the texture as left by the framebuffer
additions; for every pending vertex-format addition that is not null, in insertion order, the
calls of `ConfigureVertexFormat`; one `glDeleteVertexArrays` for every pending vertex-format
deletion, in insertion order; one `glDeleteFramebuffers` for every pending framebuffer
deletion, in insertion order.  The calls of the pass are those of the drain followed by the
replay of the command buffer. -/
theorem C23_drain_order (sem : VertexSemanticEnum) (driver : WorkerDriver) (q : GLCommandQueue)
    (mem : Memory) (hrun : q.m_running = true) :
    ((GLCommandQueue.RenderingWorker q).m_pendingFboAdds = [] ∧
      (GLCommandQueue.RenderingWorker q).m_pendingResizes = [] ∧
      (GLCommandQueue.RenderingWorker q).m_pendingFmtAdds = [] ∧
      (GLCommandQueue.RenderingWorker q).m_pendingFmtDels = [] ∧
      (GLCommandQueue.RenderingWorker q).m_pendingFboDels = []) ∧
    (GLCommandQueue.drain sem driver q mem).2 =
      [GLCall.glBindFramebuffer GL_FRAMEBUFFER 0] ++
        (q.m_pendingFboAdds.enumFrom 0).flatMap (fun e =>
          (GLCommandQueue.ConfigureFBO mem e.2 (driver.genFramebuffer e.1)).2) ++
        q.m_pendingResizes.flatMap (fun r =>
          (((GLCommandQueue.drainFboAdds driver 0 q.m_pendingFboAdds mem).1.texR r.tex).resize
            r.width r.height).2) ++
        (q.m_pendingFmtAdds.enumFrom 0).flatMap (fun e =>
          match e.2 with
          | some fmt =>
            (GLCommandQueue.ConfigureVertexFormat sem mem fmt (driver.genVertexArrays e.1)).2
          | none => []) ++
        q.m_pendingFmtDels.map (fun fmt =>
          GLCall.glDeleteVertexArrays 3 [fmt.e0, fmt.e1, fmt.e2]) ++
        q.m_pendingFboDels.map (fun fbo => GLCall.glDeleteFramebuffers 1 [fbo]) ∧
    (GLCommandQueue.RenderingWorker.calls sem driver q mem).2 =
      (GLCommandQueue.drain sem driver q mem).2 ++
        GLCommandQueue.replay (GLCommandQueue.drain sem driver q mem).1 q.m_completeBuf
          GL_TRIANGLES ((q.m_cmdBufs.get? q.m_completeBuf).getD []) := by
  refine ⟨?_, ?_, ?_⟩
  · simp [GLCommandQueue.RenderingWorker, hrun]
  · exact drain_calls_eq sem driver q mem
  · simp [GLCommandQueue.RenderingWorker.calls, hrun]

/-- Witness for C23: one pending framebuffer addition (texture at 20), one resize of it, a
live and a nulled vertex-format addition, one vertex-format deletion and one framebuffer
deletion.  The resize binds framebuffer 100, the name the addition has just generated. -/
theorem C23_drain_order_witness :
    ({ m_pendingFboAdds := [20], m_pendingResizes := [{ tex := 20, width := 64, height := 32 }],
       m_pendingFmtAdds := [some 30, none], m_pendingFmtDels := [⟨1, 2, 3⟩],
       m_pendingFboDels := [9] } : GLCommandQueue).m_running = true ∧
    (GLCommandQueue.RenderingWorker
      { m_pendingFboAdds := [20], m_pendingResizes := [{ tex := 20, width := 64, height := 32 }],
        m_pendingFmtAdds := [some 30, none], m_pendingFmtDels := [⟨1, 2, 3⟩],
        m_pendingFboDels := [9] }).m_pendingFboAdds = [] ∧
    (GLCommandQueue.drain exampleSemantics exampleDriver
      { m_pendingFboAdds := [20], m_pendingResizes := [{ tex := 20, width := 64, height := 32 }],
        m_pendingFmtAdds := [some 30, none], m_pendingFmtDels := [⟨1, 2, 3⟩],
        m_pendingFboDels := [9] } exampleMemory).2 =
      [GLCall.glBindFramebuffer GL_FRAMEBUFFER 0,
        GLCall.glGenFramebuffers 1 [100],
        GLCall.glBindFramebuffer GL_FRAMEBUFFER 100,
        GLCall.glFramebufferTexture2D GL_FRAMEBUFFER GL_COLOR_ATTACHMENT0 GL_TEXTURE_2D 0 0,
        GLCall.glFramebufferTexture2D GL_FRAMEBUFFER GL_DEPTH_ATTACHMENT GL_TEXTURE_2D 0 0,
        GLCall.glBindTexture GL_TEXTURE_2D 0,
        GLCall.glTexImage2D GL_TEXTURE_2D 0 GL_RGBA 64 32 0 GL_RGBA GL_UNSIGNED_BYTE,
        GLCall.glBindTexture GL_TEXTURE_2D 0,
        GLCall.glTexImage2D GL_TEXTURE_2D 0 GL_DEPTH_COMPONENT24 64 32 0 GL_DEPTH_COMPONENT
          GL_UNSIGNED_INT,
        GLCall.glBindFramebuffer GL_FRAMEBUFFER 100,
        GLCall.glDepthMask GL_TRUE,
        GLCall.glClear (GL_COLOR_BUFFER_BIT ||| GL_DEPTH_BUFFER_BIT),
        GLCall.glGenVertexArrays 3 [1, 2, 3],
        GLCall.glBindVertexArray 1, GLCall.glBindVertexArray 2, GLCall.glBindVertexArray 3,
        GLCall.glDeleteVertexArrays 3 [1, 2, 3],
        GLCall.glDeleteFramebuffers 1 [9]] :=
  ⟨rfl,
    (C23_drain_order exampleSemantics exampleDriver
      { m_pendingFboAdds := [20], m_pendingResizes := [{ tex := 20, width := 64, height := 32 }],
        m_pendingFmtAdds := [some 30, none], m_pendingFmtDels := [⟨1, 2, 3⟩],
        m_pendingFboDels := [9] } exampleMemory rfl).1.1,
    by decide⟩

/-! ## Vertex formats removed before and after a drain -/

theorem nullFirstAdd_absent (a : Nat) (l : List (Option Nat)) (h : some a ∉ l) :
    GLCommandQueue.nullFirstAdd a l = (false, l) := by
  induction l with
  | nil => rfl
  | cons x xs ih =>
    have hx : x ≠ some a := fun e => h (e ▸ List.mem_cons_self _ _)
    have hxs : some a ∉ xs := fun hm => h (List.mem_cons_of_mem _ hm)
    rw [GLCommandQueue.nullFirstAdd, if_neg hx, ih hxs]

theorem nullFirstAdd_split (a : Nat) (pre post : List (Option Nat)) (h : some a ∉ pre) :
    GLCommandQueue.nullFirstAdd a (pre ++ some a :: post) = (true, pre ++ none :: post) := by
  induction pre with
  | nil => simp [GLCommandQueue.nullFirstAdd]
  | cons x xs ih =>
    have hx : x ≠ some a := fun e => h (e ▸ List.mem_cons_self _ _)
    have hxs : some a ∉ xs := fun hm => h (List.mem_cons_of_mem _ hm)
    rw [List.cons_append, GLCommandQueue.nullFirstAdd, if_neg hx, ih hxs]
    rfl

/-- A null entry at the end of the pending vertex-format additions adds nothing to the
drain. -/
theorem drainFmtAdds_concat_none (sem : VertexSemanticEnum) (driver : WorkerDriver)
    (l : List (Option Nat)) :
    ∀ (k : Nat) (mem : Memory),
      GLCommandQueue.drainFmtAdds sem driver k (l ++ [none]) mem =
        GLCommandQueue.drainFmtAdds sem driver k l mem := by
  induction l with
  | nil => intro k mem; rfl
  | cons x xs ih =>
    intro k mem
    cases x with
    | none => rw [List.cons_append, GLCommandQueue.drainFmtAdds, GLCommandQueue.drainFmtAdds, ih]
    | some fmt =>
      rw [List.cons_append, GLCommandQueue.drainFmtAdds, GLCommandQueue.drainFmtAdds, ih]

/-- The drain leaves every vertex format that has no pending addition as it is. -/
theorem drain_keeps_vfmt (sem : VertexSemanticEnum) (driver : WorkerDriver) (q : GLCommandQueue)
    (mem : Memory) (a : Nat) (h : some a ∉ q.m_pendingFmtAdds) :
    (GLCommandQueue.drain sem driver q mem).1.vfmt a = mem.vfmt a := by
  obtain ⟨_, _, a3⟩ := drainFboAdds_spec driver mem q.m_pendingFboAdds 0 mem (fun _ => rfl)
  obtain ⟨_, _, r3⟩ :=
    drainResizes_spec (GLCommandQueue.drainFboAdds driver 0 q.m_pendingFboAdds mem).1
      q.m_pendingResizes (GLCommandQueue.drainFboAdds driver 0 q.m_pendingFboAdds mem).1
      (fun _ => ⟨rfl, rfl, rfl, rfl⟩)
  obtain ⟨_, _, _, f4⟩ :=
    drainFmtAdds_spec sem driver
      (GLCommandQueue.drainResizes q.m_pendingResizes
        (GLCommandQueue.drainFboAdds driver 0 q.m_pendingFboAdds mem).1).1
      q.m_pendingFmtAdds 0
      (GLCommandQueue.drainResizes q.m_pendingResizes
        (GLCommandQueue.drainFboAdds driver 0 q.m_pendingFboAdds mem).1).1
      rfl (fun _ => ⟨rfl, rfl⟩)
  have : (GLCommandQueue.drain sem driver q mem).1 =
      (GLCommandQueue.drainFmtAdds sem driver 0 q.m_pendingFmtAdds
        (GLCommandQueue.drainResizes q.m_pendingResizes
          (GLCommandQueue.drainFboAdds driver 0 q.m_pendingFboAdds mem).1).1).1 := rfl
  rw [this, f4 a h, r3, a3]

/-- C27: let the address of the vertex format `fmt` occur in no pending-add entry of the queue
(as for the address of a fresh object).  If the format is registered with `addVertexFormat`
and removed with `delVertexFormat` before a drain, with other structural changes in between
(the pending additions then read `pre`, the entry of `fmt`, `post`), the entry of `fmt` is set
to null and nothing else in the queue changes, in particular no deletion is queued; the next
drain leaves the format as it is (its vertex arrays are not generated), and when removal
follows registration immediately the next wake-up issues exactly the calls it would have
issued had the format never been registered.  If the pending addition has been drained, and so
is no longer in the list, `delVertexFormat` appends one entry with the three vertex-array names
of the format to the pending deletions and changes nothing else; after a wake-up of a running
worker that entry is the only pending deletion and the next drain issues one
`glDeleteVertexArrays` for it. -/
theorem C27_vertex_format_removed_before_drain (q : GLCommandQueue) (fmt : GLVertexFormat) :
    (∀ pre post : List (Option Nat),
      q.m_pendingFmtAdds = pre ++ some fmt.addr :: post → some fmt.addr ∉ pre →
      q.delVertexFormat fmt = { q with m_pendingFmtAdds := pre ++ none :: post } ∧
      (some fmt.addr ∉ post →
        ∀ (sem : VertexSemanticEnum) (driver : WorkerDriver) (mem : Memory),
          (GLCommandQueue.drain sem driver (q.delVertexFormat fmt) mem).1.vfmt fmt.addr =
            mem.vfmt fmt.addr)) ∧
    (some fmt.addr ∉ q.m_pendingFmtAdds →
      (q.addVertexFormat fmt).delVertexFormat fmt =
        { q with m_pendingFmtAdds := q.m_pendingFmtAdds ++ [none] } ∧
      (∀ (sem : VertexSemanticEnum) (driver : WorkerDriver) (mem : Memory),
        GLCommandQueue.RenderingWorker.calls sem driver
            ((q.addVertexFormat fmt).delVertexFormat fmt) mem =
          GLCommandQueue.RenderingWorker.calls sem driver q mem) ∧
      q.delVertexFormat fmt =
        { q with m_pendingFmtDels := q.m_pendingFmtDels ++ [fmt.m_vao] }) ∧
    (q.m_running = true →
      (GLCommandQueue.RenderingWorker q).delVertexFormat fmt =
        { GLCommandQueue.RenderingWorker q with m_pendingFmtDels := [fmt.m_vao] } ∧
      ∀ (sem : VertexSemanticEnum) (driver : WorkerDriver) (mem : Memory),
        (GLCommandQueue.drain sem driver
            ((GLCommandQueue.RenderingWorker q).delVertexFormat fmt) mem).2 =
          [GLCall.glBindFramebuffer GL_FRAMEBUFFER 0,
            GLCall.glDeleteVertexArrays 3 [fmt.m_vao.e0, fmt.m_vao.e1, fmt.m_vao.e2]]) := by
  refine ⟨?_, ?_, ?_⟩
  · intro pre post hq hpre
    have hdel : q.delVertexFormat fmt = { q with m_pendingFmtAdds := pre ++ none :: post } := by
      unfold GLCommandQueue.delVertexFormat
      simp only [hq, nullFirstAdd_split fmt.addr pre post hpre]
      rfl
    refine ⟨hdel, ?_⟩
    intro hpost sem driver mem
    apply drain_keeps_vfmt
    rw [hdel]
    show some fmt.addr ∉ pre ++ none :: post
    intro hm
    rcases List.mem_append.mp hm with h1 | h1
    · exact hpre h1
    · rcases List.mem_cons.mp h1 with h2 | h2
      · cases h2
      · exact hpost h2
  · intro hfresh
    have h1 : (q.addVertexFormat fmt).delVertexFormat fmt =
        { q with m_pendingFmtAdds := q.m_pendingFmtAdds ++ [none] } := by
      unfold GLCommandQueue.delVertexFormat GLCommandQueue.addVertexFormat
      simp only [nullFirstAdd_split fmt.addr q.m_pendingFmtAdds [] hfresh]
      rfl
    refine ⟨h1, ?_, ?_⟩
    · intro sem driver mem
      rw [h1]
      unfold GLCommandQueue.RenderingWorker.calls GLCommandQueue.drain
      simp only [drainFmtAdds_concat_none]
    · unfold GLCommandQueue.delVertexFormat
      simp only [nullFirstAdd_absent fmt.addr q.m_pendingFmtAdds hfresh]
      rfl
  · intro hrun
    have hq : GLCommandQueue.RenderingWorker q =
        { q with
          m_drawBuf := q.m_completeBuf
          m_pendingFboAdds := []
          m_pendingResizes := []
          m_pendingFmtAdds := []
          m_pendingFmtDels := []
          m_pendingFboDels := []
          m_pendingPosts2 := []
          m_cmdBufs := q.m_cmdBufs.set q.m_completeBuf []
          postsRun := q.postsRun ++ q.m_pendingPosts2 } := by
      simp [GLCommandQueue.RenderingWorker, hrun]
    rw [hq]
    refine ⟨rfl, fun sem driver mem => rfl⟩

/-- Witness for C27: the format at address 30 is registered in a queue that has one other
pending addition (address 10), then removed: its entry is null; it is removed a second time
after the drain: one deletion entry with its vertex arrays is queued. -/
theorem C27_vertex_format_removed_before_drain_witness :
    (({ m_pendingFmtAdds := [some 10] } : GLCommandQueue).addVertexFormat
        { addr := 30, m_elementCount := 0, m_elements := [] }).m_pendingFmtAdds =
      [some 10] ++ some 30 :: [] ∧
    some 30 ∉ [some 10] ∧
    ((({ m_pendingFmtAdds := [some 10] } : GLCommandQueue).addVertexFormat
        { addr := 30, m_elementCount := 0, m_elements := [] }).delVertexFormat
        { addr := 30, m_elementCount := 0, m_elements := [] }).m_pendingFmtAdds =
      [some 10, none] ∧
    ((GLCommandQueue.RenderingWorker
        { m_pendingFmtAdds := [some 10, some 30] }).delVertexFormat
        { addr := 30, m_vao := ⟨4, 5, 6⟩, m_elementCount := 0, m_elements := [] }
      ).m_pendingFmtDels = [⟨4, 5, 6⟩] :=
  ⟨rfl, by decide,
    congrArg (fun x => x.m_pendingFmtAdds)
      ((C27_vertex_format_removed_before_drain
        (({ m_pendingFmtAdds := [some 10] } : GLCommandQueue).addVertexFormat
          { addr := 30, m_elementCount := 0, m_elements := [] })
        { addr := 30, m_elementCount := 0, m_elements := [] }).1 [some 10] [] rfl
        (by decide)).1,
    congrArg (fun x => x.m_pendingFmtDels)
      ((C27_vertex_format_removed_before_drain { m_pendingFmtAdds := [some 10, some 30] }
        { addr := 30, m_vao := ⟨4, 5, 6⟩, m_elementCount := 0, m_elements := [] }).2.2 rfl).1⟩

/-! ## A render target destroyed before the drain -/

/-- C28 (what the code does): `delFBO` appends `m_fbo` of the texture to the pending
framebuffer deletions and touches neither the pending additions nor the pending resizes.  So
after a render target has been created (`addFBO` and the resize request of
`newRenderTexture`) and destroyed before a drain, the last pending addition and the last
pending resize still hold its address, and the next drain issues the calls of `ConfigureFBO`
and of `resize` for it, whatever the memory at that address then holds.  In particular a
transaction that creates a 64 x 32 render target (at address 20) and returns `false` leaves
the queue with the addition `[20]`, the resize `(20, 64, 32)` and the deletion `[0]`, and the
registry empty; the next drain stores the generated framebuffer name and the size at address
20. -/
theorem C28_destroyed_render_target_stays_pending :
    (∀ (q : GLCommandQueue) (tex : GLTextureR) (width height : Nat),
      (((q.addFBO tex).resizeRenderTexture tex width height).delFBO tex).m_pendingFboAdds =
          q.m_pendingFboAdds ++ [tex.addr] ∧
        (((q.addFBO tex).resizeRenderTexture tex width height).delFBO tex).m_pendingResizes =
          q.m_pendingResizes ++ [{ tex := tex.addr, width := width, height := height }] ∧
        (((q.addFBO tex).resizeRenderTexture tex width height).delFBO tex).m_pendingFboDels =
          q.m_pendingFboDels ++ [tex.m_fbo] ∧
        ∀ (sem : VertexSemanticEnum) (driver : WorkerDriver) (mem : Memory) (c : GLCall),
          (c ∈ (GLCommandQueue.ConfigureFBO mem tex.addr
                (driver.genFramebuffer q.m_pendingFboAdds.length)).2 ∨
            c ∈ (((GLCommandQueue.drainFboAdds driver 0 (q.m_pendingFboAdds ++ [tex.addr])
                mem).1.texR tex.addr).resize width height).2) →
          c ∈ (GLCommandQueue.drain sem driver
            (((q.addFBO tex).resizeRenderTexture tex width height).delFBO tex) mem).2) ∧
    (∃ ctx : GraphicsContext,
      GLDataFactory.commitTransaction 1
          (Trans.call (FactoryCall.newRenderTexture 64 32 false false (1, 2, 3, 4) 20) fun _ =>
            Trans.ret false) {} = .ok (none, ctx) ∧
        ctx.dataFactory.m_committedData = [] ∧
        ctx.dataFactory.m_deferredData = none ∧
        ctx.commandQueue.m_pendingFboAdds = [20] ∧
        ctx.commandQueue.m_pendingResizes = [{ tex := 20, width := 64, height := 32 }] ∧
        ctx.commandQueue.m_pendingFboDels = [0] ∧
        (GLCommandQueue.drain exampleSemantics exampleDriver ctx.commandQueue
            exampleMemory).2 =
          [GLCall.glBindFramebuffer GL_FRAMEBUFFER 0,
            GLCall.glGenFramebuffers 1 [100],
            GLCall.glBindFramebuffer GL_FRAMEBUFFER 100,
            GLCall.glFramebufferTexture2D GL_FRAMEBUFFER GL_COLOR_ATTACHMENT0 GL_TEXTURE_2D 0 0,
            GLCall.glFramebufferTexture2D GL_FRAMEBUFFER GL_DEPTH_ATTACHMENT GL_TEXTURE_2D 0 0,
            GLCall.glBindTexture GL_TEXTURE_2D 0,
            GLCall.glTexImage2D GL_TEXTURE_2D 0 GL_RGBA 64 32 0 GL_RGBA GL_UNSIGNED_BYTE,
            GLCall.glBindTexture GL_TEXTURE_2D 0,
            GLCall.glTexImage2D GL_TEXTURE_2D 0 GL_DEPTH_COMPONENT24 64 32 0 GL_DEPTH_COMPONENT
              GL_UNSIGNED_INT,
            GLCall.glBindFramebuffer GL_FRAMEBUFFER 100,
            GLCall.glDepthMask GL_TRUE,
            GLCall.glClear (GL_COLOR_BUFFER_BIT ||| GL_DEPTH_BUFFER_BIT),
            GLCall.glDeleteFramebuffers 1 [0]] ∧
        (GLCommandQueue.drain exampleSemantics exampleDriver ctx.commandQueue
            exampleMemory).1.texR 20 =
          { addr := 20, m_fbo := 100, m_width := 64, m_height := 32 }) := by
  constructor
  · intro q tex width height
    refine ⟨rfl, rfl, rfl, ?_⟩
    intro sem driver mem c hc
    rw [drain_calls_eq]
    have hadds : (((q.addFBO tex).resizeRenderTexture tex width height).delFBO
        tex).m_pendingFboAdds = q.m_pendingFboAdds ++ [tex.addr] := rfl
    have hres : (((q.addFBO tex).resizeRenderTexture tex width height).delFBO
        tex).m_pendingResizes =
        q.m_pendingResizes ++ [{ tex := tex.addr, width := width, height := height }] := rfl
    rw [hadds, hres]
    simp only [List.enumFrom_append, List.flatMap_append, List.enumFrom_cons, List.enumFrom_nil,
      List.flatMap_cons, List.flatMap_nil, List.append_nil, Nat.zero_add, List.mem_append]
    rcases hc with hc | hc
    · exact Or.inl (Or.inl (Or.inl (Or.inl (Or.inr (Or.inr hc)))))
    · exact Or.inl (Or.inl (Or.inl (Or.inr (Or.inr hc))))
  · refine ⟨_, rfl, rfl, rfl, rfl, rfl, rfl, by decide, ?_⟩
    rfl

/-! ## Strides and offsets of a vertex format -/

theorem semantic_size_le (k : Nat) : SEMANTIC_SIZE_TABLE.getD k 0 ≤ 16 := by
  by_cases h : k < 11
  · interval_cases k <;> decide
  · rw [List.getD_eq_default _ _ (by simpa [SEMANTIC_SIZE_TABLE] using h)]
    omega

theorem classSize_append (sem : VertexSemanticEnum) (inst : Bool)
    (xs ys : List VertexElementDescriptor) :
    classSize sem inst (xs ++ ys) = classSize sem inst xs + classSize sem inst ys := by
  induction xs with
  | nil => simp [classSize]
  | cons x xs ih =>
    rw [List.cons_append]
    simp only [classSize]
    rw [ih]
    omega

theorem classSize_le (sem : VertexSemanticEnum) (inst : Bool)
    (ds : List VertexElementDescriptor) : classSize sem inst ds ≤ 16 * ds.length := by
  induction ds with
  | nil => simp [classSize]
  | cons d ds ih =>
    simp only [classSize, List.length_cons]
    have := semantic_size_le (d.maskedSem sem)
    split_ifs <;> omega

/-- The first loop of `ConfigureVertexFormat` adds up the table sizes per class, as long as the
sums stay inside `size_t`. -/
theorem strides_eq (sem : VertexSemanticEnum) (ds : List VertexElementDescriptor) :
    ∀ s i : Nat, s + classSize sem false ds < SIZE_MAX1 → i + classSize sem true ds < SIZE_MAX1 →
      GLCommandQueue.strides sem ds (s, i) =
        (s + classSize sem false ds, i + classSize sem true ds) := by
  induction ds with
  | nil => intro s i _ _; simp [GLCommandQueue.strides, classSize]
  | cons d ds ih =>
    intro s i hs hi
    by_cases hinst : d.semantic &&& sem.Instanced ≠ sem.None
    · have hb : d.instanced sem = true := by
        simp [VertexElementDescriptor.instanced, hinst]
      simp only [classSize, hb, Bool.true_eq_false, if_false, if_true, Nat.zero_add] at hs hi ⊢
      rw [GLCommandQueue.strides, if_pos hinst]
      have hlt : i + SEMANTIC_SIZE_TABLE.getD (d.semantic &&& sem.SemanticMask) 0 < SIZE_MAX1 := by
        have : SEMANTIC_SIZE_TABLE.getD (d.maskedSem sem) 0 =
            SEMANTIC_SIZE_TABLE.getD (d.semantic &&& sem.SemanticMask) 0 := rfl
        omega
      rw [Nat.mod_eq_of_lt hlt, ih s _ hs (by
        have : SEMANTIC_SIZE_TABLE.getD (d.maskedSem sem) 0 =
            SEMANTIC_SIZE_TABLE.getD (d.semantic &&& sem.SemanticMask) 0 := rfl
        omega)]
      have : SEMANTIC_SIZE_TABLE.getD (d.maskedSem sem) 0 =
          SEMANTIC_SIZE_TABLE.getD (d.semantic &&& sem.SemanticMask) 0 := rfl
      rw [this, Nat.add_assoc]
    · have hb : d.instanced sem = false := by
        simp [VertexElementDescriptor.instanced, hinst]
      simp only [classSize, hb, Bool.false_eq_true, if_false, if_true, Nat.zero_add] at hs hi ⊢
      rw [GLCommandQueue.strides, if_neg hinst]
      have e : SEMANTIC_SIZE_TABLE.getD (d.maskedSem sem) 0 =
          SEMANTIC_SIZE_TABLE.getD (d.semantic &&& sem.SemanticMask) 0 := rfl
      have hlt : s + SEMANTIC_SIZE_TABLE.getD (d.semantic &&& sem.SemanticMask) 0 < SIZE_MAX1 := by
        omega
      rw [Nat.mod_eq_of_lt hlt, ih _ i (by omega) hi, e, Nat.add_assoc]

/-- The `glVertexAttribPointer` calls of the inner loop of `ConfigureVertexFormat`, started
after the elements `pre` with the offsets these have added up: one per remaining element, with
the stride of its class and the sizes of the earlier elements of its class as offset. -/
theorem configureElements_pointers (sem : VertexSemanticEnum) (mem : Memory)
    (b stride instStride : Nat) (all rest : List VertexElementDescriptor) :
    ∀ (pre : List VertexElementDescriptor) (lastVBO lastEBO : Nat),
      all = pre ++ rest →
      classSize sem false all < SIZE_MAX1 → classSize sem true all < SIZE_MAX1 →
      (GLCommandQueue.configureElements sem mem b stride instStride rest pre.length
          (classSize sem false pre) (classSize sem true pre) lastVBO lastEBO).filter
          GLCall.isAttribPointer =
        (rest.enumFrom pre.length).map (fun e =>
          GLCall.glVertexAttribPointer e.1 (SEMANTIC_COUNT_TABLE.getD (e.2.maskedSem sem) 0)
            (SEMANTIC_TYPE_TABLE.getD (e.2.maskedSem sem) 0) GL_TRUE
            (if e.2.instanced sem = true then instStride else stride)
            (classSize sem (e.2.instanced sem) (all.take e.1))) := by
  induction rest with
  | nil => intro pre lastVBO lastEBO _ _ _; rfl
  | cons d rest ih =>
    intro pre lastVBO lastEBO hall h1 h2
    have hall2 : all = (pre ++ [d]) ++ rest := by rw [hall]; simp
    have htake : all.take pre.length = pre := by rw [hall]; simp
    have hlen : (pre ++ [d]).length = pre.length + 1 := by simp
    have e : SEMANTIC_SIZE_TABLE.getD (d.maskedSem sem) 0 =
        SEMANTIC_SIZE_TABLE.getD (d.semantic &&& sem.SemanticMask) 0 := rfl
    have hf1 : ∀ (c : Prop) [Decidable c] (t n : Nat),
        (if c then [GLCall.glBindBuffer t n] else []).filter GLCall.isAttribPointer = [] := by
      intro c _ t n
      split_ifs <;> rfl
    have hf2 : ∀ i : Nat,
        [GLCall.glEnableVertexAttribArray i].filter GLCall.isAttribPointer = [] := fun _ => rfl
    have hf3 : ∀ i c t n s o : Nat,
        [GLCall.glVertexAttribPointer i c t n s o, GLCall.glVertexAttribDivisor i 1].filter
          GLCall.isAttribPointer = [GLCall.glVertexAttribPointer i c t n s o] :=
      fun _ _ _ _ _ _ => rfl
    have b1 := classSize_append sem false (pre ++ [d]) rest
    have b2 := classSize_append sem true (pre ++ [d]) rest
    have c1 := classSize_append sem false pre [d]
    have c2 := classSize_append sem true pre [d]
    rw [← hall2] at b1 b2
    by_cases hinst : d.semantic &&& sem.Instanced ≠ sem.None
    · have hb : d.instanced sem = true := by
        simp [VertexElementDescriptor.instanced, hinst]
      simp only [classSize, hb, Bool.true_eq_false, if_false, if_true, Nat.zero_add,
        Nat.add_zero] at c1 c2
      have hlt : classSize sem true pre +
          SEMANTIC_SIZE_TABLE.getD (d.semantic &&& sem.SemanticMask) 0 < SIZE_MAX1 := by omega
      have hnext := ih (pre ++ [d]) d.vertBuffer d.indexBuffer hall2 h1 h2
      rw [hlen, c1, c2, e] at hnext
      rw [GLCommandQueue.configureElements]
      simp only [if_pos hinst, List.filter_append, hf1, hf2, hf3, List.nil_append,
        List.singleton_append, Nat.mod_eq_of_lt hlt, hnext, List.enumFrom_cons, List.map_cons,
        htake, hb, if_true]
      rfl
    · have hb : d.instanced sem = false := by
        simp [VertexElementDescriptor.instanced, hinst]
      simp only [classSize, hb, Bool.false_eq_true, if_false, if_true, Nat.zero_add,
        Nat.add_zero] at c1 c2
      have hlt : classSize sem false pre +
          SEMANTIC_SIZE_TABLE.getD (d.semantic &&& sem.SemanticMask) 0 < SIZE_MAX1 := by omega
      have hnext := ih (pre ++ [d]) d.vertBuffer d.indexBuffer hall2 h1 h2
      rw [hlen, c1, c2, e] at hnext
      rw [GLCommandQueue.configureElements]
      simp only [if_neg hinst, List.filter_append, hf1, hf2, List.nil_append,
        List.singleton_append, Nat.mod_eq_of_lt hlt, List.enumFrom_cons, List.map_cons, htake, hb]
      rw [List.filter_cons_of_pos (by rfl), hnext]
      simp [VertexElementDescriptor.maskedSem]

theorem descs_length (fmt : GLVertexFormat) :
    (GLCommandQueue.descs fmt).length = fmt.m_elementCount := by
  simp [GLCommandQueue.descs]

/-- The `glVertexAttribPointer` calls of one iteration of the loop over the three vertex
arrays. -/
theorem configureArray_pointers (sem : VertexSemanticEnum) (mem : Memory) (fmt : GLVertexFormat)
    (b : Nat) (hsz : 16 * fmt.m_elementCount < SIZE_MAX1) :
    (GLCommandQueue.configureArray sem mem fmt b).filter GLCall.isAttribPointer =
      expectedPointers sem (GLCommandQueue.descs fmt) := by
  have hl := descs_length fmt
  have h1 : classSize sem false (GLCommandQueue.descs fmt) < SIZE_MAX1 :=
    lt_of_le_of_lt (classSize_le sem false _) (by rw [hl]; exact hsz)
  have h2 : classSize sem true (GLCommandQueue.descs fmt) < SIZE_MAX1 :=
    lt_of_le_of_lt (classSize_le sem true _) (by rw [hl]; exact hsz)
  have hs := strides_eq sem (GLCommandQueue.descs fmt) 0 0 (by simpa using h1) (by simpa using h2)
  simp only [Nat.zero_add] at hs
  have hp := configureElements_pointers sem mem b
    (classSize sem false (GLCommandQueue.descs fmt)) (classSize sem true (GLCommandQueue.descs fmt))
    (GLCommandQueue.descs fmt) (GLCommandQueue.descs fmt) [] 0 0 rfl h1 h2
  unfold GLCommandQueue.configureArray
  rw [List.filter_cons_of_neg (by simp [GLCall.isAttribPointer]), hs]
  simp only [List.length_nil, classSize] at hp
  rw [hp]
  unfold expectedPointers List.enum
  apply List.map_congr_left
  intro e _
  cases e.2.instanced sem <;> simp

/-- C30: let the element count of the format at `fmt` be such that sixteen bytes per element
stay inside `size_t`, and let `ds` be its elements as `ConfigureVertexFormat` reads them.  The
stride computed for per-vertex attributes is the sum of `SEMANTIC_SIZE_TABLE` over the
per-vertex elements and the stride for per-instance attributes the sum over the per-instance
elements; in each of the three vertex arrays the `glVertexAttribPointer` calls are, in order,
one per element `i`, with the count and type of its semantic, the stride of its class and as
offset the sum of the sizes of the earlier elements of its class, the same list for the three
arrays; for every element that offset plus its size is at most the stride of its class; and
for every semantic index from 1 to 10 the size in the table is the component count times the
byte width of the component type. -/
theorem C30_vertex_format_strides_and_offsets (sem : VertexSemanticEnum) (mem : Memory)
    (fmt : Nat) (arrays : Arr3 Nat)
    (hsz : 16 * (mem.vfmt fmt).m_elementCount < SIZE_MAX1) :
    GLCommandQueue.strides sem (GLCommandQueue.descs (mem.vfmt fmt)) (0, 0) =
      (classSize sem false (GLCommandQueue.descs (mem.vfmt fmt)),
        classSize sem true (GLCommandQueue.descs (mem.vfmt fmt))) ∧
    (∀ b, (GLCommandQueue.configureArray sem mem { mem.vfmt fmt with m_vao := arrays }
        b).filter GLCall.isAttribPointer =
      expectedPointers sem (GLCommandQueue.descs (mem.vfmt fmt))) ∧
    (GLCommandQueue.ConfigureVertexFormat sem mem fmt arrays).2.filter GLCall.isAttribPointer =
      expectedPointers sem (GLCommandQueue.descs (mem.vfmt fmt)) ++
        expectedPointers sem (GLCommandQueue.descs (mem.vfmt fmt)) ++
        expectedPointers sem (GLCommandQueue.descs (mem.vfmt fmt)) ∧
    (∀ (i : Nat) (d : VertexElementDescriptor),
      (GLCommandQueue.descs (mem.vfmt fmt))[i]? = some d →
      classSize sem (d.instanced sem) ((GLCommandQueue.descs (mem.vfmt fmt)).take i) +
          SEMANTIC_SIZE_TABLE.getD (d.maskedSem sem) 0 ≤
        classSize sem (d.instanced sem) (GLCommandQueue.descs (mem.vfmt fmt))) ∧
    (∀ s, 1 ≤ s → s ≤ 10 →
      SEMANTIC_SIZE_TABLE.getD s 0 =
        SEMANTIC_COUNT_TABLE.getD s 0 * componentWidth (SEMANTIC_TYPE_TABLE.getD s 0)) := by
  have hl := descs_length (mem.vfmt fmt)
  have h1 : classSize sem false (GLCommandQueue.descs (mem.vfmt fmt)) < SIZE_MAX1 :=
    lt_of_le_of_lt (classSize_le sem false _) (by rw [hl]; exact hsz)
  have h2 : classSize sem true (GLCommandQueue.descs (mem.vfmt fmt)) < SIZE_MAX1 :=
    lt_of_le_of_lt (classSize_le sem true _) (by rw [hl]; exact hsz)
  have hd : GLCommandQueue.descs { mem.vfmt fmt with m_vao := arrays } =
      GLCommandQueue.descs (mem.vfmt fmt) := rfl
  have hb : ∀ b, (GLCommandQueue.configureArray sem mem { mem.vfmt fmt with m_vao := arrays }
      b).filter GLCall.isAttribPointer =
      expectedPointers sem (GLCommandQueue.descs (mem.vfmt fmt)) := by
    intro b
    have := configureArray_pointers sem mem { mem.vfmt fmt with m_vao := arrays } b hsz
    rw [hd] at this
    exact this
  refine ⟨?_, hb, ?_, ?_, ?_⟩
  · have hs := strides_eq sem (GLCommandQueue.descs (mem.vfmt fmt)) 0 0 (by simpa using h1)
      (by simpa using h2)
    simpa using hs
  · unfold GLCommandQueue.ConfigureVertexFormat
    simp only
    rw [List.filter_cons_of_neg (by simp [GLCall.isAttribPointer])]
    have hr : List.range 3 = [0, 1, 2] := by decide
    rw [hr]
    simp only [List.flatMap_cons, List.flatMap_nil, List.append_nil, List.filter_append, hb,
      List.append_assoc]
  · intro i d hid
    obtain ⟨hi, hget⟩ := List.getElem?_eq_some_iff.mp hid
    have hsplit : GLCommandQueue.descs (mem.vfmt fmt) =
        (GLCommandQueue.descs (mem.vfmt fmt)).take i ++
          d :: (GLCommandQueue.descs (mem.vfmt fmt)).drop (i + 1) := by
      rw [← hget, ← List.drop_eq_getElem_cons hi, List.take_append_drop]
    have := classSize_append sem (d.instanced sem)
      ((GLCommandQueue.descs (mem.vfmt fmt)).take i)
      (d :: (GLCommandQueue.descs (mem.vfmt fmt)).drop (i + 1))
    rw [← hsplit] at this
    rw [this]
    simp only [classSize, if_true]
    omega
  · intro s hs1 hs2
    interval_cases s <;> decide

/-- Witness for C30: a position, a colour and a per-instance texture coordinate: the strides
are 16 and 8, the colour sits at offset 12 and the texture coordinate at offset 0 of its own
class; the three vertex arrays get the same three pointers. -/
theorem C30_vertex_format_strides_and_offsets_witness :
    16 * (exampleFormatMemory.vfmt 30).m_elementCount < SIZE_MAX1 ∧
    GLCommandQueue.strides exampleSemantics (GLCommandQueue.descs (exampleFormatMemory.vfmt 30))
        (0, 0) =
      (classSize exampleSemantics false (GLCommandQueue.descs (exampleFormatMemory.vfmt 30)),
        classSize exampleSemantics true (GLCommandQueue.descs (exampleFormatMemory.vfmt 30))) ∧
    GLCommandQueue.strides exampleSemantics (GLCommandQueue.descs (exampleFormatMemory.vfmt 30))
        (0, 0) = (16, 8) ∧
    expectedPointers exampleSemantics (GLCommandQueue.descs (exampleFormatMemory.vfmt 30)) =
      [GLCall.glVertexAttribPointer 0 3 GL_FLOAT GL_TRUE 16 0,
        GLCall.glVertexAttribPointer 1 4 GL_UNSIGNED_BYTE GL_TRUE 16 12,
        GLCall.glVertexAttribPointer 2 2 GL_FLOAT GL_TRUE 8 0] ∧
    (GLCommandQueue.ConfigureVertexFormat exampleSemantics exampleFormatMemory 30
        ⟨1, 2, 3⟩).2 =
      [GLCall.glGenVertexArrays 3 [1, 2, 3],
        GLCall.glBindVertexArray 1,
        GLCall.glBindBuffer GL_ARRAY_BUFFER 40,
        GLCall.glEnableVertexAttribArray 0,
        GLCall.glVertexAttribPointer 0 3 GL_FLOAT GL_TRUE 16 0,
        GLCall.glEnableVertexAttribArray 1,
        GLCall.glVertexAttribPointer 1 4 GL_UNSIGNED_BYTE GL_TRUE 16 12,
        GLCall.glEnableVertexAttribArray 2,
        GLCall.glVertexAttribPointer 2 2 GL_FLOAT GL_TRUE 8 0,
        GLCall.glVertexAttribDivisor 2 1,
        GLCall.glBindVertexArray 2,
        GLCall.glBindBuffer GL_ARRAY_BUFFER 40,
        GLCall.glEnableVertexAttribArray 0,
        GLCall.glVertexAttribPointer 0 3 GL_FLOAT GL_TRUE 16 0,
        GLCall.glEnableVertexAttribArray 1,
        GLCall.glVertexAttribPointer 1 4 GL_UNSIGNED_BYTE GL_TRUE 16 12,
        GLCall.glEnableVertexAttribArray 2,
        GLCall.glVertexAttribPointer 2 2 GL_FLOAT GL_TRUE 8 0,
        GLCall.glVertexAttribDivisor 2 1,
        GLCall.glBindVertexArray 3,
        GLCall.glBindBuffer GL_ARRAY_BUFFER 40,
        GLCall.glEnableVertexAttribArray 0,
        GLCall.glVertexAttribPointer 0 3 GL_FLOAT GL_TRUE 16 0,
        GLCall.glEnableVertexAttribArray 1,
        GLCall.glVertexAttribPointer 1 4 GL_UNSIGNED_BYTE GL_TRUE 16 12,
        GLCall.glEnableVertexAttribArray 2,
        GLCall.glVertexAttribPointer 2 2 GL_FLOAT GL_TRUE 8 0,
        GLCall.glVertexAttribDivisor 2 1] :=
  ⟨by decide,
    (C30_vertex_format_strides_and_offsets exampleSemantics exampleFormatMemory 30 ⟨1, 2, 3⟩
      (by decide)).1,
    by decide, by decide, by decide⟩

end boo
